import Mathlib

/-!
# CEPAC keyword/value codec — shallow embedding and verification

This file embeds the positional keyword/value codec of the CEPAC UI tooling:

* `create_default_params` — the schema/default parameter tree
  (`src/ui/param_schema.py`),
* `generate` — the encoder `InputGenerator.generate`
  (`src/ui/input_generator.py`),
* `parse_content` — the decoder `InputParser.parse_content`
  (`src/ui/input_parser.py`),

and proves the properties stated in the specification about them.

Modelling conventions:

* Python's dynamically typed parameter values become the inductive `Val`
  (bool / int / float / string / list / dict), and the parameter tree
  (a dict of dicts) becomes an insertion-ordered association list.
* Python floats are modelled exactly, as rationals (`PFloat.num`), plus
  the distinguished values `inf`/`-inf`/`nan` which Python's `float(...)`
  can produce from tokens such as `"inf"` and `"nan"` — and, by binary64
  overflow, from finite decimal literals at or above
  `2 ^ 1024 - 2 ^ 970` (`float("1e400")` is `inf`; see `pow10Overflows`).
  Binary rounding of finite doubles below that threshold and underflow
  of tiny literals to zero are not modelled; neither changes which
  exceptions the decoder can raise, and no theorem below depends on
  values where the exact rational and the double differ at 6
  significant digits.
* Exceptions that the Python code can actually raise to the caller are
  modelled with `Option`: a `none` result of the decoder corresponds to
  an uncaught exception (`_read_int` raises `OverflowError` when
  `int(float(token))` is applied to an infinite float).  All other
  exceptions in the decoder are caught locally and modelled by their
  fallback values.
-/

namespace CEPAC

/-- Python float values: an exact rational, a signed infinity, or NaN.
NaN and the infinities arise from `float("nan")`, `float("inf")` etc. -/
inductive PFloat where
  | num (q : ℚ)
  | inf (neg : Bool)
  | nan
deriving Repr

/-- A dynamically typed Python value, as stored in the parameter tree.
Mirrors the runtime types the codec dispatches on with `isinstance`:
`bool`, `int`, `float`, `str`, `list`, `dict`. -/
inductive Val where
  | VBool (b : Bool)
  | VInt (n : ℤ)
  | VFloat (f : PFloat)
  | VStr (s : String)
  | VList (elems : List Val)
  | VObj (fields : List (String × Val))
deriving Repr

/-- Shorthand for an exact (finite) float value. -/
def vf (q : ℚ) : Val := .VFloat (.num q)

/-- Shorthand for an int value. -/
def vi (n : ℤ) : Val := .VInt n

/-- Shorthand for a bool value. -/
def vb (b : Bool) : Val := .VBool b

/-- Shorthand for a string value. -/
def vs (s : String) : Val := .VStr s

/-- A section of the tree: field name → value, in insertion order. -/
abbrev Sect := List (String × Val)

/-- The parameter tree: section name → section, in insertion order. -/
abbrev Params := List (String × Sect)

/-! ## Association list primitives (Python `dict` access) -/

/-- First-match association lookup (`d.get(k)`). -/
def alookup (k : String) : List (String × α) → Option α
  | [] => none
  | (k', v) :: t => if k' = k then some v else alookup k t

/-- Dict update `d[k] = v`: replace the first binding of `k` in place,
or append a new binding at the end, as a Python dict does. -/
def aset (k : String) (v : α) : List (String × α) → List (String × α)
  | [] => [(k, v)]
  | (k', v') :: t => if k' = k then (k', v) :: t else (k', v') :: aset k v t

/-! ## Character-level Python string primitives -/

/-- Python ASCII whitespace, the separator class of `str.split()`. -/
def isPyWs (c : Char) : Bool :=
  c = ' ' || c = '\t' || c = '\n' || c = '\x0d' || c = '\x0b' || c = '\x0c'

/-- ASCII lowercase of one character (`str.lower` on the ASCII range). -/
def asciiLower (c : Char) : Char :=
  if 'A' ≤ c && c ≤ 'Z' then Char.ofNat (c.toNat + 32) else c

/-- `str.lower()` restricted to ASCII letters. -/
def pyLower (s : String) : String := ⟨s.data.map asciiLower⟩

/-- `s.startswith(pre)`. -/
def pyStartswith (s pre : String) : Bool := pre.data.isPrefixOf s.data

/-- `line[:line.index(pat)]` when `pat` occurs in `line`, else the whole
line: cut everything from the first occurrence of `pat` onwards. -/
def cutBeforeSub (pat : List Char) : List Char → List Char
  | [] => []
  | c :: t => if pat.isPrefixOf (c :: t) then [] else c :: cutBeforeSub pat t

/-- `s.split(sep)` for a single-character separator; keeps empty pieces,
so splitting the empty string yields `[[]]` as in Python. -/
def splitOnChar (sep : Char) : List Char → List (List Char)
  | [] => [[]]
  | c :: t =>
    if c = sep then [] :: splitOnChar sep t
    else
      match splitOnChar sep t with
      | [] => [[c]]
      | h :: r => (c :: h) :: r

/-- `sep.join(pieces)` for a single-character separator. -/
def intercalateChar (sep : Char) : List (List Char) → List Char
  | [] => []
  | [x] => x
  | x :: xs => x ++ sep :: intercalateChar sep xs

/-- Worker for `pySplitWs`: `acc` holds the current token reversed. -/
def splitWsAux : List Char → List Char → List (List Char)
  | [], [] => []
  | [], acc => [acc.reverse]
  | c :: t, acc =>
    if isPyWs c then
      match acc with
      | [] => splitWsAux t []
      | _ => acc.reverse :: splitWsAux t []
    else splitWsAux t (c :: acc)

/-- `s.split()` with no argument: split on runs of whitespace, dropping
empty pieces. -/
def pySplitWs (l : List Char) : List (List Char) := splitWsAux l []

/-! ## Python numeric literal parsing (`int(...)` and `float(...)`) -/

/-- Decimal digit value of a character. -/
def digitVal (c : Char) : ℕ := c.toNat - 48

/-- Continue a digit group after its first digit: further digits, with
single underscores allowed between digits (`int("1_000")`). -/
def digitsUSAux : List Char → ℕ → Option ℕ
  | [], acc => some acc
  | '_' :: c :: rest, acc =>
    if c.isDigit then digitsUSAux rest (acc * 10 + digitVal c) else none
  | ['_'], _ => none
  | c :: rest, acc =>
    if c.isDigit then digitsUSAux rest (acc * 10 + digitVal c) else none

/-- Parse a complete digit group (value and digit count).  The empty
group parses as `(0, 0)`; a nonempty group must start with a digit. -/
def digitGroup : List Char → Option (ℕ × ℕ)
  | [] => some (0, 0)
  | c :: rest =>
    if c.isDigit then
      match digitsUSAuxCount rest (digitVal c) 1 with
      | some (v, n) => some (v, n)
      | none => none
    else none
where
  /-- Like `digitsUSAux` but also counting digits. -/
  digitsUSAuxCount : List Char → ℕ → ℕ → Option (ℕ × ℕ)
  | [], acc, cnt => some (acc, cnt)
  | '_' :: c :: rest, acc, cnt =>
    if c.isDigit then digitsUSAuxCount rest (acc * 10 + digitVal c) (cnt + 1)
    else none
  | ['_'], _, _ => none
  | c :: rest, acc, cnt =>
    if c.isDigit then digitsUSAuxCount rest (acc * 10 + digitVal c) (cnt + 1)
    else none

/-- Python `int(token)` on a whitespace-free token: optional sign, then a
nonempty digit group.  `none` models `ValueError`. -/
def pyInt (s : String) : Option ℤ :=
  match s.data with
  | '+' :: rest => (core rest).map Int.ofNat
  | '-' :: rest => (core rest).map (fun n => -(n : ℤ))
  | rest => (core rest).map Int.ofNat
where
  core (l : List Char) : Option ℕ :=
    match l with
    | c :: rest => if c.isDigit then digitsUSAux rest (digitVal c) else none
    | [] => none

/-- Multiply a rational by `10 ^ e` for a possibly negative exponent. -/
def mulPow10 (q : ℚ) (e : ℤ) : ℚ :=
  if 0 ≤ e then q * (10 : ℚ) ^ e.toNat else q / (10 : ℚ) ^ (-e).toNat

/-- Span of digit-or-underscore characters. -/
def spanDigitsUS (l : List Char) : List Char × List Char :=
  l.span (fun c => c.isDigit || c = '_')

/-- Parse the body of a Python float literal (no sign): `digits`,
`digits.digits`, `.digits`, `digits.` — each optionally followed by an
exponent `e`/`E`, optional sign, digits.  Returns the mantissa digits
and the net decimal exponent, so the literal's value is
`mant * 10 ^ e`. -/
def pyFloatBody (l : List Char) : Option (ℕ × ℤ) := do
  let (ip, r) := spanDigitsUS l
  let (iv, icnt) ← digitGroup ip
  let (mant, scale, r2) ←
    match r with
    | '.' :: rdot =>
      let (fp, r2) := spanDigitsUS rdot
      match digitGroup fp with
      | some (fv, fcnt) =>
        if icnt + fcnt = 0 then none
        else some (iv * 10 ^ fcnt + fv, fcnt, r2)
      | none => none
    | _ => if icnt = 0 then none else some (iv, 0, r)
  match r2 with
  | [] => some (mant, -(scale : ℤ))
  | e :: rexp =>
    if e = 'e' || e = 'E' then
      let (esign, r3) :=
        match rexp with
        | '+' :: r3 => ((1 : ℤ), r3)
        | '-' :: r3 => ((-1 : ℤ), r3)
        | r3 => ((1 : ℤ), r3)
      match r3 with
      | c :: rest =>
        if c.isDigit then
          match digitsUSAux rest (digitVal c) with
          | some ev => some (mant, esign * ev - scale)
          | none => none
        else none
      | [] => none
    else none

/-- `10 ^ n` by iterated multiplication (reduces by plain unfolding). -/
def pow10 : ℕ → ℕ
  | 0 => 1
  | n + 1 => 10 * pow10 n

theorem pow10_eq (n : ℕ) : pow10 n = 10 ^ n := by
  induction n with
  | zero => rfl
  | succ k ih => rw [pow10, ih, pow_succ, Nat.mul_comm]

/-- The overflow threshold of IEEE-754 binary64 under round-to-nearest-
even: a decimal literal whose magnitude is at least `2 ^ 1024 - 2 ^ 970`
(the midpoint above the largest finite double, which rounds up to the
even `2 ^ 1024`) converts to infinity.  Written as a literal so that it
reduces; `ovfBound_eq` checks it. -/
def ovfBound : ℕ := 179769313486231580793728971405303415079934132710037826936173778980444968292764750946649017977587207096330286416692887910946555547851940402630657488671505820681908902000708383676273854845817711531764475730270069855571366959622842914819860834936475292719074168444365510704342711559699508093042880177904174497792

theorem ovfBound_eq : ovfBound = 2 ^ 1024 - 2 ^ 970 := by norm_num [ovfBound]

/-- Whether the decimal literal value `mant * 10 ^ e` overflows a Python
float (CPython's correctly-rounding `strtod` returns infinity exactly
when the value reaches `ovfBound`). -/
def pow10Overflows (mant : ℕ) (e : ℤ) : Bool :=
  if 0 ≤ e then decide (ovfBound ≤ mant * pow10 e.toNat)
  else decide (ovfBound * pow10 (-e).toNat ≤ mant)

/-- Python `float(token)` on a whitespace-free token: optional sign, then
either a case-insensitive `inf`/`infinity`/`nan` or a numeric literal.
`none` models `ValueError`.  A finite literal whose magnitude reaches the
binary64 overflow threshold converts to a signed infinity, exactly as in
CPython (`float("1e400")` is `inf`); values below the threshold are kept
as exact rationals (their rounding to the nearest double, and underflow
of tiny literals to zero, are not modelled — neither changes which
exceptions the decoder can raise). -/
def pyFloat (s : String) : Option PFloat :=
  match s.data with
  | '+' :: rest => body rest false
  | '-' :: rest => body rest true
  | rest => body rest false
where
  body (l : List Char) (neg : Bool) : Option PFloat :=
    let low := l.map asciiLower
    if low = "inf".data || low = "infinity".data then some (.inf neg)
    else if low = "nan".data then some .nan
    else
      match pyFloatBody l with
      | some (mant, e) =>
        if pow10Overflows mant e then some (.inf neg)
        else
          some (.num (if neg then -(mulPow10 (mant : ℚ) e)
                      else mulPow10 (mant : ℚ) e))
      | none => none

/-- Python `int(f)` on a finite float: truncation toward zero. -/
def pyTrunc (q : ℚ) : ℤ := Int.tdiv q.num (q.den : ℤ)

/-! ## Rational literals in normal form

Rational values that occur in the schema, the generator's hardcoded
lines, and theorem statements are written with `Rat.mk'`, so that their
`num`/`den` projections reduce definitionally (the normalizing
constructors go through `Nat.gcd`, which the kernel cannot unfold). -/

/-- The integer `n` as an exact float value. -/
def qi (n : ℤ) : ℚ := Rat.mk' n 1 one_ne_zero (Nat.coprime_one_right _)

/-- `0.03` (`3 / 100`). -/
def q003 : ℚ := Rat.mk' 3 100 (by norm_num) (by norm_num)

/-- `0.05` (`1 / 20`). -/
def q005 : ℚ := Rat.mk' 1 20 (by norm_num) (by norm_num)

/-- `0.07` (`7 / 100`). -/
def q007 : ℚ := Rat.mk' 7 100 (by norm_num) (by norm_num)

/-- `0.1` (`1 / 10`). -/
def q01 : ℚ := Rat.mk' 1 10 (by norm_num) (by norm_num)

/-- `0.15` (`3 / 20`). -/
def q015 : ℚ := Rat.mk' 3 20 (by norm_num) (by norm_num)

/-- `0.25` (`1 / 4`). -/
def q025 : ℚ := Rat.mk' 1 4 (by norm_num) (by norm_num)

/-- `0.5` (`1 / 2`). -/
def q05 : ℚ := Rat.mk' 1 2 (by norm_num) (by norm_num)

/-- `0.99` (`99 / 100`). -/
def q099 : ℚ := Rat.mk' 99 100 (by norm_num) (by norm_num)

/-- `1 / 3` (the default `transmRiskDistrib` entries). -/
def qThird : ℚ := Rat.mk' 1 3 (by norm_num) (by norm_num)

/-! ## Float formatting (`_fmt` and Python's `f"{v:.6g}"`) -/

/-- Number of decimal digits of a natural number (`1` for `0`). -/
def numDigits (n : ℕ) : ℕ := (Nat.toDigits 10 n).length

/-- `⌊log₁₀ (a / b)⌋` for positive naturals `a`, `b`, by exact integer
arithmetic: for `a / b ≥ 1` this is one less than the digit count of
the integer quotient; for `a / b < 1` it is derived from the digit
count of `⌊b / a⌋`. -/
def floorLog10 (a b : ℕ) : ℤ :=
  if b ≤ a then (numDigits (a / b) : ℤ) - 1
  else
    let m := numDigits (b / a) - 1
    if b ≤ a * 10 ^ m then -(m : ℤ) else -(m : ℤ) - 1

/-- Round the fraction `p / q` (`q ≠ 0`) to the nearest natural, ties
to even (the rounding used when printf renders a decimal string). -/
def roundHalfEven (p q : ℕ) : ℕ :=
  let d := p / q
  let r := p % q
  if q < 2 * r then d + 1
  else if 2 * r < q then d
  else if d % 2 = 0 then d else d + 1

/-- The six decimal digits of `N < 10 ^ 6`, most significant first. -/
def sixDigits (N : ℕ) : List ℕ :=
  [N / 100000 % 10, N / 10000 % 10, N / 1000 % 10, N / 100 % 10, N / 10 % 10,
    N % 10]

/-- Drop trailing zero digits (`%g` strips trailing zeros). -/
def stripZeros (ds : List ℕ) : List ℕ :=
  (ds.reverse.dropWhile (· = 0)).reverse

/-- Render a digit list as characters. -/
def digitsStr (ds : List ℕ) : String :=
  ⟨ds.map (fun d => Char.ofNat (48 + d % 10))⟩

/-- Exponent field of `%g` scientific notation: at least two digits. -/
def expStr (n : ℕ) : String :=
  if n < 10 then "0" ++ Nat.repr n else Nat.repr n

/-- Render six significant digits `N` (scaled so that the leading digit
has decimal exponent `e`) by the `%g` placement rules: fixed-point
notation for `-4 ≤ e < 6`, scientific notation otherwise, trailing
zeros stripped in both. -/
def g6render (N : ℕ) (e : ℤ) : String :=
  let ds := sixDigits N
  if -4 ≤ e && e < 6 then
    if 0 ≤ e then
      let k := e.toNat + 1
      let fpart := stripZeros (ds.drop k)
      digitsStr (ds.take k) ++
        (if fpart.isEmpty then "" else "." ++ digitsStr fpart)
    else
      let frac := List.replicate ((-e).toNat - 1) 0 ++ ds
      "0." ++ digitsStr (stripZeros frac)
  else
    let frac := stripZeros (ds.drop 1)
    digitsStr (ds.take 1) ++
      (if frac.isEmpty then "" else "." ++ digitsStr frac) ++
      "e" ++ (if e < 0 then "-" else "+") ++ expStr e.natAbs

/-- Python `f"{v:.6g}"` on a nonzero exact float: round `|q|`, scaled
so that six significant digits sit before the decimal point, to the
nearest integer, and render by the `%g` rules.  All arithmetic is on
the numerator/denominator, so the function evaluates by kernel
reduction. -/
def g6 (q : ℚ) : String :=
  let sign : String := if q.num < 0 then "-" else ""
  let a := q.num.natAbs
  let b := q.den
  let e := floorLog10 a b
  let scaledNum := if 0 ≤ 5 - e then a * 10 ^ (5 - e).toNat else a
  let scaledDen := if 0 ≤ 5 - e then b else b * 10 ^ (e - 5).toNat
  let N0 := roundHalfEven scaledNum scaledDen
  let p := if 1000000 ≤ N0 then (N0 / 10, e + 1) else (N0, e)
  sign ++ g6render p.1 p.2

/-- `InputGenerator._fmt`: format one value for output.  Bools render as
`1`/`0`; floats equal to an integer render via `str(int(v))`; other
finite floats render as `f"{v:.6g}"`; ints and strings render via
`str`.  The source would raise (`int(v)` fails) on non-finite floats
and renders lists/dicts via Python's `repr`; neither occurs at any
generator call site on trees whose fields hold the schema's shapes, and
they are modelled by placeholder strings here. -/
def fmt : Val → String
  | .VBool b => if b then "1" else "0"
  | .VInt n => Int.repr n
  | .VFloat (.num q) => if q.den = 1 then Int.repr q.num else g6 q
  | .VFloat (.inf neg) => if neg then "-inf" else "inf"
  | .VFloat .nan => "nan"
  | .VStr s => s
  | .VList _ => "[...]"
  | .VObj _ => "[...]"

/-- `"\t".join(pieces)`. -/
def tabJoin : List String → String
  | [] => ""
  | [x] => x
  | x :: xs => x ++ "\t" ++ tabJoin xs

/-- `"\n".join(lines)`, as in `InputGenerator.generate`. -/
def joinNl : List String → String
  | [] => ""
  | [x] => x
  | x :: xs => x ++ "\n" ++ joinNl xs

/-- `InputGenerator._w`: one line `KEYWORD<TAB>v₀<TAB>v₁...` (the tab
after the keyword is emitted even when there are no values). -/
def w (kw : String) (vals : List Val) : String :=
  kw ++ "\t" ++ tabJoin (vals.map fmt)

/-- `InputGenerator._w2`: a double-keyword line
`KW1<TAB>KW2<TAB>v₀<TAB>...`. -/
def w2 (k1 k2 : String) (vals : List Val) : String :=
  k1 ++ "\t" ++ k2 ++ "\t" ++ tabJoin (vals.map fmt)

/-! ## The keyword map (`param_schema.KEYWORD_MAP`) -/

/-- `KEYWORD_MAP`: keyword → (tab, path), in source order.  The source
comment marks the treatment block as partial. -/
def KEYWORD_MAP : List (String × String × String) :=
  [("Runset", "runspecs", "runSetName"),
   ("CohortSize", "runspecs", "numCohorts"),
   ("DiscFactor", "runspecs", "discountFactor"),
   ("MaxPatCD4", "runspecs", "maxPatientCD4"),
   ("MthRecARTEffA", "runspecs", "monthRecordARTEfficacy[0]"),
   ("MthRecARTEffB", "runspecs", "monthRecordARTEfficacy[1]"),
   ("MthRecARTEffC", "runspecs", "monthRecordARTEfficacy[2]"),
   ("RandSeedByTime", "runspecs", "randomSeedByTime"),
   ("UserLocale", "runspecs", "userProgramLocale"),
   ("InpVer", "runspecs", "inputVersion"),
   ("ModelVer", "runspecs", "modelVersion"),
   ("IncludeTB_AsOI", "runspecs", "OIsIncludeTB"),
   ("OIstrs", "runspecs", "OINames"),
   ("LongitLogCohort", "runspecs", "longitLoggingLevel"),
   ("LongitLogFirstOIs", "runspecs", "firstOIsLongitLogging"),
   ("LogPriorOIHistProb", "runspecs", "enableOIHistoryLogging"),
   ("LogOIHistwithARTfails", "runspecs", "numARTFailuresForOIHistoryLogging"),
   ("LogOIHistwithCD4", "runspecs", "CD4BoundsForOIHistoryLogging"),
   ("LogOIHistwithHVL", "runspecs", "HVLBoundsForOIHistoryLogging"),
   ("LogOIHistExcludeOITypes", "runspecs", "OIsToExcludeOIHistoryLogging"),
   ("FOB_OIs", "runspecs", "OIsFractionOfBenefit"),
   ("Severe_OIs", "runspecs", "severeOIs"),
   ("CD4Bounds", "runspecs", "CD4StrataUpperBounds"),
   ("EnableMultDiscountOutput", "runspecs", "enableMultipleDiscountRates"),
   ("DiscountRatesCost", "runspecs", "multDiscountRatesCost"),
   ("DiscountRatesBenefit", "runspecs", "multDiscountRatesBenefit"),
   ("NumPatientsToTrace", "output", "traceNumSelection"),
   ("EnableSubCohorts", "output", "enableSubCohorts"),
   ("SubCohortValues", "output", "subCohorts"),
   ("EnableDetailedCosts", "output", "enableDetailedCostOutputs"),
   ("InitCD4", "cohort", "initialCD4"),
   ("UseSqRtTransform", "cohort", "enableSquareRootTransform"),
   ("InitHVL", "cohort", "initialHVLDistribution"),
   ("InitAge", "cohort", "initialAge"),
   ("InitAgeCustomDist", "cohort", "useCustomAgeDist"),
   ("AgeStratMins", "cohort", "ageStrata"),
   ("AgeStratMaxes", "cohort", "ageStrata"),
   ("AgeStratProbs", "cohort", "ageProbs"),
   ("InitGender", "cohort", "maleGenderDistribution"),
   ("ProphNonCompliance", "cohort", "OIProphNonCompliance"),
   ("PatClinicTypes", "cohort", "clinicVisitTypeDistribution"),
   ("PatTreatmentTypes", "cohort", "therapyImplementationDistribution"),
   ("PatCD4ResponeTypeOnART", "cohort", "CD4ResponseTypeOnARTDistribution"),
   ("PriorOIHistAtEntry", "cohort", "probOIHistoryAtEntry"),
   ("ProbRiskFactorPrev", "cohort", "probRiskFactorPrev"),
   ("ProbRiskFactorIncid", "cohort", "probRiskFactorIncid"),
   ("GenRiskFactorStrs", "cohort", "riskFactorNames"),
   ("IntvlClinicVisit", "treatment", "clinicVisitInterval"),
   ("ProbDetOI_Entry", "treatment", "probDetectOIAtEntry"),
   ("ProbDetOI_LastVst", "treatment", "probDetectOISinceLastVisit"),
   ("ProbSwitchSecProph", "treatment", "probSwitchSecondaryProph")]

/-- The keyword set iterated by `InputParser._is_keyword`. -/
def keywordKeys : List String := KEYWORD_MAP.map Prod.fst

/-- `kw.split('_')[0]`: the stem used for prefix recognition. -/
def stemOf (kw : String) : String :=
  ⟨kw.data.takeWhile (fun c => c ≠ '_')⟩

/-- `InputParser._is_keyword`: a token is recognized when it starts with
some keyword's stem (which subsumes exact membership, since every stem
is a prefix of its keyword). -/
def isKeyword (t : String) : Bool :=
  keywordKeys.any (fun kw => pyStartswith t (stemOf kw)) ||
    keywordKeys.contains t

/-- Lookup in `KEYWORD_MAP` (an exact `dict` lookup in the source). -/
def kwLookup (t : String) : Option (String × String) :=
  match KEYWORD_MAP.find? (fun e => e.1 = t) with
  | some e => some e.2
  | none => none

/-! ## Token readers (`InputParser._read_*`) -/

/-- Bool coercion of one token (`InputParser._read_bool` body):
the truthy and falsy word lists, then `int(token) != 0` with
`ValueError` giving `False`. -/
def readBoolTok (t : String) : Bool :=
  let lt := pyLower t
  if ["true", "1", "yes", "y"].contains lt then true
  else if ["false", "0", "no", "n"].contains lt then false
  else
    match pyInt t with
    | some n => n != 0
    | none => false

/-- `InputParser._read_bool`: an exhausted stream yields `False`,
otherwise consume one token and coerce it. -/
def readBool : List String → Bool × List String
  | [] => (false, [])
  | t :: ts => (readBoolTok t, ts)

/-- Int coercion of one token (`InputParser._read_int` body):
`int(token)`, else `int(float(token))` with truncation, else `0`.
`int(float(token))` raises an uncaught `OverflowError` when the float
is infinite — modelled as `none`.  (`int(nan)` raises `ValueError`,
which the source catches, yielding `0`.) -/
def readIntTok (t : String) : Option ℤ :=
  match pyInt t with
  | some n => some n
  | none =>
    match pyFloat t with
    | some (.num q) => some (pyTrunc q)
    | some (.inf _) => none
    | some .nan => some 0
    | none => some 0

/-- `InputParser._read_int`: an exhausted stream yields `0`, otherwise
consume one token and coerce it (possibly raising, see `readIntTok`). -/
def readInt : List String → Option (ℤ × List String)
  | [] => some (0, [])
  | t :: ts => (readIntTok t).map (fun n => (n, ts))

/-- `InputParser._read_float`: an exhausted stream yields `0.0`,
otherwise `float(token)` with `ValueError` giving `0.0`. -/
def readFloat : List String → PFloat × List String
  | [] => (.num 0, [])
  | t :: ts => ((pyFloat t).getD (.num 0), ts)

/-- `InputParser._read_string`: an exhausted stream yields `''`,
otherwise the raw token. -/
def readString : List String → String × List String
  | [] => ("", [])
  | t :: ts => (t, ts)

/-- `InputParser._read_list_into` / `_read_nested_list` (their bodies
are identical): walk the list elements in order; stop as soon as the
stream is exhausted, leaving the remaining elements untouched; dispatch
each element on its runtime type (recursing into nested lists);
elements of unhandled types (dicts) are skipped without consuming
tokens.  A `none` result models the one uncatchable exception
(`OverflowError`, see `readIntTok`). -/
def readListInto : List Val → List String → Option (List Val × List String)
  | [], ts => some ([], ts)
  | v :: vs, [] => some (v :: vs, [])
  | v :: vs, t :: ts =>
    match v with
    | .VBool _ =>
      (readListInto vs ts).map (fun r => (.VBool (readBoolTok t) :: r.1, r.2))
    | .VInt _ =>
      match readIntTok t with
      | some n => (readListInto vs ts).map (fun r => (.VInt n :: r.1, r.2))
      | none => none
    | .VFloat _ =>
      (readListInto vs ts).map
        (fun r => (.VFloat ((pyFloat t).getD (.num 0)) :: r.1, r.2))
    | .VStr _ =>
      (readListInto vs ts).map (fun r => (.VStr t :: r.1, r.2))
    | .VList inner =>
      match readListInto inner (t :: ts) with
      | some (inner', ts') =>
        (readListInto vs ts').map (fun r => (.VList inner' :: r.1, r.2))
      | none => none
    | .VObj o =>
      (readListInto vs (t :: ts)).map (fun r => (.VObj o :: r.1, r.2))

/-! ## Schema constants (`param_schema.CONSTANTS`, from `SimContext.h`) -/

namespace SC

def AGE_YRS : ℕ := 101
def AGE_STARTING : ℕ := 0
def AGE_MAXIMUM : ℕ := 100
def AGE_CATEGORIES : ℕ := 20
def INIT_AGE_NUM_STRATA : ℕ := 30
def GENDER_NUM : ℕ := 2
def NUM_BOUNDS : ℕ := 2
def NUM_DISCOUNT_RATES : ℕ := 4
def RISK_FACT_NUM : ℕ := 5
def CD4_NUM_STRATA : ℕ := 6
def HVL_NUM_STRATA : ℕ := 7
def OI_NUM : ℕ := 15
def DTH_NUM_CAUSES : ℕ := 38
def DTH_NUM_CAUSES_BASIC : ℕ := 17
def CHRM_NUM : ℕ := 10
def CHRM_AGE_CAT_NUM : ℕ := 7
def CHRM_TIME_PER_NUM : ℕ := 3
def CHRM_ORPHANS_AGE_CAT_NUM : ℕ := 15
def COST_AGE_CAT_NUM : ℕ := 7
def ART_NUM_LINES : ℕ := 10
def ART_NUM_STATES : ℕ := 2
def ART_NUM_SUBREGIMENS : ℕ := 4
def ART_NUM_TOX_SEVERITY : ℕ := 3
def ART_NUM_TOX_PER_SEVERITY : ℕ := 6
def PROPH_NUM : ℕ := 3
def PROPH_NUM_TYPES : ℕ := 2
def CD4_RESPONSE_NUM_TYPES : ℕ := 4
def TB_NUM_STRAINS : ℕ := 3
def TB_NUM_STATES : ℕ := 6
def TB_NUM_TESTS : ℕ := 4
def TB_NUM_TREATMENTS : ℕ := 10
def TB_NUM_PROPHS : ℕ := 5
def TB_INFECT_NUM_AGE_CAT : ℕ := 7
def PEDS_AGE_CHILD_NUM : ℕ := 11
def PEDS_CD4_PERC_NUM : ℕ := 8
def EID_NUM_ASSAYS : ℕ := 24
def EID_NUM_TESTS : ℕ := 10
def INFANT_HIV_PROPHS_NUM : ℕ := 4
def PEDS_COST_AGE_CAT_NUM : ℕ := 4
def PEDS_ART_COST_AGE_CAT_NUM : ℕ := 6
def ADOLESCENT_NUM_AGES : ℕ := 18
def TRANSM_RISK_NUM : ℕ := 3
def TRANSM_RISK_AGE_NUM : ℕ := 7
def RESP_NUM_TYPES : ℕ := 3
def RESP_AGE_CAT_NUM : ℕ := 7
def HET_NUM_OUTCOMES : ℕ := 10
def HET_INTV_NUM_PERIODS : ℕ := 5
def RTC_NUM_COEFF : ℕ := 5
def MAX_NUM_SUBCOHORTS : ℕ := 25
def COST_NUM_TYPES : ℕ := 4

end SC

/-! ## Value builders used to transcribe the schema -/

/-- A list of float values. -/
def fl (qs : List ℚ) : Val := .VList (qs.map vf)

/-- A list of int values. -/
def il (ns : List ℤ) : Val := .VList (ns.map vi)

/-- `[q] * n` as a float list. -/
def fRep (n : ℕ) (q : ℚ) : Val := .VList (List.replicate n (vf q))

/-- `[z] * n` as an int list. -/
def iRep (n : ℕ) (z : ℤ) : Val := .VList (List.replicate n (vi z))

/-- `[b] * n` as a bool list. -/
def bRep (n : ℕ) (b : Bool) : Val := .VList (List.replicate n (vb b))

/-- `[v] * n` for an arbitrary element value. -/
def vRep (n : ℕ) (v : Val) : Val := .VList (List.replicate n v)

/-- `[f"{pre}{i+1}" for i in range(n)]` as a string list. -/
def nameList (pre : String) (n : ℕ) : Val :=
  .VList ((List.range n).map (fun i => vs (pre ++ Nat.repr (i + 1))))

/-! ## Schema defaults (`param_schema.create_default_params`) -/

/-- `create_runspecs_defaults`. -/
def create_runspecs_defaults : Sect :=
  [("runSetName", vs "DefaultRunSet"),
   ("runName", vs "run1"),
   ("numCohorts", vi 10000),
   ("discountFactor", vf q003),
   ("maxPatientCD4", vf (qi 2000)),
   ("monthRecordARTEfficacy", il [6, 12, 24]),
   ("randomSeedByTime", vb true),
   ("userProgramLocale", vs "en_US"),
   ("inputVersion", vs "20210615"),
   ("modelVersion", vs "50d"),
   ("OIsIncludeTB", vb false),
   ("OINames", nameList "OI_" SC.OI_NUM),
   ("OIsFractionOfBenefit", fRep SC.OI_NUM (qi 1)),
   ("severeOIs", bRep SC.OI_NUM false),
   ("CD4StrataUpperBounds", fl [qi 50, qi 100, qi 200, qi 350, qi 500]),
   ("longitLoggingLevel", vi 0),
   ("firstOIsLongitLogging", iRep SC.OI_NUM 0),
   ("enableOIHistoryLogging", vb false),
   ("numARTFailuresForOIHistoryLogging", vi 0),
   ("CD4BoundsForOIHistoryLogging", fl [qi 0, qi 2000]),
   ("HVLBoundsForOIHistoryLogging", il [0, 6]),
   ("OIsToExcludeOIHistoryLogging", bRep SC.OI_NUM false),
   ("enableMultipleDiscountRates", vb false),
   ("multDiscountRatesCost", fl [qi 0, q003, q005, q007]),
   ("multDiscountRatesBenefit", fl [qi 0, q003, q005, q007])]

/-- `create_output_defaults`. -/
def create_output_defaults : Sect :=
  [("traceNumSelection", vi 100),
   ("enableSubCohorts", vb false),
   ("subCohorts", iRep SC.MAX_NUM_SUBCOHORTS 0),
   ("enableDetailedCostOutputs", vb false)]

/-- `create_cohort_defaults`. -/
def create_cohort_defaults : Sect :=
  [("initialCD4Mean", vf (qi 500)),
   ("initialCD4StdDev", vf (qi 200)),
   ("enableSquareRootTransform", vb true),
   ("initialHVLDistribution", vRep SC.CD4_NUM_STRATA (fRep SC.HVL_NUM_STRATA (qi 0))),
   ("initialAgeMean", vf (qi 360)),
   ("initialAgeStdDev", vf (qi 120)),
   ("useCustomAgeDist", vb false),
   ("ageStrata", fRep (2 * SC.INIT_AGE_NUM_STRATA) (qi 0)),
   ("ageProbs", fRep SC.INIT_AGE_NUM_STRATA (qi 0)),
   ("maleGenderDistribution", vf q05),
   ("OIProphNonComplianceRisk", vf (qi 0)),
   ("OIProphNonComplianceDegree", vf (qi 0)),
   ("clinicVisitTypeDistribution", fl [qi 0, qi 0, qi 1]),
   ("therapyImplementationDistribution", fl [qi 0, qi 0, qi 1]),
   ("CD4ResponseTypeOnARTDistribution", fl [q025, q025, q025, q025]),
   ("probOIHistoryAtEntry",
     vRep SC.CD4_NUM_STRATA (vRep SC.HVL_NUM_STRATA (fRep SC.OI_NUM (qi 0)))),
   ("probRiskFactorPrev", fRep SC.RISK_FACT_NUM (qi 0)),
   ("probRiskFactorIncid", fRep SC.RISK_FACT_NUM (qi 0)),
   ("riskFactorNames", nameList "Risk_" SC.RISK_FACT_NUM),
   ("showTransmissionOutput", vb false),
   ("transmRateOnART", vRep SC.CD4_NUM_STRATA (fRep SC.HVL_NUM_STRATA (qi 0))),
   ("transmRateOnARTAcute", fRep SC.CD4_NUM_STRATA (qi 0)),
   ("transmRateOffART", vRep SC.CD4_NUM_STRATA (fRep SC.HVL_NUM_STRATA (qi 0))),
   ("transmRateOffARTAcute", fRep SC.CD4_NUM_STRATA (qi 0)),
   ("transmUseHIVTestAcuteDefinition", vb false),
   ("transmAcuteDuration", vi 3),
   ("transmRateMultInterval", il [12, 24]),
   ("transmRateMult", fRep 3 (qi 1)),
   ("transmRiskDistrib",
     vRep SC.GENDER_NUM (vRep SC.TRANSM_RISK_AGE_NUM (fRep SC.TRANSM_RISK_NUM qThird))),
   ("transmRiskMultBounds", il [12, 24]),
   ("transmRiskMult", vRep SC.TRANSM_RISK_NUM (fRep 3 (qi 1))),
   ("useDynamicTransm", vb false),
   ("dynamicTransmHRGTransmissions", vf (qi 0)),
   ("dynamicTransmPropHRGAttributable", vf (qi 0)),
   ("dynamicTransmNumHIVPosHRG", vf (qi 0)),
   ("dynamicTransmNumHIVNegHRG", vf (qi 0)),
   ("dynamicTransmWarmupSize", vi 0),
   ("keepPrEPAfterWarmup", vb false),
   ("usePrEPDuringWarmup", vb false),
   ("useTransmEndLifeHVLAdjustment", vb false),
   ("transmEndLifeHVLAdjustmentCD4Threshold", vf (qi 0)),
   ("transmEndLifeHVLAdjustmentARTLineThreshold", vi 0)]

/-- The `default_art_start()` record of `create_treatment_defaults`. -/
def default_art_start : Val :=
  .VObj
    [("CD4BoundsOnly", fl [qi (-1), qi (-1)]),
     ("HVLBoundsOnly", il [-1, -1]),
     ("CD4BoundsWithHVL", fl [qi (-1), qi (-1)]),
     ("HVLBoundsWithCD4", il [-1, -1]),
     ("OIHistory", bRep SC.OI_NUM false),
     ("numOIs", vi 0),
     ("CD4BoundsWithOIs", fl [qi (-1), qi (-1)]),
     ("OIHistoryWithCD4", bRep SC.OI_NUM false),
     ("ensureSuppFalsePositiveFailure", vb false),
     ("minMonthNum", vi 0),
     ("maxMonthNum", vi (-1)),
     ("monthsSincePrevRegimen", vi 0)]

/-- The `default_art_fail()` record of `create_treatment_defaults`. -/
def default_art_fail : Val :=
  .VObj
    [("HVLNumIncrease", vi (-1)),
     ("HVLBounds", il [-1, -1]),
     ("HVLFailAtSetpoint", vb false),
     ("HVLMonthsFromInit", vi 0),
     ("CD4PercentageDrop", vf (qi (-1))),
     ("CD4BelowPreARTNadir", vb false),
     ("CD4BoundsOR", fl [qi (-1), qi (-1)]),
     ("CD4BoundsAND", fl [qi (-1), qi (-1)]),
     ("CD4MonthsFromInit", vi 0),
     ("OIsEvent", iRep SC.OI_NUM 0),
     ("OIsMinNum", vi 0),
     ("OIsMonthsFromInit", vi 0),
     ("diagnoseNumTestsFail", vi 1),
     ("diagnoseUseHVLTestsConfirm", vb false),
     ("diagnoseUseCD4TestsConfirm", vb false),
     ("diagnoseNumTestsConfirm", vi 0)]

/-- The `default_art_stop()` record of `create_treatment_defaults`. -/
def default_art_stop : Val :=
  .VObj
    [("maxMonthsOnART", vi (-1)),
     ("withMajorToxicity", vb false),
     ("afterFailImmediate", vb false),
     ("afterFailCD4LowerBound", vf (qi (-1))),
     ("afterFailWithSevereOI", vb false),
     ("afterFailMonthsFromObserved", vi (-1)),
     ("afterFailMinMonthNum", vi 0),
     ("afterFailMonthsFromInit", vi (-1)),
     ("nextLineAfterMajorTox", vi (-1))]

/-- The `default_proph_start()` record of `create_treatment_defaults`. -/
def default_proph_start : Val :=
  .VObj
    [("useOrEvaluation", vb false),
     ("currCD4Bounds", fl [qi (-1), qi (-1)]),
     ("minCD4Bounds", fl [qi (-1), qi (-1)]),
     ("OIHistory", iRep SC.OI_NUM 0),
     ("minMonthNum", vi 0)]

/-- The `default_proph_stop()` record of `create_treatment_defaults`. -/
def default_proph_stop : Val :=
  .VObj
    [("useOrEvaluation", vb false),
     ("currCD4Bounds", fl [qi (-1), qi (-1)]),
     ("minCD4Bounds", fl [qi (-1), qi (-1)]),
     ("OIHistory", iRep SC.OI_NUM 0),
     ("minMonthNum", vi 0),
     ("monthsOnProph", vi (-1))]

/-- `create_treatment_defaults`. -/
def create_treatment_defaults : Sect :=
  [("clinicVisitInterval", vi 3),
   ("probDetectOIAtEntry", fRep SC.OI_NUM (qi 0)),
   ("probDetectOISinceLastVisit", fRep SC.OI_NUM (qi 0)),
   ("probSwitchSecondaryProph", fRep SC.OI_NUM (qi 0)),
   ("testingIntervalCD4Threshold", vf (qi 200)),
   ("testingIntervalARTMonthsThreshold", vi 6),
   ("testingIntervalLastARTMonthsThreshold", vi 6),
   ("CD4TestingIntervalPreARTHighCD4", vi 6),
   ("CD4TestingIntervalPreARTLowCD4", vi 3),
   ("CD4TestingIntervalOnART", il [3, 6]),
   ("CD4TestingIntervalOnLastART", il [3, 6]),
   ("CD4TestingIntervalPostART", vi 6),
   ("HVLTestingIntervalPreARTHighCD4", vi 6),
   ("HVLTestingIntervalPreARTLowCD4", vi 3),
   ("HVLTestingIntervalOnART", il [3, 6]),
   ("HVLTestingIntervalOnLastART", il [3, 6]),
   ("HVLTestingIntervalPostART", vi 6),
   ("probHVLTestErrorHigher", vf (qi 0)),
   ("probHVLTestErrorLower", vf (qi 0)),
   ("CD4TestStdDevPercentage", vf q015),
   ("CD4TestBiasMean", vf (qi 0)),
   ("CD4TestBiasStdDevPercentage", vf (qi 0)),
   ("ARTFailureOnlyAtRegularVisit", vb true),
   ("numARTInitialHVLTests", vi 0),
   ("numARTInitialCD4Tests", vi 0),
   ("emergencyVisitIsNotRegularVisit", vb false),
   ("CD4TestingLag", vi 0),
   ("HVLTestingLag", vi 0),
   ("cd4MonitoringStopEnable", vb false),
   ("cd4MonitoringStopThreshold", vf (qi 0)),
   ("cd4MonitoringStopMthsPostARTInit", vi 0),
   ("startART", vRep SC.ART_NUM_LINES default_art_start),
   ("enableSTIForART", bRep SC.ART_NUM_LINES false),
   ("failART", vRep SC.ART_NUM_LINES default_art_fail),
   ("stopART", vRep SC.ART_NUM_LINES default_art_stop),
   ("ARTResistancePriorRegimen",
     vRep SC.ART_NUM_LINES (fRep SC.ART_NUM_LINES (qi 0))),
   ("ARTResistanceHVL", fRep SC.HVL_NUM_STRATA (qi 0)),
   ("startProph",
     vRep SC.PROPH_NUM_TYPES (vRep SC.OI_NUM default_proph_start)),
   ("stopProph",
     vRep SC.PROPH_NUM_TYPES (vRep SC.OI_NUM default_proph_stop))]

/-- `create_ltfu_defaults`. -/
def create_ltfu_defaults : Sect :=
  [("useLTFU", vb false),
   ("propRespondLTFUPreARTLogitMean", vf (qi 0)),
   ("propRespondLTFUPreARTLogitStdDev", vf (qi 0)),
   ("useInterventionLTFU", vb false),
   ("responseThresholdLTFU", fl [qi 0, qi 0]),
   ("responseValueLTFU", fl [qi 0, qi 0]),
   ("responseThresholdPeriodLTFU", vRep SC.HET_INTV_NUM_PERIODS (fl [qi 0, qi 0])),
   ("responseValuePeriodLTFU", vRep SC.HET_INTV_NUM_PERIODS (fl [qi 0, qi 0])),
   ("responseThresholdLTFUOffIntervention", fl [qi 0, qi 0]),
   ("responseValueLTFUOffIntervention", fl [qi 0, qi 0]),
   ("propGeneralMedicineCost", fRep 6 (qi 0)),
   ("propInterventionCost", fRep 6 (qi 0)),
   ("probRemainOnOIProph", vf (qi 0)),
   ("probRemainOnOITreatment", vf (qi 0)),
   ("minMonthsRemainLost", vi 1),
   ("regressionCoefficientsRTC", fRep SC.RTC_NUM_COEFF (qi 0)),
   ("CD4ThresholdRTC", vf (qi 0)),
   ("severeOIsRTC", bRep SC.OI_NUM false),
   ("maxMonthsAfterObservedFailureToRestartRegimen", vi (-1)),
   ("probRestartRegimenWithoutObservedFailure", vf (qi 0)),
   ("recheckARTStartPoliciesAtRTC", vb false),
   ("useProbSuppByPrevOutcome", vb false),
   ("probSuppressionWhenReturnToFailed", fRep SC.ART_NUM_LINES (qi 0)),
   ("probSuppressionWhenReturnToSuppressed", fRep SC.ART_NUM_LINES (qi 0)),
   ("probResumeInterventionRTC", vf (qi 0)),
   ("costResumeInterventionRTC", vf (qi 0))]

/-- `create_heterogeneity_defaults`. -/
def create_heterogeneity_defaults : Sect :=
  [("propRespondBaselineLogitMean", vf (qi 0)),
   ("propRespondBaselineLogitStdDev", vf (qi 0)),
   ("propRespondAge", fRep SC.RESP_AGE_CAT_NUM (qi 0)),
   ("propRespondAgeEarly", vf (qi 0)),
   ("propRespondAgeLate", vf (qi 0)),
   ("propRespondCD4", fRep SC.CD4_NUM_STRATA (qi 0)),
   ("propRespondFemale", vf (qi 0)),
   ("propRespondHistoryOIs", vf (qi 0)),
   ("propRespondPriorARTToxicity", vf (qi 0)),
   ("propRespondRiskFactor", fRep SC.RISK_FACT_NUM (qi 0)),
   ("useIntervention", bRep SC.HET_INTV_NUM_PERIODS false),
   ("interventionDurationMean", fRep SC.HET_INTV_NUM_PERIODS (qi 0)),
   ("interventionDurationSD", fRep SC.HET_INTV_NUM_PERIODS (qi 0)),
   ("interventionAdjustmentMean", fRep SC.HET_INTV_NUM_PERIODS (qi 0)),
   ("interventionAdjustmentSD", fRep SC.HET_INTV_NUM_PERIODS (qi 0)),
   ("interventionAdjustmentDistribution", iRep SC.HET_INTV_NUM_PERIODS 0),
   ("interventionCostInit", fRep SC.HET_INTV_NUM_PERIODS (qi 0)),
   ("interventionCostMonthly", fRep SC.HET_INTV_NUM_PERIODS (qi 0))]

/-- The `default_initiation()` record of `create_sti_defaults`. -/
def sti_default_initiation : Val :=
  .VObj
    [("CD4BoundsOnly", fl [qi (-1), qi (-1)]),
     ("HVLBoundsOnly", il [-1, -1]),
     ("CD4BoundsWithHVL", fl [qi (-1), qi (-1)]),
     ("HVLBoundsWithCD4", il [-1, -1]),
     ("OIHistory", bRep SC.OI_NUM false),
     ("numOIs", vi 0),
     ("CD4BoundsWithOIs", fl [qi (-1), qi (-1)]),
     ("OIHistoryWithCD4", bRep SC.OI_NUM false),
     ("minMonthNum", vi 0),
     ("maxMonthNum", vi (-1)),
     ("monthsSincePrevRegimen", vi 0),
     ("monthsSinceARTStart", vi 0)]

/-- The `default_endpoint()` record of `create_sti_defaults`. -/
def sti_default_endpoint : Val :=
  .VObj
    [("CD4BoundsOnly", fl [qi (-1), qi (-1)]),
     ("HVLBoundsOnly", il [-1, -1]),
     ("CD4BoundsWithHVL", fl [qi (-1), qi (-1)]),
     ("HVLBoundsWithCD4", il [-1, -1]),
     ("OIHistory", bRep SC.OI_NUM false),
     ("numOIs", vi 0),
     ("CD4BoundsWithOIs", fl [qi (-1), qi (-1)]),
     ("OIHistoryWithCD4", bRep SC.OI_NUM false),
     ("minMonthNum", vi 0),
     ("maxMonthNum", vi (-1)),
     ("monthsSincePrevRegimen", vi 0),
     ("monthsSinceSTIStart", vi 0)]

/-- `create_sti_defaults`. -/
def create_sti_defaults : Sect :=
  [("firstInterruption", vRep SC.ART_NUM_LINES sti_default_initiation),
   ("ARTRestartCD4Bounds", vRep SC.ART_NUM_LINES (fl [qi (-1), qi (-1)])),
   ("ARTRestartHVLBounds", vRep SC.ART_NUM_LINES (il [-1, -1])),
   ("ARTRestartFirstTestMonth", vi 0),
   ("ARTRestartSecondTestMonth", vi 0),
   ("ARTRestartTestInterval", vi 0),
   ("ARTRestopCD4Bounds", vRep SC.ART_NUM_LINES (fl [qi (-1), qi (-1)])),
   ("ARTRestopHVLBounds", vRep SC.ART_NUM_LINES (il [-1, -1])),
   ("ARTRestopFirstTestMonth", vi 0),
   ("ARTRestopSecondTestMonth", vi 0),
   ("ARTRestopTestInterval", vi 0),
   ("endpoint", vRep SC.ART_NUM_LINES sti_default_endpoint)]

/-- The `default_proph()` record of `create_prophs_defaults`. -/
def default_proph : Val :=
  .VObj
    [("primaryOIEfficacy", fRep SC.OI_NUM (qi 0)),
     ("secondaryOIEfficacy", fRep SC.OI_NUM (qi 0)),
     ("monthlyProbResistance", vf (qi 0)),
     ("percentResistance", vf (qi 0)),
     ("timeOfResistance", vi 0),
     ("costFactorResistance", vf (qi 1)),
     ("deathRateRatioResistance", vf (qi 1)),
     ("probMinorToxicity", vf (qi 0)),
     ("probMajorToxicity", vf (qi 0)),
     ("monthsToToxicity", vi 0),
     ("deathRateRatioMajorToxicity", vf (qi 1)),
     ("costMonthly", vf (qi 0)),
     ("costMinorToxicity", vf (qi 0)),
     ("QOLMinorToxicity", vf (qi 1)),
     ("costMajorToxicity", vf (qi 0)),
     ("QOLMajorToxicity", vf (qi 1)),
     ("monthsToSwitch", vi (-1)),
     ("switchOnMinorToxicity", vb false),
     ("switchOnMajorToxicity", vb false)]

/-- `create_prophs_defaults`. -/
def create_prophs_defaults : Sect :=
  [("prophData",
     vRep SC.PROPH_NUM_TYPES (vRep SC.OI_NUM (vRep SC.PROPH_NUM default_proph)))]

/-- The `default_toxicity()` record of `create_arts_defaults`. -/
def default_toxicity : Val :=
  .VObj
    [("toxicityName", vs ""),
     ("probToxicity", vf (qi 0)),
     ("timeToToxicityMean", vf (qi 0)),
     ("timeToToxicityStdDev", vf (qi 0)),
     ("QOLModifier", vf (qi 1)),
     ("QOLDuration", vi 0),
     ("costAmount", vf (qi 0)),
     ("costDuration", vi 0),
     ("switchARTRegimenOnToxicity", vi (-1)),
     ("switchSubRegimenOnToxicity", vi (-1)),
     ("timeToChronicDeathImpact", vi 0),
     ("chronicToxDeathRateRatio", vf (qi 1)),
     ("chronicDeathDuration", vi 0),
     ("acuteMajorToxDeathRateRatio", vf (qi 1)),
     ("costAcuteDeathMajorToxicity", vf (qi 0))]

/-- The `default_art_line()` record of `create_arts_defaults`. -/
def default_art_line : Val :=
  .VObj
    [("costInitial", vf (qi 0)),
     ("costMonthly", vf (qi 0)),
     ("efficacyTimeHorizon", vi 48),
     ("efficacyTimeHorizonResuppression", vi 48),
     ("forceFailAtMonth", vi (-1)),
     ("stageBoundsCD4ChangeOnSuppART", il [6, 24]),
     ("stageBoundCD4ChangeOnARTFail", vi 24),
     ("CD4ChangeOnSuppARTMean",
       vRep SC.CD4_RESPONSE_NUM_TYPES (fl [qi 0, qi 0, qi 0])),
     ("CD4ChangeOnSuppARTStdDev",
       vRep SC.CD4_RESPONSE_NUM_TYPES (fl [qi 0, qi 0, qi 0])),
     ("CD4MultiplierOnFailedART",
       vRep SC.CD4_RESPONSE_NUM_TYPES (fl [qi 1, qi 1])),
     ("secondaryCD4ChangeOnARTStdDev", vf (qi 0)),
     ("monthlyCD4MultiplierOffARTPreSetpoint", fl [qi 1, qi 1]),
     ("monthlyCD4MultiplierOffARTPostSetpoint", fl [qi 1, qi 1]),
     ("monthlyProbHVLChange", fl [qi 0, qi 0]),
     ("monthlyNumStrataHVLChange", il [0, 0]),
     ("toxicity",
       vRep SC.ART_NUM_SUBREGIMENS
         (vRep SC.ART_NUM_TOX_SEVERITY
           (vRep SC.ART_NUM_TOX_PER_SEVERITY default_toxicity))),
     ("monthsToSwitchSubRegimen", iRep SC.ART_NUM_SUBREGIMENS (-1)),
     ("propMthCostNonResponders", vf (qi 1)),
     ("probRestartARTRegimenAfterFailure", fRep SC.RESP_NUM_TYPES (qi 0)),
     ("maxRestartAttempts", vi 0),
     ("propRespondARTRegimenLogitMean", vf (qi 0)),
     ("propRespondARTRegimenLogitStdDev", vf (qi 0)),
     ("propRespondARTRegimenLogitDistribution", vi 0),
     ("propRespondARTRegimenUseDuration", vb false),
     ("propRespondARTRegimenDurationMean", vf (qi 0)),
     ("propRespondARTRegimenDurationStdDev", vf (qi 0)),
     ("responseTypeThresholds", vRep SC.HET_NUM_OUTCOMES (fl [qi 0, qi 0])),
     ("responseTypeValues", vRep SC.HET_NUM_OUTCOMES (fl [qi 0, qi 0])),
     ("responseTypeExponents", fRep SC.HET_NUM_OUTCOMES (qi 1)),
     ("applyARTEffectOnFailed", vb false)]

/-- `create_arts_defaults`. -/
def create_arts_defaults : Sect :=
  [("artData", vRep SC.ART_NUM_LINES default_art_line)]

/-- `create_nathist_defaults`. -/
def create_nathist_defaults : Sect :=
  [("HIVDeathRateRatio", fRep SC.CD4_NUM_STRATA (qi 1)),
   ("ARTDeathRateRatio", vf (qi 1)),
   ("monthlyOIProbOffART",
     vRep SC.CD4_NUM_STRATA (vRep SC.OI_NUM (fRep 2 (qi 0)))),
   ("monthlyOIProbOnARTMult", vRep SC.CD4_NUM_STRATA (fRep SC.OI_NUM (qi 1))),
   ("acuteOIDeathRateRatio", fRep SC.CD4_NUM_STRATA (qi 1)),
   ("acuteOIDeathRateRatioTB", fRep SC.CD4_NUM_STRATA (qi 1)),
   ("severeOIHistDeathRateRatio", vf (qi 1)),
   ("severeOIHistEffectDuration", vi 0),
   ("TB_OIHistDeathRateRatio", vf (qi 1)),
   ("TB_OIHistEffectDuration", vi 0),
   ("genericRiskDeathRateRatio", fRep SC.RISK_FACT_NUM (qi 1)),
   ("monthlyCD4DeclineMean",
     vRep SC.CD4_NUM_STRATA (fRep SC.HVL_NUM_STRATA (qi 0))),
   ("monthlyCD4DeclineStdDev",
     vRep SC.CD4_NUM_STRATA (fRep SC.HVL_NUM_STRATA (qi 0))),
   ("monthlyCD4DeclineBtwSubject", vf (qi 0)),
   ("monthlyBackgroundDeathRate", vRep SC.GENDER_NUM (fRep SC.AGE_YRS (qi 0))),
   ("backgroundMortModifierType", vi 0),
   ("backgroundMortModifier", vf (qi 0))]

/-- `create_chrms_defaults`. -/
def create_chrms_defaults : Sect :=
  [("showCHRMsOutput", vb false),
   ("CHRMNames", nameList "CHRM_" SC.CHRM_NUM),
   ("enableOrphans", vb false),
   ("showOrphansOutput", vb false),
   ("ageBounds", vRep SC.CHRM_NUM (iRep (SC.CHRM_AGE_CAT_NUM - 1) 0)),
   ("durationCHRMSstage",
     vRep (SC.CHRM_TIME_PER_NUM - 1) (vRep SC.CHRM_NUM (fl [qi 0, qi 0]))),
   ("enableCHRMSDurationSqrtTransform", vb false),
   ("probPrevalentCHRMsHIVneg",
     vRep SC.CHRM_NUM (vRep SC.GENDER_NUM (fRep SC.CHRM_AGE_CAT_NUM (qi 0)))),
   ("probPrevalentCHRMs",
     vRep SC.CHRM_NUM (vRep SC.CD4_NUM_STRATA
       (vRep SC.GENDER_NUM (fRep SC.CHRM_AGE_CAT_NUM (qi 0))))),
   ("probPrevalentCHRMsRiskFactorLogit",
     vRep SC.CHRM_NUM (fRep SC.RISK_FACT_NUM (qi 0))),
   ("prevalentCHRMsMonthsSinceStartMean", fRep SC.CHRM_NUM (qi 0)),
   ("prevalentCHRMsMonthsSinceStartStdDev", fRep SC.CHRM_NUM (qi 0)),
   ("prevalentCHRMsMonthsSinceStartOrphans",
     vRep SC.CHRM_NUM (iRep SC.CHRM_ORPHANS_AGE_CAT_NUM 0)),
   ("incidentCHRMsMonthsSincePreviousOrphans", vi 0),
   ("probIncidentCHRMsHIVneg",
     vRep SC.CHRM_NUM (vRep SC.GENDER_NUM (fRep SC.CHRM_AGE_CAT_NUM (qi 0)))),
   ("probIncidentCHRMs",
     vRep SC.CHRM_NUM (vRep SC.CD4_NUM_STRATA
       (vRep SC.GENDER_NUM (fRep SC.CHRM_AGE_CAT_NUM (qi 0))))),
   ("probIncidentCHRMsOnARTMult",
     vRep SC.CHRM_NUM (fRep SC.CD4_NUM_STRATA (qi 1))),
   ("probIncidentCHRMsRiskFactorLogit",
     vRep SC.CHRM_NUM (fRep SC.RISK_FACT_NUM (qi 0))),
   ("probIncidentCHRMsPriorHistoryLogit",
     vRep SC.CHRM_NUM (fRep SC.CHRM_NUM (qi 0))),
   ("CHRMsDeathRateRatio",
     vRep SC.CHRM_NUM (vRep SC.CHRM_TIME_PER_NUM
       (vRep SC.GENDER_NUM (fRep SC.CHRM_AGE_CAT_NUM (qi 1))))),
   ("costCHRMs",
     vRep SC.CHRM_NUM (vRep SC.CHRM_TIME_PER_NUM
       (vRep SC.GENDER_NUM (fRep SC.CHRM_AGE_CAT_NUM (qi 0))))),
   ("costDeathCHRMs", fRep SC.CHRM_NUM (qi 0)),
   ("QOLModCHRMs",
     vRep SC.CHRM_NUM (vRep SC.CHRM_TIME_PER_NUM
       (vRep SC.GENDER_NUM (fRep SC.CHRM_AGE_CAT_NUM (qi 1))))),
   ("QOLModDeathCHRMs", fRep SC.CHRM_NUM (qi 1)),
   ("QOLModMultipleCHRMs", fRep (SC.CHRM_NUM - 1) (qi 1))]

/-- `create_costs_defaults`. -/
def create_costs_defaults : Sect :=
  [("costAgeBounds", il [18, 25, 35, 45, 55, 65]),
   ("acuteOICostTreated",
     vRep SC.COST_AGE_CAT_NUM (vRep SC.ART_NUM_STATES
       (vRep SC.OI_NUM (fRep SC.COST_NUM_TYPES (qi 0))))),
   ("acuteOICostUntreated",
     vRep SC.COST_AGE_CAT_NUM (vRep SC.ART_NUM_STATES
       (vRep SC.OI_NUM (fRep SC.COST_NUM_TYPES (qi 0))))),
   ("CD4TestCost", vRep SC.COST_AGE_CAT_NUM (fRep SC.COST_NUM_TYPES (qi 0))),
   ("HVLTestCost", vRep SC.COST_AGE_CAT_NUM (fRep SC.COST_NUM_TYPES (qi 0))),
   ("deathCostTreated",
     vRep SC.COST_AGE_CAT_NUM (vRep SC.ART_NUM_STATES
       (vRep SC.DTH_NUM_CAUSES_BASIC (fRep SC.COST_NUM_TYPES (qi 0))))),
   ("deathCostUntreated",
     vRep SC.COST_AGE_CAT_NUM (vRep SC.ART_NUM_STATES
       (vRep SC.DTH_NUM_CAUSES_BASIC (fRep SC.COST_NUM_TYPES (qi 0))))),
   ("generalMedicineCost",
     vRep SC.GENDER_NUM (vRep SC.COST_AGE_CAT_NUM (fRep SC.COST_NUM_TYPES (qi 0)))),
   ("routineCareCostHIVPositive",
     vRep SC.ART_NUM_STATES (vRep SC.CD4_NUM_STRATA (vRep SC.GENDER_NUM
       (vRep SC.COST_AGE_CAT_NUM (fRep SC.COST_NUM_TYPES (qi 0)))))),
   ("routineCareCostHIVNegative",
     vRep SC.GENDER_NUM (vRep SC.COST_AGE_CAT_NUM (fRep SC.COST_NUM_TYPES (qi 0)))),
   ("routineCareCostHIVPositiveUndetected",
     vRep SC.GENDER_NUM (vRep SC.COST_AGE_CAT_NUM (fRep SC.COST_NUM_TYPES (qi 0)))),
   ("routineCareCostHIVNegativeStopAge", vi 100),
   ("routineCareCostHIVPositiveUndetectedStopAge", vi 100),
   ("clinicVisitCostRoutine",
     vRep SC.COST_AGE_CAT_NUM (vRep SC.GENDER_NUM
       (vRep SC.CD4_NUM_STRATA (fRep SC.COST_NUM_TYPES (qi 0)))))]

/-- The `default_tb_proph()` record of `create_tb_defaults`. -/
def default_tb_proph : Val :=
  .VObj
    [("efficacyInfectionHIVNeg", fl [qi 0, qi 0]),
     ("efficacyInfectionHIVPos", vRep SC.CD4_NUM_STRATA (fl [qi 0, qi 0])),
     ("monthsOfEfficacyInfection", vi 0),
     ("decayPeriodInfection", vi 0),
     ("efficacyActivationHIVNeg", vRep SC.TB_NUM_STRAINS (fl [qi 0, qi 0])),
     ("efficacyActivationHIVPos",
       vRep SC.TB_NUM_STRAINS (vRep SC.CD4_NUM_STRATA (fl [qi 0, qi 0]))),
     ("monthsOfEfficacyActivation", iRep SC.TB_NUM_STRAINS 0),
     ("decayPeriodActivation", iRep SC.TB_NUM_STRAINS 0),
     ("efficacyReinfectionHIVNeg", vRep SC.TB_NUM_STRAINS (fl [qi 0, qi 0])),
     ("efficacyReinfectionHIVPos",
       vRep SC.TB_NUM_STRAINS (vRep SC.CD4_NUM_STRATA (fl [qi 0, qi 0]))),
     ("monthsOfEfficacyReinfection", iRep SC.TB_NUM_STRAINS 0),
     ("decayPeriodReinfection", iRep SC.TB_NUM_STRAINS 0),
     ("costMonthly", vf (qi 0)),
     ("costMinorToxicity", vf (qi 0)),
     ("QOLModifierMinorToxicity", vf (qi 1)),
     ("costMajorToxicity", vf (qi 0)),
     ("QOLModifierMajorToxicity", vf (qi 1)),
     ("probMinorToxicityHIVNeg", vf (qi 0)),
     ("probMinorToxicityOffART", vf (qi 0)),
     ("probMinorToxicityOnART", vf (qi 0)),
     ("probMajorToxicityHIVNeg", vf (qi 0)),
     ("probMajorToxicityOffART", vf (qi 0)),
     ("probMajorToxicityOnART", vf (qi 0)),
     ("deathRateRatioMajorToxicity", vf (qi 1)),
     ("probResistanceInActiveStates", vf (qi 0))]

/-- The `default_tb_test()` record of `create_tb_defaults`. -/
def default_tb_test : Val :=
  .VObj
    [("probPositiveHIVNeg", fRep SC.TB_NUM_STATES (qi 0)),
     ("probPositiveHIVPos", vRep SC.TB_NUM_STATES (fRep SC.CD4_NUM_STRATA (qi 0))),
     ("probAccept", vf (qi 1)),
     ("probPickup", vf (qi 1)),
     ("monthsToReset", vi 0),
     ("timeToPickupMean", vf (qi 0)),
     ("timeToPickupStdDev", vf (qi 0)),
     ("DSTMatrixObsvTrue", vRep SC.TB_NUM_STRAINS (fRep SC.TB_NUM_STRAINS (qi 0))),
     ("DSTMonthsToResult", iRep SC.TB_NUM_STRAINS 0),
     ("DSTLinked", vb false),
     ("DSTProbPickup", vf (qi 1)),
     ("initCost", vf (qi 0)),
     ("QOLMod", vf (qi 1)),
     ("DSTCost", vf (qi 0))]

/-- The `default_tb_treatment()` record of `create_tb_defaults`. -/
def default_tb_treatment : Val :=
  .VObj
    [("stage1Duration", vi 2),
     ("totalDuration", vi 6),
     ("costInitial", vf (qi 0)),
     ("costMonthly", fl [qi 0, qi 0]),
     ("probSuccessHIVNeg", fRep SC.TB_NUM_STRAINS (qi 0)),
     ("probSuccessHIVPos",
       vRep SC.TB_NUM_STRAINS (fRep SC.CD4_NUM_STRATA (qi 0))),
     ("probMinorToxHIVNeg", fl [qi 0, qi 0]),
     ("probMajorToxHIVNeg", fl [qi 0, qi 0]),
     ("probMinorToxOffARTHIVPos", fl [qi 0, qi 0]),
     ("probMajorToxOffARTHIVPos", fl [qi 0, qi 0]),
     ("probMinorToxOnARTHIVPos", fl [qi 0, qi 0]),
     ("probMajorToxOnARTHIVPos", fl [qi 0, qi 0]),
     ("costMinorToxicity", vf (qi 0)),
     ("QOLModifierMinorToxicity", vf (qi 1)),
     ("costMajorToxicity", vf (qi 0)),
     ("QOLModifierMajorToxicity", vf (qi 1)),
     ("deathRateRatioMajorToxicity", vf (qi 1))]

/-- `create_tb_defaults`. -/
def create_tb_defaults : Sect :=
  [("enableTB", vb false),
   ("tbProphs", vRep SC.TB_NUM_PROPHS default_tb_proph),
   ("tbTests", vRep SC.TB_NUM_TESTS default_tb_test),
   ("tbTreatments", vRep SC.TB_NUM_TREATMENTS default_tb_treatment)]

/-- `create_qol_defaults`. -/
def create_qol_defaults : Sect :=
  [("QOLCalculationType", vi 0),
   ("QOLBaseHIVNegative", vf (qi 1)),
   ("QOLBaseHIVPositive", vRep SC.ART_NUM_STATES (fRep SC.CD4_NUM_STRATA (qi 1))),
   ("QOLAcuteOI", fRep SC.OI_NUM (qi 1)),
   ("QOLDeathMonth", vf (qi 0))]

/-- `create_hivtest_defaults`. -/
def create_hivtest_defaults : Sect :=
  [("enableHIVTesting", vb false),
   ("HIVTestSensitivity", vf q099),
   ("HIVTestSpecificity", vf q099),
   ("HIVTestCost", vf (qi 0)),
   ("probHIVTestAccept", vf (qi 1)),
   ("probHIVTestReturn", vf (qi 1)),
   ("monthsToHIVTestReturn", vi 0),
   ("enablePrEP", vb false),
   ("PrEPCostMonthly", vf (qi 0)),
   ("PrEPEfficacy", vf (qi 0)),
   ("probPrEPDropout", vf (qi 0))]

/-- `create_peds_defaults` (local constants inlined as in the source). -/
def create_peds_defaults : Sect :=
  [("enablePediatrics", vb false),
   ("maternalStatusDistribution", fRep 4 q025),
   ("probMotherIncidentInfection", fRep 4 (qi 0)),
   ("probMaternalDeath", fRep 4 (qi 0)),
   ("probMotherStatusKnownPregnancy", fRep 4 (qi 0)),
   ("probMotherStatusBecomeKnown", fRep 4 (qi 0)),
   ("probMotherOnARTInitial", fRep 4 (qi 0)),
   ("probMotherOnSuppressedART", fRep 4 (qi 0)),
   ("probMotherKnownSuppressed", fRep 4 (qi 0)),
   ("probMotherKnownNotSuppressed", fRep 4 (qi 0)),
   ("probMotherLowHVL", fRep 4 (qi 0)),
   ("earlyVTHIVDistributionMotherOnArtSuppressed", fRep 4 (qi 0)),
   ("earlyVTHIVDistributionMotherOnArtNotSuppressedLowHVL", fRep 4 (qi 0)),
   ("earlyVTHIVDistributionMotherOnArtNotSuppressedHighHVL", fRep 4 (qi 0)),
   ("earlyVTHIVDistributionMotherOffArt", fRep 4 (qi 0)),
   ("probVTHIVPPMotherOnARTSuppressed", fRep 4 (qi 0)),
   ("probVTHIVPPMotherOnARTNotSuppressedLowHVL", fRep 4 (qi 0)),
   ("probVTHIVPPMotherOnARTNotSuppressedHighHVL", fRep 4 (qi 0)),
   ("probVTHIVPPMotherOffART", vRep 4 (fRep 4 (qi 0))),
   ("pedsInitialCD4PercMean", vf q025),
   ("pedsInitialCD4PercStdDev", vf q01),
   ("pedsInitialHVLDistribution", fRep SC.HVL_NUM_STRATA (qi 0)),
   ("HIVDeathRateRatioPedsEarly", vRep 10 (fRep SC.PEDS_CD4_PERC_NUM (qi 0))),
   ("HIVDeathRateRatioPedsLate", fRep SC.CD4_NUM_STRATA (qi 0)),
   ("ARTDeathRateRatioPeds", vRep 3 (fRep SC.PEDS_AGE_CHILD_NUM (qi 1))),
   ("genericRiskDeathRateRatioPeds",
     vRep SC.RISK_FACT_NUM (fRep SC.PEDS_AGE_CHILD_NUM (qi 1))),
   ("backgroundDeathRateMalePedsEarly", fRep 10 (qi 0)),
   ("backgroundDeathRateFemalePedsEarly", fRep 10 (qi 0)),
   ("backgroundDeathRateExposedMalePedsEarly", fRep 10 (qi 0)),
   ("backgroundDeathRateExposedFemalePedsEarly", fRep 10 (qi 0)),
   ("probOINoHistPedsEarly",
     vRep SC.OI_NUM (vRep 10 (fRep SC.PEDS_CD4_PERC_NUM (qi 0)))),
   ("probOIWithHistPedsEarly",
     vRep SC.OI_NUM (vRep 10 (fRep SC.PEDS_CD4_PERC_NUM (qi 0)))),
   ("probOINoHistPedsLate", vRep SC.CD4_NUM_STRATA (fRep SC.OI_NUM (qi 0))),
   ("probOIWithHistPedsLate", vRep SC.CD4_NUM_STRATA (fRep SC.OI_NUM (qi 0))),
   ("maxPedsCD4Perc", fRep 10 (qi 100)),
   ("intvlCD4TestPreARTPeds", il [3, 3]),
   ("intvlHVLTestPreARTPeds", il [3, 3]),
   ("priProphStartPedsAgeLwr", fRep SC.OI_NUM (qi 0)),
   ("priProphStartPedsAgeUpp", fRep SC.OI_NUM (qi 999)),
   ("priProphStartPedsCD4PercUpp", fRep SC.OI_NUM (qi 100)),
   ("priProphStartPedsCD4PercLwr", fRep SC.OI_NUM (qi 0)),
   ("priProphStartPedsOIHistory", vRep SC.OI_NUM (iRep SC.OI_NUM 0)),
   ("priProphStartPedsCondFirst", vi 0),
   ("priProphStartPedsCondSecond", vi 0),
   ("priProphStartPedsCondPar", vi 0),
   ("pedsARTStartMthStage", il [0, 0, 0]),
   ("pedsARTStartCD4PercBounds",
     vRep 4 (vRep SC.ART_NUM_LINES (fl [qi 100, qi 0]))),
   ("pedsARTStartHVLBounds",
     vRep SC.ART_NUM_LINES (il [(SC.HVL_NUM_STRATA : ℤ), 0]))]

/-- The `default_peds_proph()` record of `create_pedsprophs_defaults`. -/
def default_peds_proph : Val :=
  .VObj
    [("id", vi (-1)),
     ("primaryOIEfficacy", fRep SC.OI_NUM (qi 0)),
     ("secondaryOIEfficacy", fRep SC.OI_NUM (qi 0)),
     ("monthlyProbResistance", vf (qi 0)),
     ("percentResistance", vf (qi 0)),
     ("timeOfResistance", vi 0),
     ("costFactorResistance", vf (qi 1)),
     ("deathRateRatioResistance", vf (qi 1)),
     ("probMinorToxicity", vf (qi 0)),
     ("probMajorToxicity", vf (qi 0)),
     ("monthsToToxicity", vi 0),
     ("deathRateRatioMajorToxicity", vf (qi 1)),
     ("costMonthly", vf (qi 0)),
     ("costMinorToxicity", vf (qi 0)),
     ("QOLMinorToxicity", vf (qi 1)),
     ("costMajorToxicity", vf (qi 0)),
     ("QOLMajorToxicity", vf (qi 1)),
     ("monthsToSwitch", vi (-1)),
     ("switchOnMinorToxicity", vb false),
     ("switchOnMajorToxicity", vb false)]

/-- `create_pedsprophs_defaults`. -/
def create_pedsprophs_defaults : Sect :=
  [("pedsPriProphData", vRep SC.OI_NUM (vRep SC.PROPH_NUM default_peds_proph)),
   ("pedsSecProphData", vRep SC.OI_NUM (vRep SC.PROPH_NUM default_peds_proph))]

/-- The `default_peds_art()` record of `create_pedsarts_defaults`. -/
def default_peds_art : Val :=
  .VObj
    [("id", vi (-1)),
     ("costInitial", fRep SC.PEDS_ART_COST_AGE_CAT_NUM (qi 0)),
     ("costMonthly", fRep SC.PEDS_ART_COST_AGE_CAT_NUM (qi 0)),
     ("efficacyTimeHorizonEarly", vi 48),
     ("efficacyTimeHorizonLate", vi 48),
     ("forceFailAtMonthEarly", vi (-1)),
     ("forceFailAtMonthLate", vi (-1))]

/-- `create_pedsarts_defaults`. -/
def create_pedsarts_defaults : Sect :=
  [("pedsARTData", vRep SC.ART_NUM_LINES default_peds_art)]

/-- The `default_age_cat_costs()` record of `create_pedscosts_defaults`. -/
def default_age_cat_costs : Val :=
  .VObj
    [("acuteOICostTreatedNoART",
       vRep SC.OI_NUM (fRep SC.COST_NUM_TYPES (qi 0))),
     ("acuteOICostUntreatedNoART",
       vRep SC.OI_NUM (fRep SC.COST_NUM_TYPES (qi 0))),
     ("acuteOICostTreatedOnART",
       vRep SC.OI_NUM (fRep SC.COST_NUM_TYPES (qi 0))),
     ("acuteOICostUntreatedOnART",
       vRep SC.OI_NUM (fRep SC.COST_NUM_TYPES (qi 0))),
     ("CD4TestCost", fRep SC.COST_NUM_TYPES (qi 0)),
     ("HVLTestCost", fRep SC.COST_NUM_TYPES (qi 0)),
     ("deathCostTreatedNoART",
       vRep SC.DTH_NUM_CAUSES_BASIC (fRep SC.COST_NUM_TYPES (qi 0))),
     ("deathCostUntreatedNoART",
       vRep SC.DTH_NUM_CAUSES_BASIC (fRep SC.COST_NUM_TYPES (qi 0))),
     ("deathCostTreatedOnART",
       vRep SC.DTH_NUM_CAUSES_BASIC (fRep SC.COST_NUM_TYPES (qi 0))),
     ("deathCostUntreatedOnART",
       vRep SC.DTH_NUM_CAUSES_BASIC (fRep SC.COST_NUM_TYPES (qi 0)))]

/-- `create_pedscosts_defaults`. -/
def create_pedscosts_defaults : Sect :=
  [("pedsCostsByAgeCat", vRep SC.PEDS_COST_AGE_CAT_NUM default_age_cat_costs),
   ("routineCareCostHIVNegDmed",
     vRep SC.GENDER_NUM (fRep SC.PEDS_COST_AGE_CAT_NUM (qi 0))),
   ("routineCareCostHIVNegNmed",
     vRep SC.GENDER_NUM (fRep SC.PEDS_COST_AGE_CAT_NUM (qi 0))),
   ("routineCareCostHIVNegTime",
     vRep SC.GENDER_NUM (fRep SC.PEDS_COST_AGE_CAT_NUM (qi 0))),
   ("routineCareCostHIVNegIndr",
     vRep SC.GENDER_NUM (fRep SC.PEDS_COST_AGE_CAT_NUM (qi 0))),
   ("routineCareCostHIVPosNoARTDmed",
     vRep SC.CD4_NUM_STRATA (vRep SC.GENDER_NUM (fRep SC.PEDS_COST_AGE_CAT_NUM (qi 0)))),
   ("routineCareCostHIVPosNoARTNmed",
     vRep SC.CD4_NUM_STRATA (vRep SC.GENDER_NUM (fRep SC.PEDS_COST_AGE_CAT_NUM (qi 0)))),
   ("routineCareCostHIVPosNoARTTime",
     vRep SC.CD4_NUM_STRATA (vRep SC.GENDER_NUM (fRep SC.PEDS_COST_AGE_CAT_NUM (qi 0)))),
   ("routineCareCostHIVPosNoARTIndr",
     vRep SC.CD4_NUM_STRATA (vRep SC.GENDER_NUM (fRep SC.PEDS_COST_AGE_CAT_NUM (qi 0)))),
   ("routineCareCostHIVPosOnARTDmed",
     vRep SC.CD4_NUM_STRATA (vRep SC.GENDER_NUM (fRep SC.PEDS_COST_AGE_CAT_NUM (qi 0)))),
   ("routineCareCostHIVPosOnARTNmed",
     vRep SC.CD4_NUM_STRATA (vRep SC.GENDER_NUM (fRep SC.PEDS_COST_AGE_CAT_NUM (qi 0)))),
   ("routineCareCostHIVPosOnARTTime",
     vRep SC.CD4_NUM_STRATA (vRep SC.GENDER_NUM (fRep SC.PEDS_COST_AGE_CAT_NUM (qi 0)))),
   ("routineCareCostHIVPosOnARTIndr",
     vRep SC.CD4_NUM_STRATA (vRep SC.GENDER_NUM (fRep SC.PEDS_COST_AGE_CAT_NUM (qi 0))))]

/-- The `default_infant_proph()` record of `create_eid_defaults`. -/
def default_infant_proph : Val :=
  .VObj
    [("enable", vb false),
     ("maxAge", vi 0),
     ("maternalHIVStatusKnown", vi 0),
     ("maternalHIVStatusPositive", vi 0),
     ("motherOnART", vi 0),
     ("maternalVSKnownDelivery", vi 0),
     ("motherSuppressedDelivery", vi 0),
     ("motherHVLHighDelivery", vi 0),
     ("maternalVSKnown", vi 0),
     ("motherSuppressed", vi 0),
     ("motherHVLHigh", vi 0),
     ("stopOnPosEID", vb false),
     ("adminProb", fRep 36 (qi 0)),
     ("adminEIDNegMonths", iRep 36 0),
     ("startupCost", fRep 8 (qi 0)),
     ("doseCost", fRep 8 (qi 0)),
     ("effHorizon", vi 0),
     ("decayTime", vi 0),
     ("probSubsequentEff", vf (qi 0)),
     ("majorToxProb", vf (qi 0)),
     ("majorToxQOLMod", vf (qi 1)),
     ("majorToxCost", vf (qi 0)),
     ("majorToxDeathRateRatio", vf (qi 1)),
     ("majorToxDeathRateRatioDuration", vi 0),
     ("majorToxDeathCost", vf (qi 0)),
     ("majorToxStopOnTox", vb false),
     ("minorToxProb", vf (qi 0)),
     ("minorToxQOLMod", vf (qi 1)),
     ("minorToxCost", vf (qi 0)),
     ("ppVTHIVThreshold", vi 0),
     ("ppVTHIVMultOnARTPreSuppressed", fRep 4 (qi 1)),
     ("ppVTHIVMultOnARTPreNotSuppLow", fRep 4 (qi 1)),
     ("ppVTHIVMultOnARTPreNotSuppHigh", fRep 4 (qi 1)),
     ("ppVTHIVMultOffARTPreEBF", fRep 4 (qi 1)),
     ("ppVTHIVMultOffARTPreMBF", fRep 4 (qi 1)),
     ("ppVTHIVMultOffARTPreCBF", fRep 4 (qi 1)),
     ("ppVTHIVMultOnARTPostSuppressed", fRep 4 (qi 1)),
     ("ppVTHIVMultOnARTPostNotSuppLow", fRep 4 (qi 1)),
     ("ppVTHIVMultOnARTPostNotSuppHigh", fRep 4 (qi 1)),
     ("ppVTHIVMultOffARTPostEBF", fRep 4 (qi 1)),
     ("ppVTHIVMultOffARTPostMBF", fRep 4 (qi 1)),
     ("ppVTHIVMultOffARTPostCBF", fRep 4 (qi 1))]

/-- The `default_eid_test()` record of `create_eid_defaults`. -/
def default_eid_test : Val :=
  .VObj
    [("countTowardEIDCosts", vb false),
     ("probOfferedTest", vf (qi 0)),
     ("probAcceptTest", vf (qi 0)),
     ("testCost", vf (qi 0)),
     ("costResult", vf (qi 0)),
     ("costNegResult", vf (qi 0)),
     ("costPosResult", vf (qi 0)),
     ("resultReturnProbLab", vf (qi 1)),
     ("resultReturnProbPatient", vf (qi 1)),
     ("resultReturnTimeMean", vi 0),
     ("resultReturnTimeStdDev", vi 0),
     ("sensitivityIU", fRep 18 (qi 1)),
     ("sensitivityIP", fRep 18 (qi 1)),
     ("sensitivityPPBeforeSR", fRep 18 (qi 1)),
     ("sensitivityPPAfterSR", fRep 18 (qi 1)),
     ("sensitivityPPDuringBF", fRep 18 (qi 1)),
     ("sensitivityMultMaternalART", fRep 18 (qi 1)),
     ("sensitivityMultInfantProph",
       vRep SC.INFANT_HIV_PROPHS_NUM (fRep 18 (qi 1))),
     ("specificityHEUBeforeSR", fRep 18 (qi 1)),
     ("specificityHEUAfterSR", fRep 18 (qi 1)),
     ("specificityUninfectedMother", fRep 18 (qi 1)),
     ("specificityMotherInfectedBF", fRep 18 (qi 1)),
     ("specificityMultInfantProph",
       vRep SC.INFANT_HIV_PROPHS_NUM (fRep 18 (qi 1))),
     ("confAssayFirst", vi (-1)),
     ("confAssaySecond", vi (-1)),
     ("confDelayFirst", vi 0),
     ("confDelaySecond", vi 0),
     ("probLink", vf (qi 1)),
     ("probMaternalStatusKnownOnPosResult", vf (qi 0))]

/-- `create_eid_defaults`. -/
def create_eid_defaults : Sect :=
  [("enableEID", vb false),
   ("altStopRuleEnable", vb false),
   ("altStopRuleTotHIV", vi 0),
   ("altStopRuleTotCohort", vi 0),
   ("testingAdminAssayUnknownPos", iRep SC.EID_NUM_ASSAYS 0),
   ("testingAdminAgeUnknownPos", iRep SC.EID_NUM_ASSAYS 0),
   ("testingAdminProbPresentUnknownPos", fRep SC.EID_NUM_ASSAYS (qi 0)),
   ("testingAdminProbNonMaternalUnknownPos", fRep SC.EID_NUM_ASSAYS (qi 0)),
   ("testingAdminEIDVisitUnknownPos", bRep SC.EID_NUM_ASSAYS false),
   ("testingAdminReofferUnknownPos", bRep SC.EID_NUM_ASSAYS false),
   ("testingAdminAssayKnownPos", iRep SC.EID_NUM_ASSAYS 0),
   ("testingAdminAgeKnownPos", iRep SC.EID_NUM_ASSAYS 0),
   ("testingAdminProbPresentKnownPos", fRep SC.EID_NUM_ASSAYS (qi 0)),
   ("testingAdminProbNonMaternalKnownPos", fRep SC.EID_NUM_ASSAYS (qi 0)),
   ("testingAdminEIDVisitKnownPos", bRep SC.EID_NUM_ASSAYS false),
   ("testingAdminReofferKnownPos", bRep SC.EID_NUM_ASSAYS false),
   ("ageSeroreversionMean", vi 18),
   ("ageSeroreversionStdDev", vi 3),
   ("multProbPresentIfMissedVisit", vf (qi 1)),
   ("multProbOfferIfNonMaternal", vf (qi 1)),
   ("probKnowledgePriorResult", vf (qi 1)),
   ("costVisit", fRep 24 (qi 0)),
   ("probDetectionOnOI", fRep SC.OI_NUM (qi 0)),
   ("probOIDetectionConfirmedLabTest", vf (qi 0)),
   ("oiLabTestMonthsThreshold", vi 0),
   ("oiAssayUnknownPos", il [0, 0]),
   ("oiAssayKnownPos", il [0, 0]),
   ("infantHIVProphs", vRep SC.INFANT_HIV_PROPHS_NUM default_infant_proph),
   ("eidTests", vRep SC.EID_NUM_TESTS default_eid_test)]

/-- `create_adolescent_defaults`. -/
def create_adolescent_defaults : Sect :=
  [("enableAdolescent", vb false),
   ("transitionToAdult", vb false),
   ("ageTransitionToAdult", vi 18),
   ("ageTransitionFromPeds", vi 10),
   ("adolescentAgeBounds", iRep (SC.ADOLESCENT_NUM_AGES - 1) 0),
   ("monthlyCD4DeclineMeanAdolescent",
     vRep SC.CD4_NUM_STRATA (vRep SC.HVL_NUM_STRATA
       (fRep SC.ADOLESCENT_NUM_AGES (qi 0)))),
   ("monthlyCD4DeclineStdDevAdolescent",
     vRep SC.CD4_NUM_STRATA (vRep SC.HVL_NUM_STRATA
       (fRep SC.ADOLESCENT_NUM_AGES (qi 0)))),
   ("monthlyOIProbOffARTNoHistAdolescent",
     vRep SC.OI_NUM (vRep SC.CD4_NUM_STRATA (fRep SC.ADOLESCENT_NUM_AGES (qi 0)))),
   ("monthlyOIProbOffARTWithHistAdolescent",
     vRep SC.OI_NUM (vRep SC.CD4_NUM_STRATA (fRep SC.ADOLESCENT_NUM_AGES (qi 0)))),
   ("monthlyOIProbOnARTNoHistAdolescent",
     vRep SC.OI_NUM (vRep SC.CD4_NUM_STRATA (fRep SC.ADOLESCENT_NUM_AGES (qi 0)))),
   ("monthlyOIProbOnARTWithHistAdolescent",
     vRep SC.OI_NUM (vRep SC.CD4_NUM_STRATA (fRep SC.ADOLESCENT_NUM_AGES (qi 0)))),
   ("HIVDeathRateRatioAdolescent",
     vRep SC.CD4_NUM_STRATA (fRep SC.ADOLESCENT_NUM_AGES (qi 1))),
   ("ARTDeathRateRatioAdolescent", fRep SC.ADOLESCENT_NUM_AGES (qi 1)),
   ("genericRiskDeathRateRatioAdolescent",
     vRep SC.RISK_FACT_NUM (fRep SC.ADOLESCENT_NUM_AGES (qi 1))),
   ("acuteOIDeathRateRatioAdolescent",
     vRep SC.CD4_NUM_STRATA (fRep SC.ADOLESCENT_NUM_AGES (qi 1))),
   ("acuteOIDeathRateRatioTBAdolescent",
     vRep SC.CD4_NUM_STRATA (fRep SC.ADOLESCENT_NUM_AGES (qi 1))),
   ("severeOIHistDeathRateRatioAdolescent", fRep SC.ADOLESCENT_NUM_AGES (qi 1)),
   ("severeOIHistEffectDurationAdolescent", vi 0),
   ("TB_OIHistDeathRateRatioAdolescent", fRep SC.ADOLESCENT_NUM_AGES (qi 1)),
   ("TB_OIHistEffectDurationAdolescent", vi 0)]

/-- The `default_adolescent_art()` record of
`create_adolescentarts_defaults`. -/
def default_adolescent_art : Val :=
  .VObj
    [("id", vi (-1)),
     ("costInitial", fRep SC.ADOLESCENT_NUM_AGES (qi 0)),
     ("costMonthly", fRep SC.ADOLESCENT_NUM_AGES (qi 0)),
     ("efficacyTimeHorizon", iRep SC.ADOLESCENT_NUM_AGES 48),
     ("forceFailAtMonth", iRep SC.ADOLESCENT_NUM_AGES (-1))]

/-- `create_adolescentarts_defaults`. -/
def create_adolescentarts_defaults : Sect :=
  [("adolescentARTData", vRep SC.ART_NUM_LINES default_adolescent_art)]

/-- `create_default_params`: the full default tree, tab by tab, in the
source's insertion order. -/
def create_default_params : Params :=
  [("runspecs", create_runspecs_defaults),
   ("output", create_output_defaults),
   ("cohort", create_cohort_defaults),
   ("treatment", create_treatment_defaults),
   ("ltfu", create_ltfu_defaults),
   ("heterogeneity", create_heterogeneity_defaults),
   ("sti", create_sti_defaults),
   ("prophs", create_prophs_defaults),
   ("arts", create_arts_defaults),
   ("nathist", create_nathist_defaults),
   ("chrms", create_chrms_defaults),
   ("costs", create_costs_defaults),
   ("tb", create_tb_defaults),
   ("qol", create_qol_defaults),
   ("hivtest", create_hivtest_defaults),
   ("peds", create_peds_defaults),
   ("pedsprophs", create_pedsprophs_defaults),
   ("pedsarts", create_pedsarts_defaults),
   ("pedscosts", create_pedscosts_defaults),
   ("eid", create_eid_defaults),
   ("adolescent", create_adolescent_defaults),
   ("adolescentarts", create_adolescentarts_defaults)]

/-! ## The decoder (`InputParser`) -/

/-- `self.params[tab][path]` read access. -/
def lookupParam (p : Params) (tab path : String) : Option Val :=
  (alookup tab p).bind (alookup path)

/-- `self.params[tab][path] = v` (only invoked after a successful
lookup, so the section is present). -/
def setParam (p : Params) (tab path : String) (v : Val) : Params :=
  p.map (fun s => if s.1 = tab then (s.1, aset path v s.2) else s)

/-- `self.p.get(section, {}).get(key, default)`, the generator's
parameter access (`InputGenerator._g` inlined at each read site). -/
def pget (p : Params) (sect key : String) (dflt : Val) : Val :=
  match alookup sect p with
  | none => dflt
  | some s => (alookup key s).getD dflt

/-- `InputParser._read_value_for_path`: missing tabs, paths containing
`[`, unknown paths, and paths holding unhandled types (dicts) consume
nothing; otherwise dispatch on the runtime type of the default value
and overwrite it with the coerced read. -/
def readValueForPath (p : Params) (tab path : String) (ts : List String) :
    Option (Params × List String) :=
  match alookup tab p with
  | none => some (p, ts)
  | some sec =>
    if path.data.contains '[' then some (p, ts)
    else
      match alookup path sec with
      | none => some (p, ts)
      | some v =>
        match v with
        | .VBool _ =>
          let r := readBool ts
          some (setParam p tab path (.VBool r.1), r.2)
        | .VInt _ =>
          (readInt ts).map (fun r => (setParam p tab path (.VInt r.1), r.2))
        | .VFloat _ =>
          let r := readFloat ts
          some (setParam p tab path (.VFloat r.1), r.2)
        | .VStr _ =>
          let r := readString ts
          some (setParam p tab path (.VStr r.1), r.2)
        | .VList l =>
          (readListInto l ts).map
            (fun r => (setParam p tab path (.VList r.1), r.2))
        | .VObj _ => some (p, ts)

/-- The scan loop of `InputParser.parse_content`: at each cursor
position, an unrecognized token is skipped; a recognized keyword that
is in `KEYWORD_MAP` dispatches to `readValueForPath`; a recognized
keyword outside the map falls to `_handle_special_keyword`, a no-op.
The loop advances at least one token per iteration, so fuel equal to
the token count suffices (`parseLoop_fuel`); fuel is explicit so that
the function reduces definitionally. -/
def parseLoop : ℕ → List String → Params → Option Params
  | _, [], p => some p
  | 0, _ :: _, _ => none
  | fuel + 1, tok :: rest, p =>
    if isKeyword tok then
      match kwLookup tok with
      | some tp =>
        match readValueForPath p tp.1 tp.2 rest with
        | some (p', rest') => parseLoop fuel rest' p'
        | none => none
      | none => parseLoop fuel rest p
    else parseLoop fuel rest p

/-- `InputParser._tokenize`: strip comments line by line (`//` always;
`#` only when the line contains no quote character), rejoin, and split
on whitespace. -/
def tokenize (content : String) : List String :=
  let lines := splitOnChar '\n' content.data
  let cleaned := lines.map stripLine
  let joined := intercalateChar '\n' cleaned
  (pySplitWs joined).map (fun cs => ⟨cs⟩)
where
  /-- The per-line comment stripping of the source: cut from `//`
  unconditionally, then cut from `#` only on quote-free lines. -/
  stripLine (l : List Char) : List Char :=
    let l1 := cutBeforeSub ['/', '/'] l
    if l1.contains '#' && !(l1.contains '"' || l1.contains '\'') then
      cutBeforeSub ['#'] l1
    else l1

/-- `InputParser.parse_content`: seed the tree with defaults, tokenize,
and scan.  `none` models the one exception the decoder can raise to
its caller (`OverflowError`, see `readIntTok`). -/
def parse_content (content : String) : Option Params :=
  let ts := tokenize content
  parseLoop ts.length ts create_default_params

/-! ## Encoder constants (`input_generator.py` module header)

The generator has its own copy of the size constants; several differ
from the schema's (`AGE_YRS` 121 vs 101, `ART_NUM_SUBREGIMENS` 5 vs 4,
`ART_NUM_TOX_PER_SEVERITY` 3 vs 6, `CHRM_ORPHANS_AGE_CAT_NUM` 4 vs
15), exactly as in the source. -/

namespace GC

def CD4_STRATA_STRS : List String :=
  ["CD4vlo", "CD4_lo", "CD4mlo", "CD4mhi", "CD4_hi", "CD4vhi"]
def HVL_STRATA_STRS : List String :=
  ["HVLvlo", "HVL_lo", "HVLmlo", "HVLmed", "HVLmhi", "HVL_hi", "HVLvhi"]
def CD4_STRATA_REV : List String := CD4_STRATA_STRS.reverse
def HVL_STRATA_REV : List String := HVL_STRATA_STRS.reverse
def TRANSM_RISK_STRS : List String := ["MSM", "IDU", "Other"]
def OI_NUM : ℕ := 15
def ART_NUM_LINES : ℕ := 10
def PROPH_NUM : ℕ := 3
def CHRM_NUM : ℕ := 10
def RISK_FACT_NUM : ℕ := 5
def AGE_YRS : ℕ := 121
def TB_NUM_TESTS : ℕ := 4
def TB_NUM_TREATMENTS : ℕ := 10
def COST_AGE_CAT_NUM : ℕ := 7
def HET_INTV_NUM_PERIODS : ℕ := 5
def RESP_AGE_CAT_NUM : ℕ := 7
def CD4_RESPONSE_NUM : ℕ := 4
def INIT_AGE_NUM_STRATA : ℕ := 30
def TRANSM_RISK_AGE_NUM : ℕ := 7
def ART_NUM_SUBREGIMENS : ℕ := 5
def ART_NUM_TOX_SEVERITY : ℕ := 3
def ART_NUM_TOX_PER_SEVERITY : ℕ := 3
def CD4_NUM_STRATA : ℕ := 6
def HVL_NUM_STRATA : ℕ := 7
def CHRM_AGE_CAT_NUM : ℕ := 7
def CHRM_ORPHANS_AGE_CAT_NUM : ℕ := 4
def CHRM_TIME_PER_NUM : ℕ := 3
def GENDER_NUM : ℕ := 2

end GC

/-! ## The encoder (`InputGenerator`), section by section -/

/-- `[float(q)] * n` as written in the generator's argument lists. -/
def fL (n : ℕ) (q : ℚ) : List Val := List.replicate n (vf q)

/-- `[int(z)] * n` as written in the generator's argument lists. -/
def iL (n : ℕ) (z : ℤ) : List Val := List.replicate n (vi z)

/-- `[f"{pre}{i+1}" for i in range(n)]`. -/
def names1 (pre : String) (n : ℕ) : List String :=
  (List.range n).map (fun i => pre ++ Nat.repr (i + 1))

/-- `InputGenerator._gen_runspecs` (the only section, together with the
first line of the cohort section, whose output depends on the tree). -/
def genRunspecs (p : Params) : List String :=
  [w "Runset" [pget p "runspecs" "runSetName" (vs "DefaultRun")],
   w "CohortSize" [pget p "runspecs" "numCohorts" (vi 10000)],
   w "DiscFactor" [pget p "runspecs" "discountFactor" (vf q003)],
   w "MaxPatCD4" [pget p "runspecs" "maxPatientCD4" (vf (qi 2000))],
   w "MthRecARTEffA" [pget p "runspecs" "monthRecordARTEfficacyA" (vi 6)],
   w "MthRecARTEffB" [pget p "runspecs" "monthRecordARTEfficacyB" (vi 12)],
   w "MthRecARTEffC" [pget p "runspecs" "monthRecordARTEfficacyC" (vi 24)],
   w "RandSeedByTime" [pget p "runspecs" "randomSeedByTime" (vi 1)],
   w "UserLocale" [pget p "runspecs" "userProgramLocale" (vs "en_US")],
   w "InpVer" [pget p "runspecs" "inputVersion" (vs "20210615")],
   w "ModelVer" [pget p "runspecs" "modelVersion" (vs "50d")],
   w "IncludeTB_AsOI" [pget p "runspecs" "OIsIncludeTB" (vi 0)],
   w "OIstrs" ((names1 "OI" GC.OI_NUM).map vs),
   w "LongitLogCohort" [vi 0],
   w "LongitLogFirstOIs" (iL GC.OI_NUM 0),
   w "LogPriorOIHistProb" [vi 0],
   w "LogOIHistwithARTfails" [vi 0],
   w "LogOIHistwithCD4" [vf (qi 0), vf (qi 2000)],
   w "LogOIHistwithHVL" [vi 0, vi 6],
   w "LogOIHistExcludeOITypes" (iL GC.OI_NUM 0),
   w "FOB_OIs" (fL GC.OI_NUM (qi 1)),
   w "Severe_OIs" (iL GC.OI_NUM 0),
   w "CD4Bounds" [vf (qi 50), vf (qi 100), vf (qi 200), vf (qi 350), vf (qi 500)],
   w "EnableMultDiscountOutput" [vi 0],
   w "DiscountRatesCost" [vf (qi 0), vf q003, vf q005, vf q007],
   w "DiscountRatesBenefit" [vf (qi 0), vf q003, vf q005, vf q007]]

/-- `InputGenerator._gen_output`. -/
def genOutput : List String :=
  [w "NumPatientsToTrace" [vi 0],
   w "EnableSubCohorts" [vi 0],
   w "SubCohortValues" (iL 25 0),
   w "EnableDetailedCosts" [vi 0]]

/-- The lines of `InputGenerator._gen_cohort` after its first line;
all of them are hardcoded (no tree reads). -/
def cohortRest : List String :=
  [w "UseSqRtTransform" [vi 1]] ++
  (GC.CD4_STRATA_REV.flatMap (fun cd4 =>
    [w "InitHVL" [],
     w cd4 [vf (qi 0), vf (qi 0), vf (qi 0), vf (qi 0), vf (qi 0), vf (qi 0),
            vf (qi 1)]])) ++
  [w "InitAge" [vf (qi 360), vf (qi 120)],
   w "InitAgeCustomDist" [vi 0],
   w "AgeStratMins" (fL GC.INIT_AGE_NUM_STRATA (qi 0)),
   w "AgeStratMaxes" (fL GC.INIT_AGE_NUM_STRATA (qi 0)),
   w "AgeStratProbs" (fL GC.INIT_AGE_NUM_STRATA (qi 0)),
   w "InitGender" [vf q05],
   w "ProphNonCompliance" [vf (qi 0), vf (qi 0)],
   w "PatClinicTypes" [vf (qi 0), vf (qi 0), vf (qi 1)],
   w "PatTreatmentTypes" [vf (qi 0), vf (qi 0), vf (qi 1)],
   w "PatCD4ResponeTypeOnART" [vf q025, vf q025, vf q025, vf q025],
   w "PriorOIHistAtEntry" []] ++
  ((List.range GC.OI_NUM).flatMap (fun oi =>
    ("OI" ++ Nat.repr (oi + 1)) ::
      GC.HVL_STRATA_REV.map (fun hvl => w hvl (fL GC.CD4_NUM_STRATA (qi 0))))) ++
  [w "ProbRiskFactorPrev" (fL GC.RISK_FACT_NUM (qi 0)),
   w "ProbRiskFactorIncid" (fL GC.RISK_FACT_NUM (qi 0)),
   w "GenRiskFactorStrs" ((names1 "Risk" GC.RISK_FACT_NUM).map vs),
   w "ShowTransmissionOutput" [vi 0]] ++
  (GC.HVL_STRATA_REV.map (fun hvl =>
    w2 "TransmissionRateOnART" hvl (fL GC.CD4_NUM_STRATA (qi 0)))) ++
  [w2 "TransmissionRateOnART" "Acute" (fL GC.CD4_NUM_STRATA (qi 0))] ++
  (GC.HVL_STRATA_REV.map (fun hvl =>
    w2 "TransmissionRateOffART" hvl (fL GC.CD4_NUM_STRATA (qi 0)))) ++
  [w2 "TransmissionRateOffART" "Acute" (fL GC.CD4_NUM_STRATA (qi 0)),
   w "TransmissionUseHIVTestAcuteDef" [vi 0],
   w "TransmissionAcuteDuration" [vi 3],
   w "IntvlTransmissionRateMultiplier" [vi 12, vi 24],
   w "TransmissionRateMultiplier" [vf (qi 1), vf (qi 1), vf (qi 1)]] ++
  (GC.TRANSM_RISK_STRS.map (fun risk =>
    w2 "TransmissionRiskDistribution" risk (fL (GC.TRANSM_RISK_AGE_NUM * 2) (qi 0)))) ++
  [w "TransmissionRiskMultiplierBounds" [vi 12, vi 24]] ++
  ((List.range 3).map (fun i =>
    w ("TransmissionRiskMultiplier_T" ++ Nat.repr (i + 1))
      (fL GC.TRANSM_RISK_STRS.length (qi 1)))) ++
  [w "UseDynamicTransmission" [vi 0],
   w "DynamicTransmissionNumTransmissionsHRG" [vf (qi 0)],
   w "DynamicTransmissionPropHRGAttrib" [vf (qi 0)],
   w "DynamicTransmissionNumHIVPosHRG" [vf (qi 0)],
   w "DynamicTransmissionNumHIVNegHRG" [vf (qi 0)],
   w "DynamicTransmissionWarmupSize" [vi 0],
   w "DynamicTransmissionKeepPrEPAfterWarmup" [vi 0],
   w "DynamicTransmissionUsePrEPDuringWarmup" [vi 0],
   w "TransmissionUseEndLifeHVLAdjust" [vi 0],
   w "TransmissionEndLifeAdjustCD4Threshold" [vf (qi 0)],
   w "TransmissionEndLifeAdjustARTLineThreshold" [vi 0]]

/-- `InputGenerator._gen_cohort`: the `InitCD4` line reads the tree,
everything after it is hardcoded. -/
def genCohort (p : Params) : List String :=
  w "InitCD4" [pget p "cohort" "initialCD4Mean" (vf (qi 500)),
               pget p "cohort" "initialCD4StdDev" (vf (qi 200))] :: cohortRest

/-- `InputGenerator._gen_treatment_part1`. -/
def genTreatmentPart1 : List String :=
  [w "IntvlClinicVisit" [vi 3],
   w "ProbDetOI_Entry" (fL GC.OI_NUM (qi 0)),
   w "ProbDetOI_LastVst" (fL GC.OI_NUM (qi 0)),
   w "ProbSwitchSecProph" (fL GC.OI_NUM (qi 0)),
   w "IntvlCD4Tst_CD4Threshold" [vf (qi 200)],
   w "IntvlCD4Tst_MonthsThreshold" [vi 6, vi 6],
   w "IntvlCD4Tst" [vi 6, vi 3, vi 3, vi 6, vi 3, vi 6, vi 6],
   w "IntvlHVLTst" [vi 6, vi 3, vi 3, vi 6, vi 3, vi 6, vi 6],
   w "HVLtestErrProb" [vf (qi 0), vf (qi 0)],
   w "CD4testErrSDev" [vf q015],
   w "CD4testBiasMean" [vf (qi 0)],
   w "CD4testBiasSdev" [vf (qi 0)],
   w "ObsvARTFailTestOnRegClinicVst" [vi 1],
   w "ARTInitHVLTestsWOClinicVst" [vi 0],
   w "ARTInitCD4TestsWOClinicVst" [vi 0],
   w "OIVstAsNotSchedClinicVst" [vi 0],
   w "LagToCD4Test" [vi 0],
   w "LagToHVLTest" [vi 0],
   w "StopCD4MonitoringEnable" [vi 0],
   w "StopCD4MonitoringThreshold" [vf (qi 0)],
   w "StopCD4MonitoringMthsPostARTInit" [vi 0],
   w2 "ARTstart_CD4" "upp" (fL GC.ART_NUM_LINES (qi 2000)),
   w2 "ARTstart_CD4" "lwr" (fL GC.ART_NUM_LINES (qi 0)),
   w2 "ARTstart_HVL" "upp" (iL GC.ART_NUM_LINES 6),
   w2 "ARTstart_HVL" "lwr" (iL GC.ART_NUM_LINES 0),
   w2 "ARTstart_CD4HVL" "CD4upp" (fL GC.ART_NUM_LINES (qi (-1))),
   w2 "ARTstart_CD4HVL" "CD4lwr" (fL GC.ART_NUM_LINES (qi (-1))),
   w2 "ARTstart_CD4HVL" "HVLupp" (iL GC.ART_NUM_LINES (-1)),
   w2 "ARTstart_CD4HVL" "HVLlwr" (iL GC.ART_NUM_LINES (-1))] ++
  ((names1 "OI" GC.OI_NUM).map (fun oi =>
    w2 "ARTstart_OIs" oi (iL GC.ART_NUM_LINES 0))) ++
  [w2 "ARTstart_OIs" "numOIs" (iL GC.ART_NUM_LINES 0),
   w2 "ARTstart_CD4OI" "CD4upp" (fL GC.ART_NUM_LINES (qi (-1))),
   w2 "ARTstart_CD4OI" "CD4lwr" (fL GC.ART_NUM_LINES (qi (-1)))] ++
  ((names1 "OI" GC.OI_NUM).map (fun oi =>
    w2 "ARTstart_CD4OI" oi (iL GC.ART_NUM_LINES 0))) ++
  [w2 "ARTstart" "obsvFailFPSuppression" (iL GC.ART_NUM_LINES 0),
   w2 "ARTstart" "minMthNum" (iL GC.ART_NUM_LINES 0),
   w2 "ARTstart" "maxMthNum" (iL GC.ART_NUM_LINES 9999),
   w2 "ARTstart" "MthsSincePrevRegStop" (iL GC.ART_NUM_LINES 0)]

/-- The response-type labels of `_gen_arts`. -/
def artRespStrs : List String := ["Full", "Partial", "NonResp", "ARTEffect"]

/-- `InputGenerator._gen_arts`: one block per ART line `1..10`. -/
def genArts : List String :=
  (List.range' 1 GC.ART_NUM_LINES).flatMap (fun artNum =>
    let a := "ART" ++ Nat.repr artNum
    [w (a ++ "Id") [vi (-1)],
     w (a ++ "InitCost") [vf (qi 0)],
     w (a ++ "InitCostAdd") [vf (qi 0)],
     w (a ++ "MthCost") [vf (qi 0)],
     w (a ++ "MthCostAdd") [vf (qi 0)],
     w (a ++ "EffTimeHorizon") [vi 6],
     w (a ++ "ResuppEffTimeHorizon") [vi 6],
     w (a ++ "MthForceFail") [vi 9999],
     w (a ++ "MthStageCD4Eff_Succ") [vi 6, vi 12]] ++
    (artRespStrs.map (fun resp =>
      w2 (a ++ "CD4EffSlope_Succ") resp
        [vf (qi 0), vf (qi 0), vf (qi 0), vf (qi 0), vf (qi 0), vf (qi 0)])) ++
    [w (a ++ "MthStageCD4Eff_Fail") [vi 6]] ++
    (artRespStrs.map (fun resp =>
      w2 (a ++ "CD4EffMult_Fail") resp [vf (qi 1), vf (qi 1)])) ++
    [w (a ++ "MthCD4SecStdDev") [vf (qi 0)],
     w (a ++ "CD4EffOffART_Succ") [vf (qi 1), vf (qi 1)],
     w (a ++ "CD4EffOffART_Fail") [vf (qi 1), vf (qi 1)],
     w2 (a ++ "HVLChgProb") "Supp" [vf (qi 0), vi 0],
     w2 (a ++ "HVLChgProb") "Fail" [vf (qi 0), vi 0]] ++
    ((List.range GC.ART_NUM_SUBREGIMENS).flatMap (fun sub =>
      ((List.range GC.ART_NUM_TOX_SEVERITY).flatMap (fun sev =>
        (List.range GC.ART_NUM_TOX_PER_SEVERITY).map (fun tox =>
          w (a ++ "Toxicity1." ++ Nat.repr sub)
            [vs ("Tox" ++ Nat.repr sev ++ "_" ++ Nat.repr tox),
             vf (qi 0), vf (qi 0), vf (qi 0), vf (qi 0), vi 0, vf (qi 0),
             vi 0, vi 0]))) ++
      [w2 (a ++ "Toxicity1." ++ Nat.repr sub) "TimeToSwitch" [vi 9999]])) ++
    [w (a ++ "PropMthCostNonResponders") [vf (qi 1)],
     w (a ++ "ProbRestartRegimen") [vf (qi 0), vf (qi 0), vf (qi 0)],
     w (a ++ "MaxResuppAttempts") [vi 0],
     w (a ++ "HetPropRespRegCoeff") [vf (qi 0), vf (qi 0)],
     w (a ++ "HetPropRespRegCoeffDistribution") [vi 0],
     w (a ++ "HetPropRespRegCoeffUseDuration") [vi 0],
     w (a ++ "HetPropRespRegCoeffDuration") [vf (qi 0), vf (qi 0)],
     w2 (a ++ "HetOutcomes") "Supp"
       [vf (qi 0), vf (qi 1), vf (qi 0), vf (qi 1), vf (qi 1)],
     w2 (a ++ "HetOutcomes") "LateFail"
       [vf (qi 0), vf (qi 1), vf (qi 0), vf (qi 1), vf (qi 1)],
     w2 (a ++ "HetOutcomes") "ARTEffectOI" [vf (qi 0), vf (qi 1)],
     w2 (a ++ "HetOutcomes") "ARTEffectCHRMs" [vf (qi 0), vf (qi 1)],
     w2 (a ++ "HetOutcomes") "ARTEffectMort" [vf (qi 0), vf (qi 1)],
     w2 (a ++ "HetOutcomes") "Resist" [vf (qi 0), vf (qi 1)],
     w2 (a ++ "HetOutcomes") "Tox" [vf (qi 0), vf (qi 1)],
     w2 (a ++ "HetOutcomes") "Cost" [vf (qi 0), vf (qi 1)],
     w2 (a ++ "HetOutcomes") "RestartAfterFail" [vf (qi 0), vf (qi 1)],
     w2 (a ++ "HetOutcomes") "Resuppression"
       [vf (qi 0), vf (qi 1), vf (qi 0), vf (qi 1), vf (qi 1)],
     w (a ++ "ARTEffectOnFail") [vi 0]])

/-- `InputGenerator._gen_treatment_part2`. -/
def genTreatmentPart2 : List String :=
  [w "EnableSTIforART" (iL GC.ART_NUM_LINES 0),
   w "ARTfail_hvlNumIncr" (iL GC.ART_NUM_LINES 0),
   w2 "ARTfail_hvlAbsol" "uppBnd" (iL GC.ART_NUM_LINES (-1)),
   w2 "ARTfail_hvlAbsol" "lwrBnd" (iL GC.ART_NUM_LINES (-1)),
   w "ARTfail_hvlAtSetptAsFailDiag" (iL GC.ART_NUM_LINES 0),
   w "ARTfail_hvlMthsFromInit" (iL GC.ART_NUM_LINES 0),
   w "ARTfail_cd4PercDrop" (fL GC.ART_NUM_LINES (qi 0)),
   w "ARTfail_cd4BelowPreARTNadir" (iL GC.ART_NUM_LINES 0),
   w2 "ARTfail_cd4AbsolOR" "uppBnd" (fL GC.ART_NUM_LINES (qi (-1))),
   w2 "ARTfail_cd4AbsolOR" "lwrBnd" (fL GC.ART_NUM_LINES (qi (-1))),
   w2 "ARTfail_cd4AbsolAND" "uppBnd" (fL GC.ART_NUM_LINES (qi (-1))),
   w2 "ARTfail_cd4AbsolAND" "lwrBnd" (fL GC.ART_NUM_LINES (qi (-1))),
   w "ARTfail_cd4MthsFromInit" (iL GC.ART_NUM_LINES 0)] ++
  ((names1 "OI" GC.OI_NUM).map (fun oi =>
    w2 "ARTfail_OIs" oi (iL GC.ART_NUM_LINES 0))) ++
  [w "ARTfail_OIsMinNum" (iL GC.ART_NUM_LINES 0),
   w "ARTfail_OIsMthsFromInit" (iL GC.ART_NUM_LINES 0),
   w "ARTfail_diagNumTestsFail" (iL GC.ART_NUM_LINES 1),
   w "ARTfail_diagUseHVLTestsConfirm" (iL GC.ART_NUM_LINES 0),
   w "ARTfail_diagUseCD4TestsConfirm" (iL GC.ART_NUM_LINES 0),
   w "ARTfail_diagNumTestsConfirm" (iL GC.ART_NUM_LINES 0),
   w "ARTstop_MaxMthsOnART" (iL GC.ART_NUM_LINES 9999),
   w "ARTstop_MajorToxicity" (iL GC.ART_NUM_LINES 0),
   w "ARTstop_OnFailImmed" (iL GC.ART_NUM_LINES 0),
   w "ARTstop_OnFailBelowCD4" (fL GC.ART_NUM_LINES (qi (-1))),
   w "ARTstop_OnFailSevereOI" (iL GC.ART_NUM_LINES 0),
   w "ARTstop_OnFailMthsAfterObsv" (iL GC.ART_NUM_LINES 0),
   w "ARTstop_OnFailMinMthNum" (iL GC.ART_NUM_LINES 0),
   w "ARTstop_OnFailMthsFromInit" (iL GC.ART_NUM_LINES 0),
   w "ARTStopMajorToxNextLine" (iL GC.ART_NUM_LINES (-1))] ++
  ((List.range GC.ART_NUM_LINES).map (fun i =>
    w2 "ARTresistRed_initSucc" ("reg_" ++ Nat.repr (i + 1))
      (fL GC.ART_NUM_LINES (qi 0)))) ++
  [w "ARTresistRed_HVL" (fL 7 (qi 0)),
   w2 "PriProphStart" "boolFlag" (iL GC.OI_NUM 0),
   w2 "PriProphStart" "curCD4upp" (fL GC.OI_NUM (qi (-1))),
   w2 "PriProphStart" "curCD4lwr" (fL GC.OI_NUM (qi (-1))),
   w2 "PriProphStart" "minCD4upp" (fL GC.OI_NUM (qi (-1))),
   w2 "PriProphStart" "minCD4lwr" (fL GC.OI_NUM (qi (-1)))] ++
  ((names1 "OI" GC.OI_NUM).map (fun oi => w2 "PriProphStart" oi (iL GC.OI_NUM 0))) ++
  [w2 "PriProphStart" "minMthNum" (iL GC.OI_NUM 0),
   w2 "PriProphStop" "boolFlag" (iL GC.OI_NUM 0),
   w2 "PriProphStop" "curCD4upp" (fL GC.OI_NUM (qi (-1))),
   w2 "PriProphStop" "curCD4lwr" (fL GC.OI_NUM (qi (-1))),
   w2 "PriProphStop" "minCD4upp" (fL GC.OI_NUM (qi (-1))),
   w2 "PriProphStop" "minCD4lwr" (fL GC.OI_NUM (qi (-1)))] ++
  ((names1 "OI" GC.OI_NUM).map (fun oi => w2 "PriProphStop" oi (iL GC.OI_NUM 0))) ++
  [w2 "PriProphStop" "minMthNum" (iL GC.OI_NUM 0),
   w2 "PriProphStop" "mthsOnProph" (iL GC.OI_NUM 9999),
   w2 "SecProphStart" "boolFlag" (iL GC.OI_NUM 0),
   w2 "SecProphStart" "curCD4upp" (fL GC.OI_NUM (qi (-1))),
   w2 "SecProphStart" "curCD4lwr" (fL GC.OI_NUM (qi (-1))),
   w2 "SecProphStart" "minCD4upp" (fL GC.OI_NUM (qi (-1))),
   w2 "SecProphStart" "minCD4lwr" (fL GC.OI_NUM (qi (-1)))] ++
  ((names1 "OI" GC.OI_NUM).map (fun oi => w2 "SecProphStart" oi (iL GC.OI_NUM 0))) ++
  [w2 "SecProphStart" "minMthNum" (iL GC.OI_NUM 0),
   w2 "SecProphStop" "boolFlag" (iL GC.OI_NUM 0),
   w2 "SecProphStop" "curCD4upp" (fL GC.OI_NUM (qi (-1))),
   w2 "SecProphStop" "curCD4lwr" (fL GC.OI_NUM (qi (-1))),
   w2 "SecProphStop" "minCD4upp" (fL GC.OI_NUM (qi (-1))),
   w2 "SecProphStop" "minCD4lwr" (fL GC.OI_NUM (qi (-1)))] ++
  ((names1 "OI" GC.OI_NUM).map (fun oi => w2 "SecProphStop" oi (iL GC.OI_NUM 0))) ++
  [w2 "SecProphStop" "minMthNum" (iL GC.OI_NUM 0),
   w2 "SecProphStop" "mthsOnProph" (iL GC.OI_NUM 9999)]

/-- `InputGenerator._gen_ltfu`. -/
def genLtfu : List String :=
  [w "UseLTFU" [vi 0],
   w "PropRespLTFUPreART" [vf (qi 0), vf (qi 0)],
   w "UseInterventionHetOutcomes" [vi 0],
   w2 "HetOutcomes" "LTFU" [vf (qi 0), vf (qi 1), vf (qi 0), vf (qi 1)]] ++
  ((List.range GC.HET_INTV_NUM_PERIODS).map (fun i =>
    w2 ("HetOutcomesPeriod" ++ Nat.repr i) "LTFU"
      [vf (qi 0), vf (qi 1), vf (qi 0), vf (qi 1)])) ++
  [w2 "HetOutcomesOffIntervention" "LTFU"
     [vf (qi 0), vf (qi 1), vf (qi 0), vf (qi 1)],
   w "PropGenMedCostsByState" [vf (qi 1), vf (qi 1), vf (qi 1), vf (qi 1)],
   w "PropInterventionCostsByState" [vf (qi 1), vf (qi 1), vf (qi 1), vf (qi 1)],
   w "pLTFUOIProph" [vf (qi 1)],
   w "pLTFUOITreat" [vf (qi 1)],
   w "RTCMinMonthsLost" [vi 0],
   w "RTCBackground" [vf (qi 0)],
   w "RTCCD4" [vf (qi 0)],
   w "RTCAcuteSevereOI" [vf (qi 0)],
   w "RTCAcuteMildOI" [vf (qi 0)],
   w "RTCTBPosDiagnosis" [vf (qi 0)],
   w "RTCCD4Threshold" [vf (qi 0)],
   w "RTCSevereOIType" (iL GC.OI_NUM 0),
   w "RTCMaxTimePrevOnART" [vi 9999],
   w "RTCProbTakeSameART" [vf (qi 0)],
   w "RTCRecheckARTPolicies" [vi 0],
   w "RTCProbSuppByPrevOutcome" [vi 0],
   w "RTCProbSuppPrevFail" (fL GC.ART_NUM_LINES (qi 0)),
   w "RTCProbSuppPrevSupp" (fL GC.ART_NUM_LINES (qi 0)),
   w "RTCProbResumeIntervention" [vf (qi 0)],
   w "RTCResumeInterventionCost" [vf (qi 0)]]

/-- `InputGenerator._gen_heterogeneity`. -/
def genHeterogeneity : List String :=
  [w "PropRespBaseline" [vf (qi 0), vf (qi 0)],
   w "PropRespAge" (fL GC.RESP_AGE_CAT_NUM (qi 0)),
   w "PropRespPedsAge" [vf (qi 0), vf (qi 0)],
   w "PropRespCD4" (fL 6 (qi 0)),
   w "PropRespFemale" [vf (qi 0)],
   w "PropRespHistOIs" [vf (qi 0)],
   w "PropRespPriorARTTox" [vf (qi 0)],
   w "PropRespRiskFactors" (fL GC.RISK_FACT_NUM (qi 0)),
   w "UseIntervention" (iL GC.HET_INTV_NUM_PERIODS 0),
   w "InterventionDurationMean" (fL GC.HET_INTV_NUM_PERIODS (qi 0)),
   w "InterventionDurationSD" (fL GC.HET_INTV_NUM_PERIODS (qi 0)),
   w "InterventionPropAdjustmentMean" (fL GC.HET_INTV_NUM_PERIODS (qi 0)),
   w "InterventionPropAdjustmentSD" (fL GC.HET_INTV_NUM_PERIODS (qi 0)),
   w "InterventionPropAdjustmentDistribution" (iL GC.HET_INTV_NUM_PERIODS 0),
   w "InterventionCostStartup" (fL GC.HET_INTV_NUM_PERIODS (qi 0)),
   w "InterventionCostMonthly" (fL GC.HET_INTV_NUM_PERIODS (qi 0))]

/-- `InputGenerator._gen_sti`. -/
def genSti : List String :=
  [w2 "STIstart_CD4" "upp" (fL GC.ART_NUM_LINES (qi (-1))),
   w2 "STIstart_CD4" "lwr" (fL GC.ART_NUM_LINES (qi (-1))),
   w2 "STIstart_HVL" "upp" (iL GC.ART_NUM_LINES (-1)),
   w2 "STIstart_HVL" "lwr" (iL GC.ART_NUM_LINES (-1)),
   w2 "STIstart_CD4HVL" "CD4upp" (fL GC.ART_NUM_LINES (qi (-1))),
   w2 "STIstart_CD4HVL" "CD4lwr" (fL GC.ART_NUM_LINES (qi (-1))),
   w2 "STIstart_CD4HVL" "HVLupp" (iL GC.ART_NUM_LINES (-1)),
   w2 "STIstart_CD4HVL" "HVLlwr" (iL GC.ART_NUM_LINES (-1))] ++
  ((names1 "OI" GC.OI_NUM).map (fun oi =>
    w2 "STIstart_OIs" oi (iL GC.ART_NUM_LINES 0))) ++
  [w2 "STIstart_OIs" "numOIs" (iL GC.ART_NUM_LINES 0),
   w2 "STIstart_CD4OI" "CD4upp" (fL GC.ART_NUM_LINES (qi (-1))),
   w2 "STIstart_CD4OI" "CD4lwr" (fL GC.ART_NUM_LINES (qi (-1)))] ++
  ((names1 "OI" GC.OI_NUM).map (fun oi =>
    w2 "STIstart_CD4OI" oi (iL GC.ART_NUM_LINES 0))) ++
  [w2 "STIstart" "minMthNum" (iL GC.ART_NUM_LINES 0),
   w2 "STIstart" "minMthNum_ARTinit" (iL GC.ART_NUM_LINES 0),
   w2 "STI_restartART" "cd4upp" (fL GC.ART_NUM_LINES (qi (-1))),
   w2 "STI_restartART" "cd4lwr" (fL GC.ART_NUM_LINES (qi (-1))),
   w2 "STI_restartART" "hvlupp" (iL GC.ART_NUM_LINES (-1)),
   w2 "STI_restartART" "hvllwr" (iL GC.ART_NUM_LINES (-1)),
   w2 "STI_restopART" "cd4upp" (fL GC.ART_NUM_LINES (qi (-1))),
   w2 "STI_restopART" "cd4lwr" (fL GC.ART_NUM_LINES (qi (-1))),
   w2 "STI_restopART" "hvlupp" (iL GC.ART_NUM_LINES (-1)),
   w2 "STI_restopART" "hvllwr" (iL GC.ART_NUM_LINES (-1)),
   w2 "STIendpt_CD4" "upp" (fL GC.ART_NUM_LINES (qi (-1))),
   w2 "STIendpt_CD4" "lwr" (fL GC.ART_NUM_LINES (qi (-1))),
   w2 "STIendpt_HVL" "upp" (iL GC.ART_NUM_LINES (-1)),
   w2 "STIendpt_HVL" "lwr" (iL GC.ART_NUM_LINES (-1)),
   w2 "STIendpt_CD4HVL" "CD4upp" (fL GC.ART_NUM_LINES (qi (-1))),
   w2 "STIendpt_CD4HVL" "CD4lwr" (fL GC.ART_NUM_LINES (qi (-1))),
   w2 "STIendpt_CD4HVL" "HVLupp" (iL GC.ART_NUM_LINES (-1)),
   w2 "STIendpt_CD4HVL" "HVLlwr" (iL GC.ART_NUM_LINES (-1))] ++
  ((names1 "OI" GC.OI_NUM).map (fun oi =>
    w2 "STIendpt_OIs" oi (iL GC.ART_NUM_LINES 0))) ++
  [w2 "STIendpt_OIs" "numOIs" (iL GC.ART_NUM_LINES 0),
   w2 "STIendpt_CD4OI" "CD4upp" (fL GC.ART_NUM_LINES (qi (-1))),
   w2 "STIendpt_CD4OI" "CD4lwr" (fL GC.ART_NUM_LINES (qi (-1)))] ++
  ((names1 "OI" GC.OI_NUM).map (fun oi =>
    w2 "STIendpt_CD4OI" oi (iL GC.ART_NUM_LINES 0))) ++
  [w2 "STIendpt" "minMthNum" (iL GC.ART_NUM_LINES 9999)]

/-- `InputGenerator._gen_prophs`: note the `Resist` line's third value
is the int `0` for primary prophs but the float `0.0` for secondary
prophs, exactly as in the source. -/
def genProphs : List String :=
  ((List.range GC.OI_NUM).flatMap (fun oi =>
    (List.range GC.PROPH_NUM).flatMap (fun proph =>
      let base := "OI" ++ Nat.repr (oi + 1) ++ "_PriProph" ++ Nat.repr (proph + 1)
      [w2 base "Id" [vi (-1)],
       w2 base "EffPriOIs" (fL GC.OI_NUM (qi 0)),
       w2 base "EffSecOIs" (fL GC.OI_NUM (qi 0)),
       w2 base "Resist" [vf (qi 0), vf (qi 0), vi 0, vf (qi 0), vf (qi 1)],
       w2 base "Tox" [vf (qi 0), vf (qi 0), vi 0, vf (qi 1)],
       w2 base "CostQOL" (fL 5 (qi 0)),
       w2 base "Switch" [vi 9999, vi 0, vi 0]]))) ++
  ((List.range GC.OI_NUM).flatMap (fun oi =>
    (List.range GC.PROPH_NUM).flatMap (fun proph =>
      let base := "OI" ++ Nat.repr (oi + 1) ++ "_SecProph" ++ Nat.repr (proph + 1)
      [w2 base "Id" [vi (-1)],
       w2 base "EffPriOIs" (fL GC.OI_NUM (qi 0)),
       w2 base "EffSecOIs" (fL GC.OI_NUM (qi 0)),
       w2 base "Resist" [vf (qi 0), vf (qi 0), vf (qi 0), vf (qi 0), vf (qi 1)],
       w2 base "Tox" [vf (qi 0), vf (qi 0), vi 0, vf (qi 1)],
       w2 base "CostQOL" (fL 5 (qi 0)),
       w2 base "Switch" [vi 9999, vi 0, vi 0]])))

/-- `InputGenerator._gen_nathist`. -/
def genNathist : List String :=
  [w "HIVDthRateRatio" (fL 6 (qi 1)),
   w "ARTDthRateRatio" [vf (qi 1)]] ++
  (GC.CD4_STRATA_REV.map (fun cd4 =>
    w2 "OIProb_NoHist_noART" cd4 (fL GC.OI_NUM (qi 0)))) ++
  (GC.CD4_STRATA_REV.map (fun cd4 =>
    w2 "OIProb_Hist_noART" cd4 (fL GC.OI_NUM (qi 0)))) ++
  (GC.CD4_STRATA_REV.map (fun cd4 =>
    w2 "OIProb_onART_Mult" cd4 (fL GC.OI_NUM (qi 1)))) ++
  [w "AcuteOIDthRateRatio" (fL 6 (qi 1)),
   w "AcuteOIDthRateRatioTB" (fL 6 (qi 1)),
   w "SevrOI_HistDthRateRatio" [vf (qi 1)],
   w "SevrOI_HistEffectDuration" [vi 0],
   w "TB_OI_HistDthRateRatio" [vf (qi 1)],
   w "TB_OI_HistEffectDuration" [vi 0],
   w "GenRiskDthRateRatio" (fL GC.RISK_FACT_NUM (qi 1))] ++
  (GC.CD4_STRATA_REV.flatMap (fun cd4 =>
    [w2 "BslCD4Decl_Mean" cd4 (fL 7 (qi 0)),
     w2 "BslCD4Decl_SDev" cd4 (fL 7 (qi 0))])) ++
  [w "BslCD4Decl_BtwSbjct" [vf (qi 0)],
   w "BackgroundDthRate_Male" (fL GC.AGE_YRS (qi 0)),
   w "BackgroundDthRate_Female" (fL GC.AGE_YRS (qi 0)),
   w "BackgroundMortModifierType" [vi 0],
   w "BackgroundMortModifier" [vf (qi 1)]]

/-- `InputGenerator._gen_chrms` (`chrm_gender_age = 14`). -/
def genChrms : List String :=
  [w "CHRMstrs" ((names1 "CHRM" GC.CHRM_NUM).map vs),
   w "ShowCHRMOutput" [vi 0],
   w "EnableOrphans" [vi 0],
   w "ShowOrphansOutput" [vi 0]] ++
  ((List.range GC.CHRM_NUM).map (fun i =>
    w ("CHRMAgeCatCHRM" ++ Nat.repr (i + 1)) (iL (GC.CHRM_AGE_CAT_NUM - 1) 0))) ++
  ((List.range (GC.CHRM_TIME_PER_NUM - 1)).flatMap (fun stage =>
    (List.range GC.CHRM_NUM).map (fun chrm =>
      w ("Duration" ++ Nat.repr stage ++ "andSDCHRM" ++ Nat.repr (chrm + 1))
        [vf (qi 0), vf (qi 0)]))) ++
  [w "CHRMDurationUseSqrtTrans" [vi 0]] ++
  ((List.range GC.CHRM_NUM).flatMap (fun chrm =>
    w2 ("ProbPrevCHRM_CHRM" ++ Nat.repr (chrm + 1)) "HIVneg" (fL 14 (qi 0)) ::
      GC.CD4_STRATA_REV.map (fun cd4 =>
        w2 ("ProbPrevCHRM_CHRM" ++ Nat.repr (chrm + 1)) cd4 (fL 14 (qi 0))))) ++
  ((List.range GC.CHRM_NUM).map (fun chrm =>
    w2 "PrevCHRMRiskLogit" ("CHRM" ++ Nat.repr (chrm + 1))
      (fL GC.RISK_FACT_NUM (qi 0)))) ++
  ((List.range GC.CHRM_NUM).map (fun chrm =>
    w2 "PrevCHRMNumMonths" ("CHRM" ++ Nat.repr (chrm + 1)) [vf (qi 0), vf (qi 0)])) ++
  ((List.range GC.CHRM_NUM).map (fun chrm =>
    w2 "PrevCHRMNumMonthsOrphans" ("CHRM" ++ Nat.repr (chrm + 1))
      (iL GC.CHRM_ORPHANS_AGE_CAT_NUM 0))) ++
  [w "MinMthsSincePrevCHRMSOrphans" [vi 0]] ++
  ((List.range GC.CHRM_NUM).flatMap (fun chrm =>
    w2 ("ProbIncidCHRM_CHRM" ++ Nat.repr (chrm + 1)) "HIVneg" (fL 14 (qi 0)) ::
      GC.CD4_STRATA_REV.map (fun cd4 =>
        w2 ("ProbIncidCHRM_CHRM" ++ Nat.repr (chrm + 1)) cd4 (fL 14 (qi 0))))) ++
  ((List.range GC.CHRM_NUM).map (fun chrm =>
    w2 "IncidCHRMOnARTMult" ("CHRM" ++ Nat.repr (chrm + 1))
      (fL GC.CD4_NUM_STRATA (qi 1)))) ++
  ((List.range GC.CHRM_NUM).map (fun chrm =>
    w2 "IncidCHRMRiskLogit" ("CHRM" ++ Nat.repr (chrm + 1))
      (fL GC.RISK_FACT_NUM (qi 0)))) ++
  ((List.range GC.CHRM_NUM).map (fun chrm =>
    w2 "IncidCHRMHistoryLogit" ("CHRM" ++ Nat.repr (chrm + 1))
      (fL GC.CHRM_NUM (qi 0)))) ++
  ((List.range GC.CHRM_NUM).flatMap (fun chrm =>
    (List.range GC.CHRM_TIME_PER_NUM).map (fun t =>
      w ("DthRateRatioCHRM_CHRM" ++ Nat.repr (chrm + 1) ++ "_T" ++ Nat.repr (t + 1))
        (fL 14 (qi 1))))) ++
  ((List.range GC.CHRM_NUM).flatMap (fun chrm =>
    ((List.range GC.CHRM_TIME_PER_NUM).map (fun t =>
      w2 ("CostCHRM_CHRM" ++ Nat.repr (chrm + 1)) ("T" ++ Nat.repr (t + 1))
        (fL 14 (qi 0)))) ++
    [w ("CostDeathCHRM_CHRM" ++ Nat.repr (chrm + 1)) [vf (qi 0)]])) ++
  ((List.range GC.CHRM_NUM).flatMap (fun chrm =>
    ((List.range GC.CHRM_TIME_PER_NUM).map (fun t =>
      w2 ("QOLCHRM_CHRM" ++ Nat.repr (chrm + 1)) ("T" ++ Nat.repr (t + 1))
        (fL 14 (qi 0)))) ++
    [w ("QOLModDeathCHRM_CHRM" ++ Nat.repr (chrm + 1)) [vf (qi 0)]])) ++
  [w "QOLModMultipleCHRMs" (fL (GC.CHRM_NUM - 1) (qi 1))]

/-- `InputGenerator._gen_qol`. -/
def genQol : List String :=
  (["NoOIHist", "SevrOIHist"].map (fun hist =>
    w2 "QOLRoutine" hist (fL GC.CD4_NUM_STRATA (qi 1)))) ++
  [w "QOLRoutineOIHistEffectDuration" (iL GC.CD4_NUM_STRATA 0),
   w "QOLAcuteOI" (fL GC.OI_NUM (qi 0)),
   w "QOLDeath" [vf (qi 0), vf (qi 0), vf (qi 0)],
   w "QOLBackgroundMale" (fL GC.AGE_YRS (qi 1)),
   w "QOLBackgroundFemale" (fL GC.AGE_YRS (qi 1)),
   w "QOLCalculationType" [vi 0]]

/-- The death-cause labels of `_gen_costs` and `_gen_peds_costs`. -/
def dthCauses : List String := names1 "OI" GC.OI_NUM ++ ["HIV", "backgroundMort"]

/-- `InputGenerator._gen_costs`. -/
def genCosts : List String :=
  [w2 "CostAgeBounds" "EndYr" [vi 18, vi 25, vi 35, vi 45, vi 55, vi 65]] ++
  ((List.range' 1 GC.COST_AGE_CAT_NUM).flatMap (fun t =>
    let ac := "AgeCat" ++ Nat.repr t
    ((names1 "OI" GC.OI_NUM).map (fun oi =>
      w2 (ac ++ "CostAcuteOI_noART_treated") oi (fL 4 (qi 0)))) ++
    ((names1 "OI" GC.OI_NUM).map (fun oi =>
      w2 (ac ++ "CostAcuteOI_noART_untreated") oi (fL 4 (qi 0)))) ++
    ((names1 "OI" GC.OI_NUM).map (fun oi =>
      w2 (ac ++ "CostAcuteOI_onART_treated") oi (fL 4 (qi 0)))) ++
    ((names1 "OI" GC.OI_NUM).map (fun oi =>
      w2 (ac ++ "CostAcuteOI_onART_untreated") oi (fL 4 (qi 0)))) ++
    [w (ac ++ "CostCD4Test") (fL 4 (qi 0)),
     w (ac ++ "CostHVLTest") (fL 4 (qi 0))] ++
    (dthCauses.map (fun cause =>
      w2 (ac ++ "CostDth_noART_treated") cause (fL 4 (qi 0)))) ++
    (dthCauses.map (fun cause =>
      w2 (ac ++ "CostDth_noART_untreated") cause (fL 4 (qi 0)))) ++
    (dthCauses.map (fun cause =>
      w2 (ac ++ "CostDth_onART_treated") cause (fL 4 (qi 0)))) ++
    (dthCauses.map (fun cause =>
      w2 (ac ++ "CostDth_onART_untreated") cause (fL 4 (qi 0)))))) ++
  [w "CostGenMed_dmed" (fL 14 (qi 0)),
   w "CostGenMed_nmed" (fL 14 (qi 0)),
   w "CostGenMed_time" (fL 14 (qi 0)),
   w "CostGenMed_indr" (fL 14 (qi 0))] ++
  (GC.CD4_STRATA_REV.flatMap (fun cd4 =>
    [w2 "CostRoutine_HIVpos_noART_dmed" cd4 (fL 14 (qi 0)),
     w2 "CostRoutine_HIVpos_noART_nmed" cd4 (fL 14 (qi 0)),
     w2 "CostRoutine_HIVpos_noART_time" cd4 (fL 14 (qi 0)),
     w2 "CostRoutine_HIVpos_noART_indr" cd4 (fL 14 (qi 0))])) ++
  (GC.CD4_STRATA_REV.flatMap (fun cd4 =>
    [w2 "CostRoutine_HIVpos_onART_dmed" cd4 (fL 14 (qi 0)),
     w2 "CostRoutine_HIVpos_onART_nmed" cd4 (fL 14 (qi 0)),
     w2 "CostRoutine_HIVpos_onART_time" cd4 (fL 14 (qi 0)),
     w2 "CostRoutine_HIVpos_onART_indr" cd4 (fL 14 (qi 0))])) ++
  [w "CostNeg_dmed" (fL 14 (qi 0)),
   w "CostNeg_nmed" (fL 14 (qi 0)),
   w "CostNeg_time" (fL 14 (qi 0)),
   w "CostNeg_indr" (fL 14 (qi 0)),
   w "CostNegStopAge" [vi 999],
   w "CostUndet_dmed" (fL 14 (qi 0)),
   w "CostUndet_nmed" (fL 14 (qi 0)),
   w "CostUndet_time" (fL 14 (qi 0)),
   w "CostUndet_indr" (fL 14 (qi 0)),
   w "CostUndetStopAge" [vi 999]] ++
  ((List.range' 1 GC.COST_AGE_CAT_NUM).flatMap (fun t =>
    (["male", "female"].flatMap (fun gender =>
      GC.CD4_STRATA_REV.map (fun cd4 =>
        w2 ("AgeCat" ++ Nat.repr t ++ "CostVisit_" ++ gender ++ "_routine") cd4
          (fL 4 (qi 0)))))))

/-- The TB strain labels of `_gen_tb`. -/
def tbStrains : List String := ["DS", "MDR", "XDR"]

/-- The `TBDiagSeq` sub-keys of `_gen_tb`. -/
def tbDiagSeqStrs : List String :=
  ["2Tests", "3Tests1Pos", "3Tests1Neg", "4Tests2Pos1Pos", "4Tests2Pos1Neg",
   "4Tests2Neg1Pos", "4Tests2Neg1Neg"]

/-- The `TBDiagResultMatrix` sub-keys of `_gen_tb`. -/
def tbDiagResultStrs : List String :=
  ["1Test", "2Tests1Pos", "2Tests1Neg", "3Tests2Pos1Pos", "3Tests2Pos1Neg",
   "3Tests2Neg1Pos", "3Tests2Neg1Neg", "4Tests3Pos2Pos1Pos",
   "4Tests3Pos2Pos1Neg", "4Tests3Pos2Neg1Pos", "4Tests3Pos2Neg1Neg",
   "4Tests3Neg2Pos1Pos", "4Tests3Neg2Pos1Neg", "4Tests3Neg2Neg1Pos",
   "4Tests3Neg2Neg1Neg"]

/-- `InputGenerator._gen_tb` (local constants inlined as in the source:
6 TB states, 7 infection age categories, 3 strains, 5 prophs, 5 RTC
time categories, 4 cost types, 4 peds cost age categories). -/
def genTb : List String :=
  [w "EnableTB" [vi 0],
   w "TBClinicIntegrated" [vi 0],
   w2 "ProbTB_Entry" "HIV_Neg" (fL 6 (qi 0))] ++
  (GC.CD4_STRATA_REV.map (fun cd4 => w2 "ProbTB_Entry" cd4 (fL 6 (qi 0)))) ++
  [w "DistTB_Entry_Strain" (fL 3 (qi 0)),
   w "MthsSinceInitTBTreatStop_Entry" [vf (qi 0), vf (qi 0)],
   w2 "ProbSputum_Entry" "HIV_Neg" (fL 6 (qi 0))] ++
  (GC.CD4_STRATA_REV.map (fun cd4 => w2 "ProbSputum_Entry" cd4 (fL 6 (qi 0)))) ++
  [w2 "ProbImmune_Entry" "HIV_Neg" (fL 6 (qi 0))] ++
  (GC.CD4_STRATA_REV.map (fun cd4 => w2 "ProbImmune_Entry" cd4 (fL 6 (qi 0)))) ++
  [w2 "ProbSymptoms_Entry" "HIV_Neg" (fL 6 (qi 0))] ++
  (GC.CD4_STRATA_REV.map (fun cd4 => w2 "ProbSymptoms_Entry" cd4 (fL 6 (qi 0)))) ++
  [w2 "ProbMthTBIncid" "HIV_Neg" (fL 7 (qi 0))] ++
  (GC.CD4_STRATA_REV.map (fun cd4 => w2 "ProbMthTBIncid" cd4 (fL 7 (qi 0)))) ++
  [w "TBInfectionMultiplier" (fL 6 (qi 1)),
   w "ProbImmune_Infection" (vf (qi 0) :: fL GC.CD4_NUM_STRATA (qi 0)),
   w "TBActivationMthThreshold" [vi 12],
   w "TBActivationProbActivate1" (vf (qi 0) :: fL GC.CD4_NUM_STRATA (qi 0)),
   w "TBActivationProbActivate2" (vf (qi 0) :: fL GC.CD4_NUM_STRATA (qi 0)),
   w "TBActivationPropPulm" (vf (qi 0) :: fL GC.CD4_NUM_STRATA (qi 0)),
   w "ProbSputumHiOnActivation" (vf (qi 0) :: fL GC.CD4_NUM_STRATA (qi 0)),
   w "TBIncidenceRelapse" [vf (qi 1), vf (qi 1), vi 12, vi 60],
   w "TBRelapseFCD4" (fL GC.CD4_NUM_STRATA (qi 1)),
   w "TBTreatDefaultRelapseMult" [vf (qi 1)],
   w "TBRelapsePropPulm" (vf (qi 0) :: fL GC.CD4_NUM_STRATA (qi 0)),
   w "ProbSputumHiOnRelapse" (vf (qi 0) :: fL GC.CD4_NUM_STRATA (qi 0)),
   w "TBRelapseMthUnfavorableOutcome" [vi 6],
   w2 "TBSymptomsIncidence" "HIV_Neg" (fL 6 (qi 0))] ++
  (GC.CD4_STRATA_REV.map (fun cd4 => w2 "TBSymptomsIncidence" cd4 (fL 6 (qi 0)))) ++
  [w2 "TBDthRateRatio" "HIV_Neg" [vf (qi 0), vf (qi 0)]] ++
  (GC.CD4_STRATA_REV.map (fun cd4 => w2 "TBDthRateRatio" cd4 [vf (qi 0), vf (qi 0)])) ++
  [w "TBDthRateRatioTxSuccessBounds" [vi 6, vi 12]] ++
  ((List.range' 1 3).flatMap (fun t =>
    [w ("TBDthRateRatioTxSuccessHIVNeg_T" ++ Nat.repr t) [vf (qi 1)],
     w ("TBDthRateRatioTxSuccessHIVPos_T" ++ Nat.repr t)
       (fL GC.CD4_NUM_STRATA (qi 1))])) ++
  [w "TBDthRateRatioTxFailureBounds" [vi 6, vi 12]] ++
  ((List.range' 1 3).flatMap (fun t =>
    [w ("TBDthRateRatioTxFailureHIVNeg_T" ++ Nat.repr t) [vf (qi 1)],
     w ("TBDthRateRatioTxFailureHIVPos_T" ++ Nat.repr t)
       (fL GC.CD4_NUM_STRATA (qi 1))])) ++
  [w "NatHistMultType" [vi 0],
   w "NatHistInfectionMult" (fL 12 (qi 1)),
   w "NatHistActivationMult" (fL 12 (qi 1)),
   w "NatHistReactivationMult" (fL 12 (qi 1)),
   w "NatHistRelapseMult" (fL 12 (qi 1)),
   w "NatHistMortalityMult" (fL 12 (qi 1)),
   w "NatHistMultTimeBounds" [vi 0, vi 0],
   w "NatHistMultTime" [vf (qi 1), vf (qi 1), vf (qi 1)],
   w "TBSelfCureEnable" [vi 0],
   w "TBMonthOfSelfCure" [vi 12],
   w "TBProphOrder" (iL 5 0),
   w "TBProphDuration" (iL 5 0),
   w "TBProphMaxRestarts" (iL 5 0),
   w "TBProphStartKnownPos"
     [vi 0, vi 0, vf (qi 9999), vf (qi 0), vi 0, vi 0, vi 0, vi 0],
   w "TBProphStartNotKnownPos" [vi 0, vi 0, vi 0, vi 0, vi 0],
   w "TBProphStartPropToReceiveUponQual" [vf (qi 0), vf (qi 0), vf (qi 0)],
   w "TBProphStartLagToStart" [vf (qi 0), vf (qi 0)],
   w "TBProphStopMthDropoutProb" [vf (qi 0)],
   w "TBProphStopKnownPos" [vi 0, vf (qi 9999), vf (qi 0), vi 0, vi 0, vi 0],
   w "TBProphStopNotKnownPos" [vi 0, vi 0, vi 0, vi 0],
   w "TBProphMoveToNextAfterTox" [vi 0]] ++
  ((List.range 5).flatMap (fun n =>
    let pn := Nat.repr n
    [w ("OnTBProph" ++ pn ++ "EffInfect") (vf (qi 0) :: fL GC.CD4_NUM_STRATA (qi 0)),
     w ("PostTBProph" ++ pn ++ "EffInfect")
       (vf (qi 0) :: fL GC.CD4_NUM_STRATA (qi 0) ++ [vi 0, vi 0])] ++
    (tbStrains.map (fun strain =>
      w2 ("OnTBProph" ++ pn ++ "EffActivate") strain
        (vf (qi 0) :: fL GC.CD4_NUM_STRATA (qi 0)))) ++
    (tbStrains.map (fun strain =>
      w2 ("PostTBProph" ++ pn ++ "EffActivate") strain
        (vf (qi 0) :: fL GC.CD4_NUM_STRATA (qi 0) ++ [vi 0, vi 0]))) ++
    (tbStrains.map (fun strain =>
      w2 ("OnTBProph" ++ pn ++ "EffReinfect") strain
        (vf (qi 0) :: fL GC.CD4_NUM_STRATA (qi 0)))) ++
    (tbStrains.map (fun strain =>
      w2 ("PostTBProph" ++ pn ++ "EffReinfect") strain
        (vf (qi 0) :: fL GC.CD4_NUM_STRATA (qi 0) ++ [vi 0, vi 0]))) ++
    [w ("TBProph" ++ pn ++ "CostQOL") (fL 5 (qi 0)),
     w2 ("TBProph" ++ pn ++ "Toxicity") "Minor" [vf (qi 0), vf (qi 0), vf (qi 0)],
     w2 ("TBProph" ++ pn ++ "Toxicity") "Major"
       [vf (qi 0), vf (qi 0), vf (qi 0), vf (qi 1)],
     w ("TBProph" ++ pn ++ "ProbResist") [vf (qi 0)]])) ++
  [w "UseTBLTFU" [vi 0],
   w "MthsToLongTermEffects" [vi 0],
   w "TBMaxMthsLTFU" [vi 0],
   w "TBProbLTFU_Stage1" (fL 6 (qi 0)),
   w "TBProbLTFU_Stage2" (fL 6 (qi 0)),
   w "TBProbRTCHIVNeg" (fL 6 (qi 0)),
   w "TBProbRTCHIVPos" (fL 6 (qi 0)),
   w "TBProphStartWhileHIVLTFU" [vi 0],
   w "TBProphStopWhileHIVLTFUProb" [vf (qi 0)],
   w "TBRTCRestartReg" (fL 5 (qi 0)),
   w "TBRTCResumeReg" (fL 5 (qi 0)),
   w "TBRTCRetest" (fL 5 (qi 0)),
   w "TBRTCNextReg" (fL 5 (qi 0)),
   w "CostsTBUntreated" (fL 4 (qi 0)),
   w2 "CostsTBTreated" "Visit" (fL 4 (qi 0) ++ [vi 1]),
   w2 "CostsTBTreated" "Medication" (fL 4 (qi 0) ++ [vi 1]),
   w2 "CostsTBDeath" "Adult" (fL 4 (qi 0))] ++
  ((List.range' 1 4).map (fun c =>
    w ("Peds" ++ Nat.repr c ++ "CostsTBDeath") (fL 4 (qi 0)))) ++
  [w "QOLActiveTB" [vf (qi 0)],
   w "QOLDeathActiveTB" [vf (qi 0)],
   w "EnableTBDiagnostics" [vi 0],
   w "AllowMultipleTestsSameMonth" [vi 0],
   w "TBDiagInitPolicyAndOr" [vi 0],
   w "TBDiagInitPolicy" (iL 6 0),
   w "TBDiagInitPolicySymptomsProb" [vf (qi 0)],
   w "TBDiagInitPolicyCD4Bounds" [vf (qi 9999), vf (qi 0)],
   w "TBDiagInitPolicyCalendarMth" [vi 0],
   w "TBDiagInitPolicyMthIntvlProb" [vf (qi 0)],
   w "TBDiagInitPolicyMthIntvlBounds" (iL 3 0),
   w "TBDiagInitPolicyMthIntvl" (iL 4 0),
   w "TBDiagInitMinMthsPostTreatment" [vi 0],
   w "TBDiagTestOrderNeverTreat" (iL 4 0),
   w "TBDiagTestOrderNeverTreatDST" (iL 4 0),
   w "TBDiagTestOrderEverTreat" (iL 4 0),
   w "TBDiagTestOrderEverTreatDST" (iL 4 0),
   w2 "TBDiagStartInTreat" "HIVNeg" (fL 6 (qi 0)),
   w2 "TBDiagStartInTreat" "HIVPos" (fL 6 (qi 0))] ++
  (tbDiagSeqStrs.map (fun lbl => w2 "TBDiagSeq" lbl (iL 2 0))) ++
  [w "TBDiagAllowIncomplete" [vi 0],
   w "TBDiagAllowNoDiagnosis" [vi 0]] ++
  (tbDiagResultStrs.map (fun lbl => w2 "TBDiagResultMatrix" lbl (iL 2 0))) ++
  [w "TBDiagProbLinkTBTreatmentIntegrated" [vf (qi 1)],
   w "TBDiagProbLinkTBTreatmentUnintegrated" [vf (qi 1)],
   w "TBDiagRTCForHIVUponLinkageIntegrated" [vi 0],
   w "TBDiagProbHIVDetUponTBLinkageIntegrated" [vf (qi 0)],
   w "TBDiagProbHIVDetUponTBLinkageUnintegrated" [vf (qi 0)]] ++
  ((List.range GC.TB_NUM_TESTS).flatMap (fun n =>
    let tn := "TBTest" ++ Nat.repr n
    [w2 (tn ++ "PosProb") "HIV_Neg" (fL 6 (qi 0))] ++
    (GC.CD4_STRATA_REV.map (fun cd4 => w2 (tn ++ "PosProb") cd4 (fL 6 (qi 0)))) ++
    [w (tn ++ "ProbAccept") [vf (qi 1)],
     w (tn ++ "ProbPickup") [vf (qi 1)],
     w (tn ++ "LagToReset") [vi 0],
     w (tn ++ "MonthsToPickup") [vf (qi 0), vf (qi 0)]] ++
    (tbStrains.map (fun strain =>
      w2 (tn ++ "DSTPosProb") strain (fL 3 (qi 0) ++ [vi 0]))) ++
    [w (tn ++ "DSTLinked") [vi 0],
     w (tn ++ "DSTProbPickup") [vf (qi 1)],
     w (tn ++ "ProbEmpiricWaitingResultsHIVNegSymptomatic") [vf (qi 0)],
     w (tn ++ "ProbEmpiricWaitingResultsHIVPosSymptomatic")
       (fL GC.CD4_NUM_STRATA (qi 0)),
     w (tn ++ "ProbEmpiricWaitingResultsHIVNegAsymptomatic") [vf (qi 0)],
     w (tn ++ "ProbEmpiricWaitingResultsHIVPosAsymptomatic")
       (fL GC.CD4_NUM_STRATA (qi 0)),
     w (tn ++ "ProbEmpiricPositiveResultHIVNegSymptomatic") [vf (qi 0)],
     w (tn ++ "ProbEmpiricPositiveResultHIVPosSymptomatic")
       (fL GC.CD4_NUM_STRATA (qi 0)),
     w (tn ++ "ProbEmpiricPositiveResultHIVNegAsymptomatic") [vf (qi 0)],
     w (tn ++ "ProbEmpiricPositiveResultHIVPosAsymptomatic")
       (fL GC.CD4_NUM_STRATA (qi 0)),
     w (tn ++ "ProbEmpiricTestOfferHIVNegSymptomatic") [vf (qi 0)],
     w (tn ++ "ProbEmpiricTestOfferHIVPosSymptomatic")
       (fL GC.CD4_NUM_STRATA (qi 0)),
     w (tn ++ "ProbEmpiricTestOfferHIVNegAsymptomatic") [vf (qi 0)],
     w (tn ++ "ProbEmpiricTestOfferHIVPosAsymptomatic")
       (fL GC.CD4_NUM_STRATA (qi 0)),
     w (tn ++ "ProbStopEmpiric") [vf (qi 0), vf (qi 0)],
     w (tn ++ "InitialCost") [vf (qi 0)],
     w (tn ++ "QOLMod") [vf (qi 0)],
     w (tn ++ "CostDST") [vf (qi 0)]])) ++
  (tbStrains.map (fun strain =>
    w2 "TBTreatProbInitialNeverTreat" strain (fL GC.TB_NUM_TREATMENTS (qi 0)))) ++
  (tbStrains.map (fun strain =>
    w2 "TBTreatProbInitialEverTreat" strain (fL GC.TB_NUM_TREATMENTS (qi 0)))) ++
  [w "TBTreatProbRepeatLine" (fL GC.TB_NUM_TREATMENTS (qi 0)),
   w "TBTreatNumRepeats" (iL GC.TB_NUM_TREATMENTS 0),
   w "TBTreatProbResistAfterFail" (fL GC.TB_NUM_TREATMENTS (qi 0)),
   w "TBTreatProbResistAfterDefault" (fL GC.TB_NUM_TREATMENTS (qi 0)),
   w "TBTreatProbEmpiricMDR" [vf (qi 0)],
   w "TBTreatProbEmpiricXDR" [vf (qi 0)],
   w "TBTreatEmpiricNum" (iL 3 0)] ++
  ((List.range GC.TB_NUM_TREATMENTS).flatMap (fun n =>
    let tn := "TBTreat" ++ Nat.repr n
    [w (tn ++ "Stage1Duration") [vi 0],
     w (tn ++ "Stage2Duration") [vi 0],
     w (tn ++ "Cost") [vf (qi 0), vf (qi 0), vf (qi 0)],
     w2 (tn ++ "ProbSuccess") "HIV_Neg" (fL 3 (qi 0))] ++
    (GC.CD4_STRATA_REV.map (fun cd4 => w2 (tn ++ "ProbSuccess") cd4 (fL 3 (qi 0)))) ++
    [w (tn ++ "ToxProbHIVNeg") (fL 4 (qi 0)),
     w (tn ++ "ToxProbHIVPos_offART") (fL 4 (qi 0)),
     w (tn ++ "ToxProbHIVPos_onART") (fL 4 (qi 0)),
     w (tn ++ "DthRateRatioMajTox") [vf (qi 1)],
     w (tn ++ "ToxCostHIVNeg") (fL 4 (qi 0)),
     w (tn ++ "ToxCostHIVPos") (fL 4 (qi 0)),
     w (tn ++ "ProbObsvEarlyFail") [vf (qi 0)],
     w (tn ++ "ProbEarlyFailObsvWithTBTest") [vf (qi 0)],
     w (tn ++ "ObsvFailTBTestCost") [vf (qi 0)],
     w (tn ++ "ProbSwitchOnObsvEarlyFail") [vf (qi 0)],
     w (tn ++ "NextTreatNumOnObsvEarlyFail") [vi (-1)],
     w (tn ++ "NextTreatNumOnRegularFail") [vi (-1)],
     w (tn ++ "EffInfect") (vf (qi 0) :: fL GC.CD4_NUM_STRATA (qi 0) ++ [vi 0])] ++
    (tbStrains.map (fun strain =>
      w2 (tn ++ "EffActivate") strain
        (vf (qi 0) :: fL GC.CD4_NUM_STRATA (qi 0) ++ [vi 0]))) ++
    (tbStrains.map (fun strain =>
      w2 (tn ++ "EffReinfect") strain
        (vf (qi 0) :: fL GC.CD4_NUM_STRATA (qi 0) ++ [vi 0]))) ++
    [w (tn ++ "RelapseMult") [vf (qi 1)],
     w (tn ++ "RelapseMultDuration") [vi 0]]))

/-- `InputGenerator._gen_hivtest`. -/
def genHivtest : List String :=
  [w "EnableHIVtest" [vi 0],
   w "HIVtestAvail" [vi 0],
   w "PrEPEnable" [vi 0],
   w "CD4testAvail" [vi 0],
   w "AltStopRuleEnable" [vi 0],
   w "AltStopRuleTotHIV" [vi 0],
   w "AltStopRuleTotCohort" [vi 0],
   w2 "IncidenceAgeBins" "EndYr" (iL 10 0),
   w "HIVdistNeg" [vf (qi 1)],
   w "HIVdistPosAcute" [vf (qi 0)],
   w "HIVdistPosChr" [vf (qi 0)],
   w "HIVNegRiskDist" [vf q05, vf q05],
   w "HIVacuteCD4dist" [vf (qi 500), vf (qi 200)],
   w "HIVacuteHVLdist" (fL 7 (qi 0)),
   w2 "HIVmthIncidMale" "hiRisk" (fL 10 (qi 0)),
   w2 "HIVmthIncidMale" "loRisk" (fL 10 (qi 0)),
   w2 "HIVmthIncidFemale" "hiRisk" (fL 10 (qi 0)),
   w2 "HIVmthIncidFemale" "loRisk" (fL 10 (qi 0)),
   w "UseHIVIncidReductionMult" [vi 0],
   w "HIVIncidReductionMult" (fL 3 (qi 1)),
   w "HIVIncidReductionMultBounds" (iL 2 0),
   w "MthsAcuteToChrHIV" [vi 3],
   w "MeanCD4ChgAtChrHIVTrans" (fL 7 (qi 0)),
   w "SDevCD4ChgAtChrHIVTrans" (fL 7 (qi 0))] ++
  (GC.HVL_STRATA_REV.map (fun hvl =>
    w2 "HVLDistribAtChrHIVTrans" hvl (fL 7 (qi 0)))) ++
  [w "HIVdetectAcute" [vf (qi 0)],
   w "HIVdetectAsympChr" [vf (qi 0)],
   w "HIVdetectSympChr" [vf (qi 0)],
   w "HIVProbDetAtOI" (fL GC.OI_NUM (qi 0)),
   w "HIVProbLinkAtOIDet" (fL GC.OI_NUM (qi 1)),
   w "HIVundetCD4Cost" (fL 6 (qi 0)),
   w "HIVundetCD4QOL" (fL 6 (qi 1)),
   w "HIVnegDthCost" [vf (qi 0)],
   w "HIVundetHIVDthCost" [vf (qi 0)],
   w "HIVundetBgMortDthCost" [vf (qi 0)],
   w "HIVnegDthQOL" [vf (qi 0)],
   w "HIVundetHIVDthQOL" [vf (qi 0)],
   w "HIVundetBgMortDthQOL" [vf (qi 0)],
   w "HIVtestStartAge" [vi 0],
   w "HIVtestStopAge" [vi 999],
   w "HIVtestFreqInterval" (iL 6 0),
   w "HIVtestFreqProb" (fL 6 (qi 0))] ++
  ((List.range' 1 6).map (fun i =>
    w ("HIVtestAcceptDist" ++ Nat.repr i) (fL 5 (qi 0)))) ++
  ((List.range' 1 6).map (fun i =>
    w ("HIVtestAcceptProb" ++ Nat.repr i) (fL 5 (qi 1)))) ++
  [w "HIVtestRetProb" (fL 4 (qi 1)),
   w "HIVtestPosProb" [vf (qi 0), vf (qi 1), vf (qi 1), vf (qi 1)],
   w "HIVtestPosCost" (fL 4 (qi 0)),
   w "HIVtestNegCost" (fL 4 (qi 0)),
   w "HIVtestPosQOLMod" (fL 4 (qi 0)),
   w "HIVtestNegQOLMod" (fL 4 (qi 0)),
   w "HIVtestCost" (fL 4 (qi 0)),
   w "HIVtestStartupCost" (fL 5 (qi 0)),
   w "HIVtestNonRetCost" (fL 5 (qi 0)),
   w "HIVtestBgAcceptProb" (fL 5 (qi 0)),
   w "HIVtestBgReturnProb" (fL 5 (qi 1)),
   w "HIVtestBgPosProb" [vf (qi 0), vf (qi 0), vf (qi 1), vf (qi 1), vf (qi 1)],
   w "HIVtestBgTestCost" (fL 5 (qi 0)),
   w "HIVtestBgTestPosCost" (fL 5 (qi 0)),
   w "HIVtestBgTestNegCost" (fL 5 (qi 0)),
   w "HIVtestBgStartAge" [vi 0],
   w "HIVtestBgProbLink" [vf (qi 1)],
   w "HIVtestDetectCost" (fL 3 (qi 0)),
   w "PrEPDropoutThreshold" [vi 12],
   w "DropoutThresholdRefPrEPStart" [vi 0],
   w "PrEPHIVtestAcceptProb" (fL 2 (qi 1)),
   w "PrEPInitDist" (fL 2 (qi 0)),
   w "PrEPJoinAfterRollout" (iL 2 0),
   w "PrEPDropoutPreThreshold" (fL 2 (qi 0)),
   w "PrEPDropoutPostThreshold" (fL 2 (qi 0)),
   w "PrEPCoverage" (fL 2 (qi 0)),
   w "PrEPDuration" (iL 2 0),
   w "PrEPShape" (fL 2 (qi 1)),
   w "PrEPStartupCost" (fL 2 (qi 0)),
   w "PrEPMonthlyCost" (fL 2 (qi 0)),
   w "PrEPQoLMod" (fL 2 (qi 0)),
   w2 "PrepIncidMale" "hiRisk" (fL 10 (qi 0)),
   w2 "PrepIncidMale" "loRisk" (fL 10 (qi 0)),
   w2 "PrepIncidFemale" "hiRisk" (fL 10 (qi 0)),
   w2 "PrepIncidFemale" "loRisk" (fL 10 (qi 0)),
   w "CD4TestAcceptProb" (fL 3 (qi 1)),
   w "CD4TestRetProb" (fL 3 (qi 1)),
   w "CD4TestStartupCost" (fL 3 (qi 0)),
   w "CD4TestCost" (fL 3 (qi 0)),
   w "CD4TestNonRetCost" (fL 3 (qi 0)),
   w "CD4TestRetCost" (fL 3 (qi 0)),
   w "LabStageStdDev" [vf q015],
   w "LabStageBiasMean" [vf (qi 0)],
   w "LabStageBiasStdDevPerc" [vf (qi 0)],
   w "CD4TestLinkProb" (fL GC.CD4_NUM_STRATA (qi 1))]

/-- `PEDS_AGE_CAT_STRS` from `_gen_peds`. -/
def PEDS_AGE_CAT_STRS : List String :=
  ["0-2mth", "3-5mth", "6-8mth", "9-11mth", "12-14mth", "15-17mth",
   "18-23mth", "2yr", "3yr", "4yr", ">4yr"]

/-- `PEDS_CD4_PERC_STRS` from `_gen_peds`. -/
def PEDS_CD4_PERC_STRS : List String :=
  ["0-5perc", "5-10perc", "10-15perc", "15-20perc",
   "20-25perc", "25-30perc", "30-35perc", ">35perc"]

/-- `InputGenerator._gen_peds` (local constants inlined: 4 maternal
statuses, 7 infant age categories of which the loops use the first 6,
10 early age categories, 11 child age categories, 8 CD4-percent strata,
24 post-partum maternal ART statuses, 4 exposed conditions). -/
def genPeds : List String :=
  [w "EnablePeds" [vi 0],
   w "InitAgePeds" [vf (qi 0), vf (qi 0)],
   w "DistMatStat" (fL 4 (qi 0)),
   w "ProbInfectionMom" (fL 4 (qi 0)),
   w "ProbMatMort" (fL 4 (qi 0)),
   w "ProbMatStatKnown" (fL 4 (qi 0)),
   w "ProbMatStatKnownBF" (fL 4 (qi 0)),
   w "ProbMomOnARTPreg" (fL 4 (qi 0)),
   w "ProbMomSuppressed" (fL 4 (qi 0)),
   w "ProbMomKnownSuppressed" (fL 4 (qi 0)),
   w "ProbMomKnownNotSuppressed" (fL 4 (qi 0)),
   w "ProbMomLowHVL" (fL 4 (qi 0)),
   w "DistEarlyVTHIVIU" [vf (qi 0)],
   w2 "ProbEarlyVTHIVOnART" "Suppressed" (fL 4 (qi 0)),
   w2 "ProbEarlyVTHIVOnART" "NotSuppressedLowHVL" (fL 4 (qi 0)),
   w2 "ProbEarlyVTHIVOnART" "NotSuppressedHighHVL" (fL 4 (qi 0)),
   w "ProbEarlyVTHIVOffART" (fL 4 (qi 0)),
   w2 "ProbPPVTHIVOnART" "Suppressed" (fL 4 (qi 0)),
   w2 "ProbPPVTHIVOnART" "NotSuppressedLowHVL" (fL 4 (qi 0)),
   w2 "ProbPPVTHIVOnART" "NotSuppressedHighHVL" (fL 4 (qi 0)),
   w2 "ProbPPVTHIVOffART" "EBF" (fL 4 (qi 0)),
   w2 "ProbPPVTHIVOffART" "MBF" (fL 4 (qi 0)),
   w2 "ProbPPVTHIVOffART" "CBF" (fL 4 (qi 0)),
   w "BreastfedDist" [vf (qi 0), vf (qi 0)],
   w "BreastfedStopAge" [vf (qi 0), vf (qi 0), vf (qi 0)],
   w "ProbStopBFWhenVSKnownNotSuppressedLowHVL" [vf (qi 0)],
   w "ProbStopBFWhenVSKnownNotSuppressedHighHVL" [vf (qi 0)],
   w "InitCD4PercPrevIU" [vf (qi 0), vf (qi 0)],
   w "InitCD4PercPrevIP" [vf (qi 0), vf (qi 0)]] ++
  ((PEDS_AGE_CAT_STRS.take 6).map (fun a =>
    w2 "InitCD4PercIncidPP" a [vf (qi 0), vf (qi 0)])) ++
  [w2 "InitCD4PercIncidPP" "18+mth" [vf (qi 0), vf (qi 0)],
   w "InitHVLPrevIU" (fL GC.HVL_NUM_STRATA (qi 0)),
   w "InitHVLPrevIP" (fL GC.HVL_NUM_STRATA (qi 0))] ++
  ((PEDS_AGE_CAT_STRS.take 6).map (fun a =>
    w2 "InitHVLIncidPP" a (fL GC.HVL_NUM_STRATA (qi 0)))) ++
  [w2 "InitHVLIncidPP" "18+mth" (fL GC.HVL_NUM_STRATA (qi 0))] ++
  ((PEDS_AGE_CAT_STRS.take 10).map (fun a =>
    w2 "AdultCD4Strata" a (iL 8 0))) ++
  [w "UsePPMaternalARTStatus" [vi 0],
   w2 "PPMaternalARTStatusOnART" "Suppressed" (fL 24 (qi 0)),
   w2 "PPMaternalARTStatusOnART" "NotSuppressedLowHVL" (fL 24 (qi 0)),
   w2 "PPMaternalARTStatusOnART" "NotSuppressedHighHVL" (fL 24 (qi 0)),
   w "PPMaternalARTStatusOffART" (fL 24 (qi 0)),
   w "PPMaternalARTStatusVSKnown" (fL 24 (qi 0))] ++
  ((PEDS_AGE_CAT_STRS.take 10).map (fun a =>
    w2 "CD4PercDeclinePrevIU" a (fL 8 (qi 0)))) ++
  ((PEDS_AGE_CAT_STRS.take 10).map (fun a =>
    w2 "CD4PercDeclinePrevIP" a (fL 8 (qi 0)))) ++
  ((PEDS_AGE_CAT_STRS.take 10).map (fun a =>
    w2 "CD4PercDeclineIncidPP" a (fL 8 (qi 0)))) ++
  (PEDS_CD4_PERC_STRS.map (fun c =>
    w2 "CD4PercTransition" c [vf (qi 0), vf (qi 0)])) ++
  (GC.HVL_STRATA_REV.map (fun hvl =>
    w2 "HVLTransPeds" hvl (fL GC.HVL_NUM_STRATA (qi 0)))) ++
  ((PEDS_AGE_CAT_STRS.take 10).map (fun a =>
    w2 "HIVDthRateRatio_PedsEarly" a (fL 8 (qi 0)))) ++
  [w "HIVDthRateRatio_PedsLate" (fL GC.CD4_NUM_STRATA (qi 0)),
   w "MatMortDeathRateRatioEarly" [vf (qi 1), vf (qi 1)],
   w "MatMortDeathRateRatioDurationEarly" [vi 0],
   w "ReplFedDeathRateRatioEarly" [vf (qi 1), vf (qi 1)],
   w "ReplFedDeathRateRatioDurationEarly" [vi 0],
   w "MatMortDeathRateRatioLate" [vf (qi 1), vf (qi 1)],
   w "MatMortDeathRateRatioDurationLate" [vi 0]] ++
  ((names1 "Risk" GC.RISK_FACT_NUM).map (fun risk =>
    w2 "GenRiskDthRateRatio_Peds" risk (fL 11 (qi 1)))) ++
  [w "BackgroundDthRate_MalePedsEarly" (fL 10 (qi 0)),
   w "BackgroundDthRate_FemalePedsEarly" (fL 10 (qi 0)),
   w "BackgroundDthRateExposed_MalePedsEarly" (fL 10 (qi 0)),
   w "BackgroundDthRateExposed_FemalePedsEarly" (fL 10 (qi 0)),
   w "UseExposedDefPeds" [vi 0],
   w "ExposedDefEarly" (iL 4 0)] ++
  ((List.range GC.OI_NUM).flatMap (fun oi =>
    ((PEDS_AGE_CAT_STRS.take 10).map (fun a =>
      w2 ("Prob_OI" ++ Nat.repr (oi + 1) ++ "_NoHist") a (fL 8 (qi 0)))) ++
    ((PEDS_AGE_CAT_STRS.take 10).map (fun a =>
      w2 ("Prob_OI" ++ Nat.repr (oi + 1) ++ "_WithHist") a (fL 8 (qi 0)))))) ++
  (GC.CD4_STRATA_REV.map (fun cd4 =>
    w2 "ProbOIsNoHistLate" cd4 (fL GC.OI_NUM (qi 0)))) ++
  (GC.CD4_STRATA_REV.map (fun cd4 =>
    w2 "ProbOIsWithHistLate" cd4 (fL GC.OI_NUM (qi 0)))) ++
  (PEDS_CD4_PERC_STRS.map (fun c =>
    w2 "AcuteOIDthRateRatio_PedsEarly" c (fL 10 (qi 0)))) ++
  (PEDS_CD4_PERC_STRS.map (fun c =>
    w2 "AcuteOIDthRateRatioTB_PedsEarly" c (fL 10 (qi 0)))) ++
  [w "SevrOI_HistDthRateRatio_PedsEarly" (fL 10 (qi 1)),
   w "SevrOI_HistEffectDuration_PedsEarly" [vi 0],
   w "TB_OI_HistDthRateRatio_PedsEarly" (fL 10 (qi 1)),
   w "TB_OI_HistEffectDuration_PedsEarly" [vi 0],
   w "AcuteOIDthRateRatio_PedsLate" (fL GC.CD4_NUM_STRATA (qi 0)),
   w "AcuteOIDthRateRatioTB_PedsLate" (fL GC.CD4_NUM_STRATA (qi 0)),
   w "SevrOI_HistDthRateRatio_PedsLate" [vf (qi 1)],
   w "SevrOI_HistEffectDuration_PedsLate" [vi 0],
   w "TB_OI_HistDthRateRatio_PedsLate" [vf (qi 1)],
   w "TB_OI_HistEffectDuration_PedsLate" [vi 0],
   w "MaxPedsCD4Perc" (fL 10 (qi 100)),
   w "IntvlCD4TstPreARTPeds" [vi 3, vi 3],
   w "IntvlHVLTstPreARTPeds" [vi 3, vi 3],
   w "MthStageARTDthRateRatioPeds" [vi 6, vi 12]] ++
  ((List.range' 1 3).map (fun t =>
    w ("ARTDthRateRatio_Peds_T" ++ Nat.repr t) (fL 11 (qi 1)))) ++
  [w "MthStageRateMultOIsPedsEarly" [vi 6, vi 12]] ++
  (PEDS_CD4_PERC_STRS.map (fun c =>
    w2 "RateMultOIsPedsEarly" c [vf (qi 1), vf (qi 1), vf (qi 1)])) ++
  (GC.CD4_STRATA_REV.map (fun cd4 =>
    w2 "RateMultOIsPedsLate" cd4 (fL GC.OI_NUM (qi 1)))) ++
  [w2 "PriProphStartPeds" "agelwr" (fL GC.OI_NUM (qi 0)),
   w2 "PriProphStartPeds" "ageupp" (fL GC.OI_NUM (qi 999)),
   w2 "PriProphStartPeds" "cd4Percupp" (fL GC.OI_NUM (qi 100)),
   w2 "PriProphStartPeds" "cd4Perclwr" (fL GC.OI_NUM (qi 0))] ++
  ((names1 "OI" GC.OI_NUM).map (fun oi =>
    w2 "PriProphStartPeds" oi (iL GC.OI_NUM 0))) ++
  [w "PriProphStartPeds_CondFirst" [vi 0],
   w "PriProphStartPeds_CondSecond" [vi 0],
   w "PriProphStartPeds_CondPar" [vi 0],
   w2 "PriProphStopPeds" "agelwr" (fL GC.OI_NUM (qi 0)),
   w2 "PriProphStopPeds" "CD4Perclwr" (fL GC.OI_NUM (qi 0))] ++
  ((names1 "OI" GC.OI_NUM).map (fun oi =>
    w2 "PriProphStopPeds" oi (iL GC.OI_NUM 0))) ++
  [w2 "PriProphStopPeds" "mthsOnProph" (iL GC.OI_NUM 0),
   w "PriProphStopPeds_CondFirst" [vi 0],
   w "PriProphStopPeds_CondSecond" [vi 0],
   w "PriProphStopPeds_CondPar" [vi 0],
   w2 "SecProphStartPeds" "agelwr" (fL GC.OI_NUM (qi 0)),
   w2 "SecProphStartPeds" "ageupp" (fL GC.OI_NUM (qi 999)),
   w2 "SecProphStartPeds" "cd4Percupp" (fL GC.OI_NUM (qi 100)),
   w2 "SecProphStartPeds" "cd4Perclwr" (fL GC.OI_NUM (qi 0))] ++
  ((names1 "OI" GC.OI_NUM).map (fun oi =>
    w2 "SecProphStartPeds" oi (iL GC.OI_NUM 0))) ++
  [w "SecProphStartPeds_CondFirst" [vi 0],
   w "SecProphStartPeds_CondSecond" [vi 0],
   w "SecProphStartPeds_CondPar" [vi 0],
   w2 "SecProphStopPeds" "agelwr" (fL GC.OI_NUM (qi 0)),
   w2 "SecProphStopPeds" "CD4Perclwr" (fL GC.OI_NUM (qi 0))] ++
  ((names1 "OI" GC.OI_NUM).map (fun oi =>
    w2 "SecProphStopPeds" oi (iL GC.OI_NUM 0))) ++
  [w2 "SecProphStopPeds" "mthsOnProph" (iL GC.OI_NUM 0),
   w "SecProphStopPeds_CondFirst" [vi 0],
   w "SecProphStopPeds_CondSecond" [vi 0],
   w "SecProphStopPeds_CondPar" [vi 0],
   w "PedsARTstartMthStage" (iL 3 0)] ++
  ((List.range 4).flatMap (fun i =>
    [w2 ("PedsARTstart_CD4Perc" ++ Nat.repr i) "upp" (fL GC.ART_NUM_LINES (qi 100)),
     w2 ("PedsARTstart_CD4Perc" ++ Nat.repr i) "lwr" (fL GC.ART_NUM_LINES (qi 0))])) ++
  [w2 "PedsARTstart_HVL" "upp" (iL GC.ART_NUM_LINES 7),
   w2 "PedsARTstart_HVL" "lwr" (iL GC.ART_NUM_LINES 0)] ++
  ((names1 "OI" GC.OI_NUM).map (fun oi =>
    w2 "PedsARTstart_OIs" oi (iL GC.ART_NUM_LINES 0))) ++
  [w2 "PedsARTstart_OIs" "numOIs" (iL GC.ART_NUM_LINES 0),
   w2 "PedsARTstart" "minMthNum" (iL GC.ART_NUM_LINES 0),
   w2 "PedsARTstart" "MthsSincePrevRegStop" (iL GC.ART_NUM_LINES 0),
   w "PedsARTfail_hvlNumIncr" (iL GC.ART_NUM_LINES 0),
   w2 "PedsARTfail_hvlAbsol" "uppBnd" (iL GC.ART_NUM_LINES 7),
   w2 "PedsARTfail_hvlAbsol" "lwrBnd" (iL GC.ART_NUM_LINES 0),
   w "PedsARTfail_hvlAtSetptAsFailDiag" (iL GC.ART_NUM_LINES 0),
   w "PedsARTfail_hvlMthsFromInit" (iL GC.ART_NUM_LINES 0),
   w "PedsARTfail_cd4PercDrop" (fL GC.ART_NUM_LINES (qi 0)),
   w "PedsARTfail_cd4BelowPreARTNadir" (iL GC.ART_NUM_LINES 0),
   w2 "PedsARTfail_cd4AbsolOR" "uppBnd" (fL GC.ART_NUM_LINES (qi 100)),
   w2 "PedsARTfail_cd4AbsolOR" "lwrBnd" (fL GC.ART_NUM_LINES (qi 0)),
   w2 "PedsARTfail_cd4AbsolAND" "uppBnd" (fL GC.ART_NUM_LINES (qi 100)),
   w2 "PedsARTfail_cd4AbsolAND" "lwrBnd" (fL GC.ART_NUM_LINES (qi 0)),
   w "PedsARTfail_cd4MthsFromInit" (iL GC.ART_NUM_LINES 0)] ++
  ((names1 "OI" GC.OI_NUM).map (fun oi =>
    w2 "PedsARTfail_OIs" oi (iL GC.ART_NUM_LINES 0))) ++
  [w "PedsARTfail_OIsMinNum" (iL GC.ART_NUM_LINES 0),
   w "PedsARTfail_OIsMthsFromInit" (iL GC.ART_NUM_LINES 0),
   w "PedsARTfail_diagNumTestsFail" (iL GC.ART_NUM_LINES 1),
   w "PedsARTfail_diagUseHVLTestsConfirm" (iL GC.ART_NUM_LINES 0),
   w "PedsARTfail_diagUseCD4TestsConfirm" (iL GC.ART_NUM_LINES 0),
   w "PedsARTfail_diagNumTestsConfirm" (iL GC.ART_NUM_LINES 1),
   w "PedsARTstop_MaxMthsOnART" (iL GC.ART_NUM_LINES 9999),
   w "PedsARTstop_MajorToxicity" (iL GC.ART_NUM_LINES 0),
   w "PedsARTstop_OnFailImmed" (iL GC.ART_NUM_LINES 0),
   w "PedsARTstop_OnFailBelowCD4" (fL GC.ART_NUM_LINES (qi 0)),
   w "PedsARTstop_OnFailSevereOI" (iL GC.ART_NUM_LINES 0),
   w "PedsARTstop_OnFailMthsAfterObsv" (iL GC.ART_NUM_LINES 0),
   w "PedsARTstop_OnFailMinMthNum" (iL GC.ART_NUM_LINES 0),
   w "PedsARTstop_OnFailMthsFromInit" (iL GC.ART_NUM_LINES 0)]

/-- `InputGenerator._gen_peds_prophs`. -/
def genPedsProphs : List String :=
  ((List.range GC.OI_NUM).flatMap (fun k =>
    (List.range GC.PROPH_NUM).map (fun i =>
      w2 ("OI" ++ Nat.repr (k + 1) ++ "_PriProph" ++ Nat.repr (i + 1) ++ "Peds")
        "Id" [vi (-1)]))) ++
  ((List.range GC.OI_NUM).flatMap (fun k =>
    (List.range GC.PROPH_NUM).map (fun i =>
      w2 ("OI" ++ Nat.repr (k + 1) ++ "_SecProph" ++ Nat.repr (i + 1) ++ "Peds")
        "Id" [vi (-1)])))

/-- `InputGenerator._gen_peds_arts`. -/
def genPedsArts : List String :=
  (List.range' 1 GC.ART_NUM_LINES).map (fun n =>
    w ("ART" ++ Nat.repr n ++ "IdPeds") [vi (-1)])

/-- `InputGenerator._gen_peds_costs` (local constants inlined: 4 peds
cost age categories, 4 cost types, 17 basic death causes). -/
def genPedsCosts : List String :=
  ((List.range' 1 4).flatMap (fun t =>
    let p := "Peds" ++ Nat.repr t
    ((names1 "OI" GC.OI_NUM).map (fun oi =>
      w2 (p ++ "CostAcuteOI_noART_treated") oi (fL 4 (qi 0)))) ++
    ((names1 "OI" GC.OI_NUM).map (fun oi =>
      w2 (p ++ "CostAcuteOI_noART_untreated") oi (fL 4 (qi 0)))) ++
    ((names1 "OI" GC.OI_NUM).map (fun oi =>
      w2 (p ++ "CostAcuteOI_onART_treated") oi (fL 4 (qi 0)))) ++
    ((names1 "OI" GC.OI_NUM).map (fun oi =>
      w2 (p ++ "CostAcuteOI_onART_untreated") oi (fL 4 (qi 0)))) ++
    [w (p ++ "CostCD4Test") (fL 4 (qi 0)),
     w (p ++ "CostHVLTest") (fL 4 (qi 0))] ++
    (dthCauses.map (fun c => w2 (p ++ "CostDth_noART_treated") c (fL 4 (qi 0)))) ++
    (dthCauses.map (fun c => w2 (p ++ "CostDth_noART_untreated") c (fL 4 (qi 0)))) ++
    (dthCauses.map (fun c => w2 (p ++ "CostDth_onART_treated") c (fL 4 (qi 0)))) ++
    (dthCauses.map (fun c => w2 (p ++ "CostDth_onART_untreated") c (fL 4 (qi 0)))))) ++
  [w "PedsCostRoutine_HIVneg_dmed" (fL 8 (qi 0)),
   w "PedsCostRoutine_HIVneg_nmed" (fL 8 (qi 0)),
   w "PedsCostRoutine_HIVneg_time" (fL 8 (qi 0)),
   w "PedsCostRoutine_HIVneg_indr" (fL 8 (qi 0))] ++
  (GC.CD4_STRATA_REV.flatMap (fun cd4 =>
    [w2 "PedsCostRoutine_HIVpos_noART_dmed" cd4 (fL 8 (qi 0)),
     w2 "PedsCostRoutine_HIVpos_noART_nmed" cd4 (fL 8 (qi 0)),
     w2 "PedsCostRoutine_HIVpos_noART_time" cd4 (fL 8 (qi 0)),
     w2 "PedsCostRoutine_HIVpos_noART_indr" cd4 (fL 8 (qi 0))])) ++
  (GC.CD4_STRATA_REV.flatMap (fun cd4 =>
    [w2 "PedsCostRoutine_HIVpos_onART_dmed" cd4 (fL 8 (qi 0)),
     w2 "PedsCostRoutine_HIVpos_onART_nmed" cd4 (fL 8 (qi 0)),
     w2 "PedsCostRoutine_HIVpos_onART_time" cd4 (fL 8 (qi 0)),
     w2 "PedsCostRoutine_HIVpos_onART_indr" cd4 (fL 8 (qi 0))]))

/-- `InputGenerator._gen_eid` (local constants inlined: 24 assays,
4 infant HIV prophs, 36 proph ages, 8 proph cost ages, 24 EID visit
costs, 10 EID tests, 18 test age categories, 4 maternal statuses). -/
def genEid : List String :=
  [w "EnableHIVtestEID" [vi 0],
   w "AltStopRuleEnableEID" [vi 0],
   w "AltStopRuleTotHIVEID" [vi 0],
   w "AltStopRuleTotCohortEID" [vi 0],
   w "EIDTestingAdminAssayUnknownPos" (iL 24 0),
   w "EIDTestingAdminAgeUnknownPos" (iL 24 0),
   w "EIDTestingAdminProbPresentUnknownPos" (fL 24 (qi 0)),
   w "EIDTestingAdminProbNonMaternalUnknownPos" (fL 24 (qi 0)),
   w "EIDTestingAdminEIDVisitUnknownPos" (iL 24 0),
   w "EIDTestingAdminReofferUnknownPos" (iL 24 0),
   w "EIDTestingAdminAssayKnownPos" (iL 24 0),
   w "EIDTestingAdminAgeKnownPos" (iL 24 0),
   w "EIDTestingAdminProbPresentKnownPos" (fL 24 (qi 0)),
   w "EIDTestingAdminProbNonMaternalKnownPos" (fL 24 (qi 0)),
   w "EIDTestingAdminEIDVisitKnownPos" (iL 24 0),
   w "EIDTestingAdminReofferKnownPos" (iL 24 0),
   w "EIDAgeSeroreversion" [vi 18, vi 3],
   w "EIDMultProbPresentIfMissedVisit" [vf (qi 1)],
   w "EIDMultProbOfferIfNonMaternal" [vf (qi 1)],
   w "EIDProbKnowledgePriorResult" [vf (qi 1)],
   w "EIDCostVisit" (fL 24 (qi 0)),
   w "EIDProbDetectionOnOI" (fL GC.OI_NUM (qi 0)),
   w "EIDProbOIDetectionConfirmedLabTest" [vf (qi 0)],
   w "EIDOILabTestMonthsThreshold" [vi 0],
   w "EIDOIAssayUnknownPos" [vi 0, vi 0],
   w "EIDOIAssayKnownPos" [vi 0, vi 0]] ++
  ((List.range 4).flatMap (fun n =>
    let pn := "InfantHIVProph" ++ Nat.repr n
    [w (pn ++ "Enable") [vi 0],
     w (pn ++ "MaxAge") [vi 0],
     w (pn ++ "MaternalHIVStatusKnown") [vi 0],
     w (pn ++ "MaternalHIVStatusPositive") [vi 0],
     w (pn ++ "MotherOnART") [vi 0],
     w (pn ++ "MaternalVSKnownDelivery") [vi 0],
     w (pn ++ "MotherSuppressedDelivery") [vi 0],
     w (pn ++ "MotherHVLHighDelivery") [vi 0],
     w (pn ++ "MaternalVSKnown") [vi 0],
     w (pn ++ "MotherSuppressed") [vi 0],
     w (pn ++ "MotherHVLHigh") [vi 0],
     w (pn ++ "StopOnPosEID") [vi 0],
     w (pn ++ "AdminProb") (fL 36 (qi 0)),
     w (pn ++ "AdminEIDNegMonths") (iL 36 0),
     w (pn ++ "StartupCost") (fL 8 (qi 0)),
     w (pn ++ "DoseCost") (fL 8 (qi 0)),
     w (pn ++ "EffHorizon") [vi 0],
     w (pn ++ "DecayTime") [vi 0],
     w (pn ++ "ProbSubsequentEff") [vf (qi 0)],
     w (pn ++ "MajorTox")
       [vf (qi 0), vf (qi 1), vf (qi 0), vf (qi 1), vi 0, vf (qi 0), vi 0],
     w (pn ++ "MinorTox") [vf (qi 0), vf (qi 1), vf (qi 0)],
     w (pn ++ "PPVTHIVThreshold") [vi 0],
     w2 (pn ++ "PPVTHIVMultOnARTPre") "Suppressed" (fL 4 (qi 1)),
     w2 (pn ++ "PPVTHIVMultOnARTPre") "NotSuppressedLowHVL" (fL 4 (qi 1)),
     w2 (pn ++ "PPVTHIVMultOnARTPre") "NotSuppressedHighHVL" (fL 4 (qi 1)),
     w2 (pn ++ "PPVTHIVMultOffARTPre") "EBF" (fL 4 (qi 1)),
     w2 (pn ++ "PPVTHIVMultOffARTPre") "MBF" (fL 4 (qi 1)),
     w2 (pn ++ "PPVTHIVMultOffARTPre") "CBF" (fL 4 (qi 1)),
     w2 (pn ++ "PPVTHIVMultOnARTPost") "Suppressed" (fL 4 (qi 1)),
     w2 (pn ++ "PPVTHIVMultOnARTPost") "NotSuppressedLowHVL" (fL 4 (qi 1)),
     w2 (pn ++ "PPVTHIVMultOnARTPost") "NotSuppressedHighHVL" (fL 4 (qi 1)),
     w2 (pn ++ "PPVTHIVMultOffARTPost") "EBF" (fL 4 (qi 1)),
     w2 (pn ++ "PPVTHIVMultOffARTPost") "MBF" (fL 4 (qi 1)),
     w2 (pn ++ "PPVTHIVMultOffARTPost") "CBF" (fL 4 (qi 1))])) ++
  ((List.range 10).flatMap (fun n =>
    let tn := "EIDHIVTest" ++ Nat.repr n
    [w (tn ++ "CountTowardEIDCosts") [vi 0],
     w (tn ++ "ProbOfferedTest") [vf (qi 0)],
     w (tn ++ "ProbAcceptTest") [vf (qi 0)],
     w (tn ++ "TestCost") [vf (qi 0)],
     w (tn ++ "CostResult") [vf (qi 0)],
     w (tn ++ "CostNegResult") [vf (qi 0)],
     w (tn ++ "CostPosResult") [vf (qi 0)],
     w (tn ++ "ResultReturnProbLab") [vf (qi 1)],
     w (tn ++ "ResultReturnProbPatient") [vf (qi 1)],
     w (tn ++ "ResultReturnTime") [vi 0, vi 0],
     w (tn ++ "SensitivityIU") (fL 18 (qi 1)),
     w (tn ++ "SensitivityIP") (fL 18 (qi 1)),
     w (tn ++ "SensitivityPPBeforeSR") (fL 18 (qi 1)),
     w (tn ++ "SensitivityPPAfterSR") (fL 18 (qi 1)),
     w (tn ++ "SensitivityPPDuringBF") (fL 18 (qi 1)),
     w (tn ++ "SensitivityMultiplierIfMaternalARTPregnancy") (fL 18 (qi 1))] ++
    ((List.range 4).map (fun p =>
      w (tn ++ "SensitivityMultiplierInfantHIVProph" ++ Nat.repr p)
        (fL 18 (qi 1)))) ++
    [w (tn ++ "SpecificityHEUBeforeSR") (fL 18 (qi 1)),
     w (tn ++ "SpecificityHEUAfterSR") (fL 18 (qi 1)),
     w (tn ++ "SpecificityUninfectedMother") (fL 18 (qi 1)),
     w (tn ++ "SpecificityMotherInfectedBF") (fL 18 (qi 1))] ++
    ((List.range 4).map (fun p =>
      w (tn ++ "SpecificityMultiplierInfantHIVProph" ++ Nat.repr p)
        (fL 18 (qi 1)))) ++
    [w (tn ++ "ConfAssay") [vi (-1), vi (-1)],
     w (tn ++ "ConfDelay") [vi 0, vi 0],
     w (tn ++ "ProbLink") [vf (qi 1)],
     w (tn ++ "ProbMaternalStatusBecomeKnownUponResult") [vf (qi 0)]]))

/-- `InputGenerator._gen_adolescent` (18 adolescent age categories). -/
def genAdolescent : List String :=
  [w "EnableAdolescent" [vi 0],
   w "TransitionToAdult" [vi 0],
   w "AgeTransitionToAdult" [vi 18],
   w "AgeTransitionFromPeds" [vi 10],
   w "AdolescentAgeBounds" (iL 17 0)] ++
  (GC.CD4_STRATA_REV.flatMap (fun cd4 =>
    (GC.HVL_STRATA_REV.map (fun hvl =>
      w2 ("BslCD4Decl_Mean_Adolescent_" ++ cd4) hvl (fL 18 (qi 0)))) ++
    (GC.HVL_STRATA_REV.map (fun hvl =>
      w2 ("BslCD4Decl_StdDev_Adolescent_" ++ cd4) hvl (fL 18 (qi 0)))))) ++
  ((names1 "OI" GC.OI_NUM).flatMap (fun oi =>
    (GC.CD4_STRATA_REV.map (fun cd4 =>
      w2 ("Prob_" ++ oi ++ "_NoHist_OffART_Adolescent") cd4 (fL 18 (qi 0)))) ++
    (GC.CD4_STRATA_REV.map (fun cd4 =>
      w2 ("Prob_" ++ oi ++ "_WithHist_OffART_Adolescent") cd4 (fL 18 (qi 0)))))) ++
  ((names1 "OI" GC.OI_NUM).flatMap (fun oi =>
    (GC.CD4_STRATA_REV.map (fun cd4 =>
      w2 ("Prob_" ++ oi ++ "_NoHist_OnART_Adolescent") cd4 (fL 18 (qi 0)))) ++
    (GC.CD4_STRATA_REV.map (fun cd4 =>
      w2 ("Prob_" ++ oi ++ "_WithHist_OnART_Adolescent") cd4 (fL 18 (qi 0)))))) ++
  (GC.CD4_STRATA_REV.map (fun cd4 =>
    w2 "HIVDthRateRatio_Adolescent" cd4 (fL 18 (qi 1)))) ++
  [w "ARTDthRateRatio_Adolescent" (fL 18 (qi 1))] ++
  ((List.range GC.RISK_FACT_NUM).map (fun i =>
    w2 "GenRiskDthRateRatio_Adolescent" ("Risk" ++ Nat.repr (i + 1))
      (fL 18 (qi 1)))) ++
  (GC.CD4_STRATA_REV.map (fun cd4 =>
    w2 "AcuteOIDthRateRatio_Adolescent" cd4 (fL 18 (qi 1)))) ++
  (GC.CD4_STRATA_REV.map (fun cd4 =>
    w2 "AcuteOIDthRateRatioTB_Adolescent" cd4 (fL 18 (qi 1)))) ++
  [w "SevrOI_HistDthRateRatio_Adolescent" (fL 18 (qi 1)),
   w "SevrOI_HistEffectDuration_Adolescent" [vi 0],
   w "TB_OI_HistDthRateRatio_Adolescent" (fL 18 (qi 1)),
   w "TB_OI_HistEffectDuration_Adolescent" [vi 0]]

/-- `InputGenerator._gen_adolescent_arts`. -/
def genAdolescentArts : List String :=
  (List.range' 1 GC.ART_NUM_LINES).map (fun n =>
    w ("ART" ++ Nat.repr n ++ "IdAYA") [vi (-1)])

/-- The line list accumulated by `InputGenerator.generate(params)`: the
23 section generators in the exact order of the source (which mirrors
`SimContext::readInputs`). -/
def generateLines (p : Params) : List String :=
  genRunspecs p ++ genOutput ++ genCohort p ++ genLtfu ++ genHeterogeneity ++
  genHivtest ++ genNathist ++ genChrms ++ genQol ++ genCosts ++
  genTreatmentPart1 ++ genArts ++ genTreatmentPart2 ++ genProphs ++ genSti ++
  genTb ++ genPeds ++ genPedsProphs ++ genPedsArts ++ genPedsCosts ++
  genEid ++ genAdolescent ++ genAdolescentArts

/-- `InputGenerator.generate(params)`: the accumulated lines joined by
newlines (Python's `chr(10).join(self.lines)`). -/
def generate (p : Params) : String := joinNl (generateLines p)

/-! ## Specification-side models

Two definitions below follow the specification's words rather than the
source, for comparison with the source-derived definitions: the
specification's Bool-coercion rule ("parse as a number and test
non-zero") and its comment-stripping rule ("content after an unquoted
`#` is removed"). -/

/-- The Bool coercion as the SPECIFICATION describes it: the two word
lists, then "parse as a number and test non-zero" (modelled with
`float(...)`, under which `"2.5"` is a number).  Compare `readBoolTok`,
which is the source's rule (`int(...)` only). -/
def specReadBool (t : String) : Bool :=
  let lt := pyLower t
  if ["true", "1", "yes", "y"].contains lt then true
  else if ["false", "0", "no", "n"].contains lt then false
  else
    match pyFloat t with
    | some (.num q) => decide (q ≠ 0)
    | some (.inf _) => true
    | some .nan => true
    | none => false

/-- Per-line comment stripping as the SPECIFICATION describes it: cut
from `//`; cut from a `#` that is not inside quotes (tracked by a
single in-quote flag toggled at `"` or `'`).  Compare
`tokenize.stripLine`, the source's rule, which keeps `#` whenever the
line contains a quote character anywhere. -/
def specStripLine : List Char → Bool → List Char
  | [], _ => []
  | c :: t, inq =>
    if ['/', '/'].isPrefixOf (c :: t) then []
    else if c = '#' && !inq then []
    else if c = '"' || c = '\'' then c :: specStripLine t (!inq)
    else c :: specStripLine t inq

/-- `_tokenize` as the SPECIFICATION describes it: `specStripLine` per
line, then whitespace split. -/
def specTokenize (content : String) : List String :=
  let lines := splitOnChar '\n' content.data
  let cleaned := lines.map (fun l => specStripLine l false)
  let joined := intercalateChar '\n' cleaned
  (pySplitWs joined).map (fun cs => ⟨cs⟩)

/-! ## Decomposition of the generated text around the `InitCD4` line -/

/-- The one generated line whose values are read from the tree: the
`InitCD4` line of `_gen_cohort`. -/
def initCD4Line (p : Params) : String :=
  w "InitCD4" [pget p "cohort" "initialCD4Mean" (vf (qi 500)),
               pget p "cohort" "initialCD4StdDev" (vf (qi 200))]

/-- Every generated line after the `InitCD4` line; none of them depends
on the tree. -/
def tailLines : List String :=
  cohortRest ++ genLtfu ++ genHeterogeneity ++ genHivtest ++ genNathist ++
  genChrms ++ genQol ++ genCosts ++ genTreatmentPart1 ++ genArts ++
  genTreatmentPart2 ++ genProphs ++ genSti ++ genTb ++ genPeds ++
  genPedsProphs ++ genPedsArts ++ genPedsCosts ++ genEid ++ genAdolescent ++
  genAdolescentArts

/-! ## Mutated input trees used as concrete encoder inputs -/

/-- The default tree with `cohort.initialCD4Mean` (a Float field of the
schema, default `500.0`) set to `600.0` — a valid field mutation. -/
def meanMutatedTree : Params :=
  setParam create_default_params "cohort" "initialCD4Mean" (vf (qi 600))

/-- The default tree with `runspecs.numCohorts` set to `5000` and
`runspecs.discountFactor` set to `0.05` — the two valid field mutations
of the round-trip scenario. -/
def runspecsMutatedTree : Params :=
  setParam (setParam create_default_params "runspecs" "numCohorts" (vi 5000))
    "runspecs" "discountFactor" (vf q005)

/-! ## Supporting lemmas: tree updates and lookups -/

/-- `qi n` is the rational `n`. -/
theorem qi_intCast (n : ℤ) : qi n = (n : ℚ) := by
  refine Rat.ext ?_ ?_ <;> simp [qi]

/-- Updating one key leaves lookups of other keys unchanged. -/
theorem alookup_aset_ne {α : Type} (k k' : String) (v : α)
    (s : List (String × α)) (h : k ≠ k') :
    alookup k (aset k' v s) = alookup k s := by
  induction s with
  | nil => simp [aset, alookup, Ne.symm h]
  | cons a t ih =>
    by_cases ha : a.1 = k'
    · simp [aset, ha, alookup, Ne.symm h, h]
    · by_cases hb : a.1 = k
      · simp [aset, ha, alookup, hb, h]
      · simp [aset, ha, alookup, hb, ih]

/-- Lookup through a key-preserving value map. -/
theorem alookup_map_val (F : String → Sect → Sect) (p : Params) (k : String) :
    alookup k (p.map (fun s => (s.1, F s.1 s.2))) = (alookup k p).map (F k) := by
  induction p with
  | nil => rfl
  | cons a t ih =>
    by_cases ha : a.1 = k
    · subst ha; simp [alookup]
    · simp [alookup, ha, ih]

/-- `setParam` as a key-preserving value map. -/
theorem setParam_eq (p : Params) (tab path : String) (v : Val) :
    setParam p tab path v =
      p.map (fun s => (s.1, if s.1 = tab then aset path v s.2 else s.2)) := by
  unfold setParam
  congr 1
  funext s
  by_cases hs : s.1 = tab
  · simp [hs]
  · simp [hs]

/-- Writing one field leaves every field with a different path name
unchanged (in every section). -/
theorem lookupParam_setParam_ne (p : Params) (tab path tab0 path0 : String)
    (v : Val) (h : path0 ≠ path) :
    lookupParam (setParam p tab path v) tab0 path0 = lookupParam p tab0 path0 := by
  rw [lookupParam, lookupParam, setParam_eq,
    alookup_map_val (fun k s => if k = tab then aset path v s else s) p tab0]
  cases alookup tab0 p with
  | none => rfl
  | some s =>
    simp only [Option.map_some', Option.some_bind]
    by_cases ht : tab0 = tab
    · rw [if_pos ht]; exact alookup_aset_ne _ _ _ _ h
    · rw [if_neg ht]

/-- A single keyword dispatch can only write the field it was mapped
to: every other path is untouched. -/
theorem readValueForPath_frame (p : Params) (tab path : String)
    (ts : List String) (p' : Params) (ts' : List String)
    (h : readValueForPath p tab path ts = some (p', ts'))
    (tab0 path0 : String) (hp : path0 ≠ path) :
    lookupParam p' tab0 path0 = lookupParam p tab0 path0 := by
  unfold readValueForPath at h
  split at h
  · simp only [Option.some.injEq, Prod.mk.injEq] at h
    rw [← h.1]
  · split at h
    · simp only [Option.some.injEq, Prod.mk.injEq] at h
      rw [← h.1]
    · split at h
      · simp only [Option.some.injEq, Prod.mk.injEq] at h
        rw [← h.1]
      · split at h
        · simp only [Option.some.injEq, Prod.mk.injEq] at h
          rw [← h.1]
          exact lookupParam_setParam_ne _ _ _ _ _ _ hp
        · rw [Option.map_eq_some'] at h
          obtain ⟨r, _, hr⟩ := h
          simp only [Prod.mk.injEq] at hr
          rw [← hr.1]
          exact lookupParam_setParam_ne _ _ _ _ _ _ hp
        · simp only [Option.some.injEq, Prod.mk.injEq] at h
          rw [← h.1]
          exact lookupParam_setParam_ne _ _ _ _ _ _ hp
        · simp only [Option.some.injEq, Prod.mk.injEq] at h
          rw [← h.1]
          exact lookupParam_setParam_ne _ _ _ _ _ _ hp
        · rw [Option.map_eq_some'] at h
          obtain ⟨r, _, hr⟩ := h
          simp only [Prod.mk.injEq] at hr
          rw [← hr.1]
          exact lookupParam_setParam_ne _ _ _ _ _ _ hp
        · simp only [Option.some.injEq, Prod.mk.injEq] at h
          rw [← h.1]

/-- A successful `kwLookup` result comes from a `KEYWORD_MAP` entry. -/
theorem kwLookup_mem (t : String) (tp : String × String)
    (h : kwLookup t = some tp) :
    ∃ e ∈ KEYWORD_MAP, e.2 = tp := by
  unfold kwLookup at h
  split at h
  · next e he =>
    simp only [Option.some.injEq] at h
    exact ⟨e, List.mem_of_find?_eq_some he, h⟩
  · cases h

/-- Frame property of the scan loop: a path name that is not in the
range of `KEYWORD_MAP` is never written, whatever the token stream. -/
theorem parseLoop_frame (path0 : String)
    (hmap : ∀ e ∈ KEYWORD_MAP, e.2.2 ≠ path0) :
    ∀ (fuel : ℕ) (ts : List String) (p p' : Params) (tab0 : String),
      parseLoop fuel ts p = some p' →
      lookupParam p' tab0 path0 = lookupParam p tab0 path0 := by
  intro fuel
  induction fuel with
  | zero =>
    intro ts p p' tab0 h
    cases ts with
    | nil => simp only [parseLoop, Option.some.injEq] at h; rw [h]
    | cons a t => exact absurd h (by simp [parseLoop])
  | succ n ih =>
    intro ts p p' tab0 h
    cases ts with
    | nil => simp only [parseLoop, Option.some.injEq] at h; rw [h]
    | cons tok rest =>
      rw [parseLoop] at h
      split at h
      · split at h
        · next tp hm =>
          split at h
          · next p1 rest1 hv =>
            obtain ⟨e, he, hetp⟩ := kwLookup_mem tok tp hm
            have hne : path0 ≠ tp.2 := by
              rw [← hetp]; exact fun hh => hmap e he hh.symm
            calc lookupParam p' tab0 path0
                = lookupParam p1 tab0 path0 := ih rest1 p1 p' tab0 h
              _ = lookupParam p tab0 path0 :=
                  readValueForPath_frame p tp.1 tp.2 rest p1 rest1 hv tab0 path0 hne
          · cases h
        · exact ih rest p p' tab0 h
      · exact ih rest p p' tab0 h

/-! ## Supporting lemmas: step equations for `readListInto`

`readListInto` is defined by well-founded recursion, so its equations
are established once here and used for all evaluations. -/

theorem readListInto_nil (ts : List String) : readListInto [] ts = some ([], ts) := by
  simp [readListInto]

theorem readListInto_exhausted (v : Val) (vs : List Val) :
    readListInto (v :: vs) [] = some (v :: vs, []) := by
  simp [readListInto]

theorem readListInto_float (f : PFloat) (vs : List Val) (t : String) (ts : List String) :
    readListInto (.VFloat f :: vs) (t :: ts) =
      (readListInto vs ts).map
        (fun r => (.VFloat ((pyFloat t).getD (.num 0)) :: r.1, r.2)) := by
  simp [readListInto]

/-- One recognized-keyword step of the scan loop. -/
theorem parseLoop_succ_keyword (fuel : ℕ) (tok : String) (rest : List String)
    (p : Params) (tp : String × String)
    (hk : isKeyword tok = true) (hm : kwLookup tok = some tp) :
    parseLoop (fuel + 1) (tok :: rest) p =
      match readValueForPath p tp.1 tp.2 rest with
      | some (p1, rest1) => parseLoop fuel rest1 p1
      | none => none := by
  rw [parseLoop, if_pos hk, hm]

/-- One step of the parse loop at a recognized keyword whose value read
succeeds: the loop continues on the returned tree and remaining tokens. -/
theorem parseLoop_succ_keyword_some (fuel : ℕ) (tok : String) (rest : List String)
    (p : Params) (tp : String × String) (p1 : Params) (rest1 : List String)
    (hk : isKeyword tok = true) (hm : kwLookup tok = some tp)
    (hv : readValueForPath p tp.1 tp.2 rest = some (p1, rest1)) :
    parseLoop (fuel + 1) (tok :: rest) p = parseLoop fuel rest1 p1 := by
  rw [parseLoop_succ_keyword fuel tok rest p tp hk hm, hv]

theorem pyFloat_tok500 : (pyFloat "500").getD (.num 0) = .num (qi 500) := by
  have h : pyFloat "500" = some (.num (mulPow10 ((500:ℕ) : ℚ) (-((0:ℕ) : ℤ)))) := rfl
  rw [h, Option.getD_some, qi_intCast]
  congr 1
  norm_num [mulPow10]

theorem pyFloat_tok350 : (pyFloat "350").getD (.num 0) = .num (qi 350) := by
  have h : pyFloat "350" = some (.num (mulPow10 ((350:ℕ) : ℚ) (-((0:ℕ) : ℤ)))) := rfl
  rw [h, Option.getD_some, qi_intCast]
  congr 1
  norm_num [mulPow10]

theorem pyFloat_tok200 : (pyFloat "200").getD (.num 0) = .num (qi 200) := by
  have h : pyFloat "200" = some (.num (mulPow10 ((200:ℕ) : ℚ) (-((0:ℕ) : ℤ)))) := rfl
  rw [h, Option.getD_some, qi_intCast]
  congr 1
  norm_num [mulPow10]

theorem pyFloat_tok100 : (pyFloat "100").getD (.num 0) = .num (qi 100) := by
  have h : pyFloat "100" = some (.num (mulPow10 ((100:ℕ) : ℚ) (-((0:ℕ) : ℤ)))) := rfl
  rw [h, Option.getD_some, qi_intCast]
  congr 1
  norm_num [mulPow10]

theorem pyFloat_tok50 : (pyFloat "50").getD (.num 0) = .num (qi 50) := by
  have h : pyFloat "50" = some (.num (mulPow10 ((50:ℕ) : ℚ) (-((0:ℕ) : ℤ)))) := rfl
  rw [h, Option.getD_some, qi_intCast]
  congr 1
  norm_num [mulPow10]

theorem pyFloat_tok999 : (pyFloat "999").getD (.num 0) = .num (qi 999) := by
  have h : pyFloat "999" = some (.num (mulPow10 ((999:ℕ) : ℚ) (-((0:ℕ) : ℤ)))) := rfl
  rw [h, Option.getD_some, qi_intCast]
  congr 1
  norm_num [mulPow10]

/-- Reading the five CD4 bounds from a descending token stream writes
them back in stream order (no inversion anywhere in the decoder). -/
theorem readListInto_CD4Bounds_rev :
    readListInto
      [.VFloat (.num (qi 50)), .VFloat (.num (qi 100)), .VFloat (.num (qi 200)),
       .VFloat (.num (qi 350)), .VFloat (.num (qi 500))]
      ["500", "350", "200", "100", "50"] =
    some ([.VFloat (.num (qi 500)), .VFloat (.num (qi 350)), .VFloat (.num (qi 200)),
           .VFloat (.num (qi 100)), .VFloat (.num (qi 50))], []) := by
  rw [readListInto_float, readListInto_float, readListInto_float, readListInto_float,
    readListInto_float, readListInto_nil]
  simp only [Option.map_some']
  rw [pyFloat_tok500, pyFloat_tok350, pyFloat_tok200, pyFloat_tok100, pyFloat_tok50]

/-- Reading the five CD4 bounds from a single-token stream overwrites
only the first element; the exhausted tail keeps its defaults. -/
theorem readListInto_CD4Bounds_one :
    readListInto
      [.VFloat (.num (qi 50)), .VFloat (.num (qi 100)), .VFloat (.num (qi 200)),
       .VFloat (.num (qi 350)), .VFloat (.num (qi 500))]
      ["999"] =
    some ([.VFloat (.num (qi 999)), .VFloat (.num (qi 100)), .VFloat (.num (qi 200)),
           .VFloat (.num (qi 350)), .VFloat (.num (qi 500))], []) := by
  rw [readListInto_float, readListInto_exhausted]
  simp only [Option.map_some']
  rw [pyFloat_tok999]

/-! ## Supporting lemmas: the shape of the generated text -/

theorem generateLines_decomp (p : Params) :
    generateLines p = (genRunspecs p ++ genOutput) ++ initCD4Line p :: tailLines := by
  simp only [generateLines, genCohort, tailLines, initCD4Line, List.append_assoc,
    List.cons_append]

theorem joinNl_cons (x : String) (L : List String) (h : L ≠ []) :
    joinNl (x :: L) = x ++ "\n" ++ joinNl L := by
  cases L with
  | nil => exact absurd rfl h
  | cons a t => rfl

theorem joinNl_append (A B : List String) (hA : A ≠ []) (hB : B ≠ []) :
    joinNl (A ++ B) = joinNl A ++ "\n" ++ joinNl B := by
  induction A with
  | nil => exact absurd rfl hA
  | cons a t ih =>
    cases t with
    | nil =>
      cases B with
      | nil => exact absurd rfl hB
      | cons b tb =>
        rw [List.singleton_append, joinNl_cons a (b :: tb) (by simp)]
        rfl
    | cons a2 t2 =>
      have h1 : (a2 :: t2) ++ B ≠ [] := by simp
      rw [List.cons_append, joinNl_cons a _ h1, joinNl_cons a (a2 :: t2) (by simp),
        ih (by simp)]
      simp [String.append_assoc]

theorem tailLines_ne_nil : tailLines ≠ [] := by
  intro h
  have h1 : tailLines.take 1 = [w "UseSqRtTransform" [vi 1]] := rfl
  rw [h] at h1
  cases h1

theorem runspecsOutput_ne_nil (p : Params) : genRunspecs p ++ genOutput ≠ [] := by
  intro h
  have h1 : (genRunspecs p ++ genOutput).take 1 =
      [w "Runset" [pget p "runspecs" "runSetName" (vs "DefaultRun")]] := rfl
  rw [h] at h1
  cases h1

/-- The generated text split at the `InitCD4` line. -/
theorem generate_split (p : Params) :
    generate p = joinNl (genRunspecs p ++ genOutput) ++ "\n" ++
      (initCD4Line p ++ "\n" ++ joinNl tailLines) := by
  rw [generate, generateLines_decomp p,
    joinNl_append _ _ (runspecsOutput_ne_nil p) (List.cons_ne_nil _ _),
    joinNl_cons _ _ tailLines_ne_nil]

/-- Two texts that agree except on a middle line of the same length
with different content are different: cancellation of the common
prefix-shape and suffix. -/
theorem middle_line_ne (u v J m1 m2 : String)
    (hlen : m1.data.length = m2.data.length)
    (hne : m1.data ≠ m2.data)
    (h : u ++ "\n" ++ (m1 ++ "\n" ++ J) = v ++ "\n" ++ (m2 ++ "\n" ++ J)) : False := by
  have hd : (u.data ++ "\n".data) ++ ((m1.data ++ "\n".data) ++ J.data) =
      (v.data ++ "\n".data) ++ ((m2.data ++ "\n".data) ++ J.data) :=
    congrArg String.data h
  have h' : u.data ++ ("\n".data ++ (m1.data ++ ("\n".data ++ J.data))) =
      v.data ++ ("\n".data ++ (m2.data ++ ("\n".data ++ J.data))) := by
    simpa [List.append_assoc] using hd
  have hl2 : ("\n".data ++ (m1.data ++ ("\n".data ++ J.data))).length =
      ("\n".data ++ (m2.data ++ ("\n".data ++ J.data))).length := by
    simp [hlen]
  have hs := (List.append_inj' h' hl2).2
  have h2 := List.append_cancel_left hs
  have h3 := List.append_cancel_right h2
  exact hne h3

/-! ## The specification's claims -/

set_option maxRecDepth 4000 in
/-- C1.  The claimed round-trip identity `encode(decode(encode(T))) ==
encode(T)` fails.  `meanMutatedTree` mutates the existing Float field
`cohort.initialCD4Mean` (first conjunct: it exists with default
`500.0`) to `600.0`, so its encoding carries the line
`InitCD4<TAB>600<TAB>200`.  But no `KEYWORD_MAP` entry maps any keyword
to the path `initialCD4Mean` (the `InitCD4` entry points at the
nonexistent path `initialCD4`), so any tree the decoder returns still
holds the default `500.0` there, and its re-encoding carries
`InitCD4<TAB>500<TAB>200` at the same position: the two texts differ.
The second conjunct states that no decoder result re-encodes to the
original text (it also covers the case where the decoder raises). -/
theorem C1_encode_decode_encode_not_identity :
    lookupParam create_default_params "cohort" "initialCD4Mean"
        = some (vf (qi 500)) ∧
    ¬ ∃ p', parse_content (generate meanMutatedTree) = some p' ∧
        generate p' = generate meanMutatedTree := by
  refine ⟨rfl, ?_⟩
  rintro ⟨p', hparse, hgen⟩
  simp only [parse_content] at hparse
  have hmean : lookupParam p' "cohort" "initialCD4Mean" = some (vf (qi 500)) :=
    (parseLoop_frame "initialCD4Mean" (by decide) _ _ _ p' "cohort" hparse).trans rfl
  have hstd : lookupParam p' "cohort" "initialCD4StdDev" = some (vf (qi 200)) :=
    (parseLoop_frame "initialCD4StdDev" (by decide) _ _ _ p' "cohort" hparse).trans rfl
  obtain ⟨sec, hsec, hm2⟩ : ∃ sec, alookup "cohort" p' = some sec ∧
      alookup "initialCD4Mean" sec = some (vf (qi 500)) := by
    rw [lookupParam] at hmean
    cases hs : alookup "cohort" p' with
    | none => rw [hs] at hmean; simp at hmean
    | some s =>
      rw [hs] at hmean
      simp only [Option.some_bind] at hmean
      exact ⟨s, rfl, hmean⟩
  have hs2 : alookup "initialCD4StdDev" sec = some (vf (qi 200)) := by
    rw [lookupParam, hsec] at hstd
    simpa using hstd
  have hpg1 : pget p' "cohort" "initialCD4Mean" (vf (qi 500)) = vf (qi 500) := by
    simp only [pget, hsec, hm2, Option.getD_some]
  have hpg2 : pget p' "cohort" "initialCD4StdDev" (vf (qi 200)) = vf (qi 200) := by
    simp only [pget, hsec, hs2, Option.getD_some]
  have hline : initCD4Line p' = "InitCD4\t500\t200" := by
    rw [initCD4Line, hpg1, hpg2]
    rfl
  have hline600 : initCD4Line meanMutatedTree = "InitCD4\t600\t200" := rfl
  rw [generate_split p', generate_split meanMutatedTree, hline, hline600] at hgen
  exact middle_line_ne
    (joinNl (genRunspecs p' ++ genOutput))
    (joinNl (genRunspecs meanMutatedTree ++ genOutput))
    (joinNl tailLines)
    "InitCD4\t500\t200" "InitCD4\t600\t200"
    (by decide) (by decide) hgen

/-- C2.  The claimed stratum-axis wire inversion does not exist on
either side of the codec.  For the CD4-stratum bounds vector
`runspecs.CD4StrataUpperBounds` (in memory ascending,
`[50,100,200,350,500]` — first conjunct), the encoder emits the line
`CD4Bounds<TAB>50<TAB>100<TAB>200<TAB>350<TAB>500` in the SAME
ascending order (second conjunct), not descending; and decoding a line
whose values are listed descending writes them back in stream order,
`[500,350,200,100,50]`, without the claimed un-inversion (third
conjunct). -/
theorem C2_stratum_wire_order_not_uninverted :
    lookupParam create_default_params "runspecs" "CD4StrataUpperBounds" =
      some (.VList [vf (qi 50), vf (qi 100), vf (qi 200), vf (qi 350), vf (qi 500)]) ∧
    "CD4Bounds\t50\t100\t200\t350\t500" ∈ genRunspecs create_default_params ∧
    ∃ p', parse_content "CD4Bounds\t500\t350\t200\t100\t50" = some p' ∧
      lookupParam p' "runspecs" "CD4StrataUpperBounds" =
        some (.VList [vf (qi 500), vf (qi 350), vf (qi 200), vf (qi 100), vf (qi 50)]) := by
  refine ⟨rfl, by decide, ?_⟩
  refine ⟨setParam create_default_params "runspecs" "CD4StrataUpperBounds"
    (.VList [vf (qi 500), vf (qi 350), vf (qi 200), vf (qi 100), vf (qi 50)]), ?_, rfl⟩
  have hB : parse_content "CD4Bounds\t500\t350\t200\t100\t50" =
      parseLoop (5 + 1) ["CD4Bounds", "500", "350", "200", "100", "50"]
        create_default_params := rfl
  have hC : readValueForPath create_default_params "runspecs" "CD4StrataUpperBounds"
        ["500", "350", "200", "100", "50"] =
      (readListInto
        [.VFloat (.num (qi 50)), .VFloat (.num (qi 100)), .VFloat (.num (qi 200)),
         .VFloat (.num (qi 350)), .VFloat (.num (qi 500))]
        ["500", "350", "200", "100", "50"]).map
        (fun r => (setParam create_default_params "runspecs" "CD4StrataUpperBounds"
          (.VList r.1), r.2)) := rfl
  have hD : readValueForPath create_default_params "runspecs" "CD4StrataUpperBounds"
        ["500", "350", "200", "100", "50"] =
      some (setParam create_default_params "runspecs" "CD4StrataUpperBounds"
        (.VList [vf (qi 500), vf (qi 350), vf (qi 200), vf (qi 100), vf (qi 50)]), []) := by
    rw [hC, readListInto_CD4Bounds_rev]
    rfl
  rw [hB, parseLoop_succ_keyword_some 5 "CD4Bounds" _ _
    ("runspecs", "CD4StrataUpperBounds") _ _ rfl rfl hD]
  rfl

/-- C3.  In the claimed round-trip scenario (defaults with
`runspecs.numCohorts := 5000` and `runspecs.discountFactor := 0.05`),
the encoder does emit `CohortSize<TAB>5000` before
`DiscFactor<TAB>0.05` (first conjunct: generated lines 1 and 2), but
the claim's "every other field still at its default" part fails: the
encoded text also contains the hardcoded line
`NumPatientsToTrace<TAB>0` (second conjunct), decoding that line
overwrites `output.traceNumSelection` with `0` (third conjunct), and
the schema default of that field is `100` (fourth conjunct). -/
theorem C3_runspecs_roundtrip_default_violation :
    (generateLines runspecsMutatedTree).take 3 =
      ["Runset\tDefaultRunSet", "CohortSize\t5000", "DiscFactor\t0.05"] ∧
    "NumPatientsToTrace\t0" ∈ generateLines runspecsMutatedTree ∧
    (∃ p', parse_content "NumPatientsToTrace\t0" = some p' ∧
       lookupParam p' "output" "traceNumSelection" = some (vi 0)) ∧
    lookupParam create_default_params "output" "traceNumSelection" = some (vi 100) := by
  exact ⟨rfl, by decide, ⟨_, rfl, rfl⟩, rfl⟩

/-- C4.  Decoding the empty string returns the default tree:
`parse_content ""` succeeds and its result is `create_default_params`
itself. -/
theorem C4_decode_empty_is_defaults :
    parse_content "" = some create_default_params := rfl

/-- C6.  Decoding `NotARealKeyword 1 2 3` raises nothing and returns
the default tree unchanged: none of the four tokens is recognized by
`_is_keyword`, and each is skipped without consuming any value. -/
theorem C6_unknown_keyword_skipped :
    parse_content "NotARealKeyword 1 2 3" = some create_default_params := rfl

/-- C7 (corrected).  The decoder's Bool coercion, exercised through the
mapped Bool field `runspecs.enableOIHistoryLogging` (keyword
`LogPriorOIHistProb`): `yes` yields true, `maybe` yields false, `2`
yields true — as claimed — but the coercion parses unlisted tokens with
`int(...)` ONLY, so the numeric token `2.5` yields FALSE (`int("2.5")`
raises `ValueError`), not "true iff non-zero" as the specification's
"parsed as a number" rule would give (see the counterexample
theorem). -/
theorem C7_bool_coercion_table :
    (∃ p', parse_content "LogPriorOIHistProb\tyes" = some p' ∧
       lookupParam p' "runspecs" "enableOIHistoryLogging" = some (vb true)) ∧
    (∃ p', parse_content "LogPriorOIHistProb\tmaybe" = some p' ∧
       lookupParam p' "runspecs" "enableOIHistoryLogging" = some (vb false)) ∧
    (∃ p', parse_content "LogPriorOIHistProb\t2" = some p' ∧
       lookupParam p' "runspecs" "enableOIHistoryLogging" = some (vb true)) ∧
    (∃ p', parse_content "LogPriorOIHistProb\t2.5" = some p' ∧
       lookupParam p' "runspecs" "enableOIHistoryLogging" = some (vb false)) := by
  exact ⟨⟨_, rfl, rfl⟩, ⟨_, rfl, rfl⟩, ⟨_, rfl, rfl⟩, ⟨_, rfl, rfl⟩⟩

/-- Counterexample to C7's "any other token is parsed as a number and
yields true iff non-zero": on the numeric token `2.5` the source's
coercion (`readBoolTok`, via `int(...)`) yields false while the
specification's rule (`specReadBool`, parse as a number) yields
true. -/
theorem C7_counterexample_float_token :
    readBoolTok "2.5" = false ∧ specReadBool "2.5" = true := by
  constructor
  · rfl
  · have h1 : pyFloat "2.5" =
        some (.num (mulPow10 ((25:ℕ) : ℚ) (-((1:ℕ) : ℤ)))) := rfl
    rw [specReadBool]
    rw [show pyLower "2.5" = "2.5" from rfl]
    rw [if_neg (by decide), if_neg (by decide), h1]
    simp only [decide_eq_true_eq]
    norm_num [mulPow10]

/-- C8.  The encoder's value formatting `_fmt`: Bool renders as `1`/`0`;
a Float equal to an integer renders with no decimal point (`str(int(v))`,
for every integer value); a non-integral Float renders to 6 significant
digits (`0.03`, and `1/3` as `0.333333`); Int and String render
literally. -/
theorem C8_fmt_value_formatting :
    fmt (vb true) = "1" ∧ fmt (vb false) = "0" ∧
    (∀ n : ℤ, fmt (vf (qi n)) = Int.repr n) ∧
    fmt (vf (qi 2000)) = "2000" ∧
    fmt (vf q003) = "0.03" ∧
    fmt (vf qThird) = "0.333333" ∧
    (∀ n : ℤ, fmt (vi n) = Int.repr n) ∧
    (∀ s : String, fmt (vs s) = s) :=
  ⟨rfl, rfl, fun _ => rfl, rfl, rfl, rfl, fun _ => rfl, fun _ => rfl⟩

/-- C9 (corrected).  Comment stripping before tokenization: `//` is cut
on every line, but `#` is cut only on lines that contain NO quote
character — not "after an unquoted `#`" as the specification says.  On
a quote-free line both behave alike (first conjunct); on the line
`x "y" # z` the source keeps the `#` and everything after it (second
conjunct), while the specification's rule would strip them (see the
counterexample theorem). -/
theorem C9_comment_stripping_quote_guard :
    tokenize "a // b\nc # d" = ["a", "c"] ∧
    tokenize "x \"y\" # z" = ["x", "\"y\"", "#", "z"] := ⟨rfl, rfl⟩

/-- Counterexample to C9's "content after an unquoted `#` is removed":
on the line `x "y" # z` the `#` stands outside the quotes, the
specification's rule (`specTokenize`) strips it, but the source's
tokenizer keeps it because the line contains a quote character. -/
theorem C9_counterexample_quoted_line_hash :
    specTokenize "x \"y\" # z" = ["x", "\"y\""] ∧
    tokenize "x \"y\" # z" ≠ specTokenize "x \"y\" # z" := by
  refine ⟨rfl, ?_⟩
  intro h
  rw [show specTokenize "x \"y\" # z" = ["x", "\"y\""] from rfl] at h
  rw [show tokenize "x \"y\" # z" = ["x", "\"y\"", "#", "z"] from rfl] at h
  cases h

/-- C10.  When the token stream ends right after a recognized scalar
keyword, the decoder overwrites the field with the zero value of its
type rather than keeping the schema default: `CohortSize` alone yields
`numCohorts = 0` (Int default `10000`), `DiscFactor` alone yields
`discountFactor = 0.0` (default `0.03`), `Runset` alone yields the
empty string, `LogPriorOIHistProb` alone yields false; and for a list
field (`CD4Bounds` with one token) only the elements whose tokens are
missing keep their defaults. -/
theorem C10_truncated_stream_zero_fill :
    (∃ p', parse_content "CohortSize" = some p' ∧
       lookupParam p' "runspecs" "numCohorts" = some (vi 0)) ∧
    (∃ p', parse_content "DiscFactor" = some p' ∧
       lookupParam p' "runspecs" "discountFactor" = some (vf 0)) ∧
    (∃ p', parse_content "Runset" = some p' ∧
       lookupParam p' "runspecs" "runSetName" = some (vs "")) ∧
    (∃ p', parse_content "LogPriorOIHistProb" = some p' ∧
       lookupParam p' "runspecs" "enableOIHistoryLogging" = some (vb false)) ∧
    lookupParam create_default_params "runspecs" "numCohorts" = some (vi 10000) ∧
    lookupParam create_default_params "runspecs" "discountFactor" = some (vf q003) ∧
    (∃ p', parse_content "CD4Bounds\t999" = some p' ∧
       lookupParam p' "runspecs" "CD4StrataUpperBounds" =
         some (.VList [vf (qi 999), vf (qi 100), vf (qi 200), vf (qi 350), vf (qi 500)])) := by
  refine ⟨⟨_, rfl, rfl⟩, ⟨_, rfl, rfl⟩, ⟨_, rfl, rfl⟩, ⟨_, rfl, rfl⟩, rfl, rfl, ?_⟩
  refine ⟨setParam create_default_params "runspecs" "CD4StrataUpperBounds"
    (.VList [vf (qi 999), vf (qi 100), vf (qi 200), vf (qi 350), vf (qi 500)]), ?_, rfl⟩
  have hB : parse_content "CD4Bounds\t999" =
      parseLoop (1 + 1) ["CD4Bounds", "999"] create_default_params := rfl
  have hC : readValueForPath create_default_params "runspecs" "CD4StrataUpperBounds"
        ["999"] =
      (readListInto
        [.VFloat (.num (qi 50)), .VFloat (.num (qi 100)), .VFloat (.num (qi 200)),
         .VFloat (.num (qi 350)), .VFloat (.num (qi 500))]
        ["999"]).map
        (fun r => (setParam create_default_params "runspecs" "CD4StrataUpperBounds"
          (.VList r.1), r.2)) := rfl
  have hD : readValueForPath create_default_params "runspecs" "CD4StrataUpperBounds"
        ["999"] =
      some (setParam create_default_params "runspecs" "CD4StrataUpperBounds"
        (.VList [vf (qi 999), vf (qi 100), vf (qi 200), vf (qi 350), vf (qi 500)]), []) := by
    rw [hC, readListInto_CD4Bounds_one]
    rfl
  rw [hB, parseLoop_succ_keyword_some 1 "CD4Bounds" _ _
    ("runspecs", "CD4StrataUpperBounds") _ _ rfl rfl hD]
  rfl

end CEPAC
